import Mathlib

/-!
# Angular power spectra of `ccl_cls.c`: a shallow embedding

The embedding follows `src/src/ccl_cls.c` function by function and keeps
its names.

Conventions of the embedding.

* A C `double` is an exact rational number (`ℚ`); rounding, infinities and
  NaN are not represented, and a division by zero yields `0`.  The one place
  where the order of the roundings decides a statement, the product
  `k*k*k*d1*d2` of `cl_integrand`, has a second definition with the
  multiplication as a parameter (`cl_integrand_rounded`), and binary64
  rounding is `b64`.
* A C `int` is an `Int`.  Where the source computes on the multipole in
  `int` (`2*l`, `l+1`, `l*(l-1)`) the result is reduced to 32 bits by
  `wrap32`; the statements about these values carry the range of `l` in which
  nothing overflows.
* A C array passed with its element count is a `List ℚ`; the count is the
  length of the list.  Reading past the end of an array yields `0`.
* Heap allocation always succeeds, so the `malloc` failure exits
  (`CCL_ERROR_MEMORY`) have no counterpart.  Message buffers are not
  represented.  In `spline_init` and `cl_tracer_new` the call
  `gsl_spline_alloc(gsl_interp_cspline, n)` yields a spline as well; its
  `NULL` result, which the source does not test, is the subject of
  `spline_init_alloc` and `cl_tracer_new_alloc`.
* A function receiving `int *status` is a function of the incoming value of
  the slot returning its result together with the outgoing value
  (`StatusM`).
* Everything `ccl_cls.c` calls but does not define (libm, GSL, the background
  cosmology, the matter power spectrum, `ccl_utils`, the constants of the
  missing headers) is a field of `Externals` or of `ccl_cosmology`.
-/

namespace CCL

/-! ## The status slot -/

/-- Computations that read and write one `int *status` slot. -/
def StatusM (α : Type) : Type := Int → α × Int

instance instMonadStatusM : Monad StatusM where
  pure a := fun s => (a, s)
  bind m f := fun s => f (m s).1 (m s).2

/-- Modelled from the spec: the bodies of the background and power-spectrum
routines (`ccl_background.c`, `ccl_power.c`) are absent.  Following sections 5
and 6 of the specification such a routine is a pure function of its numeric
inputs that reports a failure by writing a non-zero code into the status slot
it was handed, and leaves the slot alone when it succeeds.  A routine is
therefore given by the pair (value, code) it produces, and `call` performs
it against a slot. -/
def call (r : ℚ × Int) : StatusM ℚ := fun s => (r.1, if r.2 = 0 then s else r.2)

/-! ## Constants -/

/-- Value of `GSL_SUCCESS` in GSL's `gsl_errno.h`. -/
def GSL_SUCCESS : Int := 0

/-- Macro `CLIGHT_HMPC` of `ccl_constants.h` (2997.92458). -/
def CLIGHT_HMPC : ℚ := 299792458 / 100000

/-- Macro `DCHI` of `ccl_cls.c`. -/
def DCHI : ℚ := 3

/-- Macro `LLIMBER` of `ccl_cls.c`. -/
def LLIMBER : Int := -100

/-! ## Array access and C conversions -/

/-- Indexing `a[i]` of a C array; out-of-range reads yield `0`. -/
def idx (a : List ℚ) (i : Int) : ℚ := if i < 0 then 0 else a.getD i.toNat 0

/-- Conversion `(int)x` of a `double`: truncation towards zero. -/
def c_int (x : ℚ) : Int := if 0 ≤ x then ⌊x⌋ else ⌈x⌉

/-- Value stored by an `int` operation whose exact result is `n`: the result
reduced to 32 bits in two's complement.  For a result outside the range of
`int` the C standard leaves the behaviour undefined; the reduced value is what
the usual compilers produce. -/
def wrap32 (n : Int) : Int := (n + 2147483648) % 4294967296 - 2147483648

/-- C function `fabs`. -/
def fabs (x : ℚ) : ℚ := if x < 0 then -x else x

/-- C function `fmax`. -/
def fmax (x y : ℚ) : ℚ := if x < y then y else x

/-- C function `fmin`. -/
def fmin (x y : ℚ) : ℚ := if y < x then y else x

/-! ## Adaptive quadrature -/

/-- A run of `gsl_integration_qag` with fixed bounds, tolerances and rule, as
seen from its caller: the routine either asks for the integrand at an abscissa
of its choosing and continues according to the value it receives, or stops with
a GSL status and a result.  The routine sees the integrand only through these
values. -/
inductive Quad where
  | done (gslstatus : Int) (result : ℚ) : Quad
  | eval (x : ℚ) (next : ℚ → Quad) : Quad

/-- Running a quadrature against an integrand that writes to a status slot. -/
def Quad.run : Quad → (ℚ → StatusM ℚ) → StatusM (Int × ℚ)
  | .done gslstatus result, _ => fun s => ((gslstatus, result), s)
  | .eval x next, f => fun s => Quad.run (next (f x s).1) f (f x s).2

/-- Running a quadrature against an integrand without side effects. -/
def Quad.integrate : Quad → (ℚ → ℚ) → Int × ℚ
  | .done gslstatus result, _ => (gslstatus, result)
  | .eval x next, f => Quad.integrate (next (f x)) f

/-! ## External collaborators -/

/-- State of a `gsl_spline` after `gsl_spline_init(spline, x, y, n)`. -/
structure gsl_spline where
  size : Int
  x : List ℚ
  y : List ℚ
deriving DecidableEq

/-- What `ccl_cls.c` uses without defining: libm, GSL, `ccl_utils`, and the
constants of `ccl_cls.h`, `ccl_error.h` and `ccl_params.h`. -/
structure Externals where
  /-- C function `sqrt`. -/
  sqrt : ℚ → ℚ
  /-- C function `log10`. -/
  log10 : ℚ → ℚ
  /-- C function `pow`. -/
  pow : ℚ → ℚ → ℚ
  M_PI : ℚ
  M_LN10 : ℚ
  /-- Status returned by `gsl_spline_init(spline, x, y, n)` on the spline
  allocated by `gsl_spline_alloc(gsl_interp_cspline, n)`. -/
  gsl_spline_init : Int → List ℚ → List ℚ → Int
  /-- Value `gsl_spline_eval(spline, x, acc)`. -/
  gsl_spline_eval : gsl_spline → ℚ → ℚ
  /-- Behaviour of `gsl_integration_qag(F, a, b, 0, 1E-4, 1000,
  GSL_INTEG_GAUSS41, w, result, eresult)` for bounds `a`, `b`. -/
  gsl_integration_qag : ℚ → ℚ → Quad
  /-- Result of `ccl_linear_spacing(xmin, xmax, N)`; `none` is `NULL`. -/
  ccl_linear_spacing : ℚ → ℚ → Int → Option (List ℚ)
  /-- Value `ccl_j_bessel(l, x)`. -/
  ccl_j_bessel : Int → ℚ → ℚ
  CL_TRACER_NC : Int
  CL_TRACER_WL : Int
  CCL_ERROR_LINSPACE : Int
  CCL_ERROR_INCONSISTENT : Int
  CCL_ERROR_SPLINE : Int
  CCL_ERROR_INTEG : Int
  /-- Field `ccl_splines->K_MAX`. -/
  K_MAX : ℚ
  /-- Field `ccl_splines->K_MIN_DEFAULT`. -/
  K_MIN_DEFAULT : ℚ

/-- The `ccl_cosmology` object with the routines that read it.  Each fallible
routine yields its value and the code it reports (`0` when it succeeds), see
`call`. -/
structure ccl_cosmology where
  /-- Field `params.h`. -/
  h : ℚ
  /-- Field `params.Omega_m`. -/
  Omega_m : ℚ
  ccl_h_over_h0 : ℚ → ℚ × Int
  ccl_comoving_radial_distance : ℚ → ℚ × Int
  ccl_scale_factor_of_chi : ℚ → ℚ × Int
  ccl_sinn : ℚ → ℚ × Int
  ccl_growth_rate : ℚ → ℚ × Int
  /-- Value `ccl_nonlin_matter_power(cosmo, k, a, status)`. -/
  ccl_nonlin_matter_power : ℚ → ℚ → ℚ × Int
  /-- Effect of `ccl_check_status(cosmo, status)` on the slot. -/
  ccl_check_status : Int → Int

/-! ## Splines (`spline_init`, `spline_eval`) -/

/-- Struct `SplPar`: a GSL spline with its range and the two values used
outside the range. -/
structure SplPar where
  spline : gsl_spline
  x0 : ℚ
  xf : ℚ
  y0 : ℚ
  yf : ℚ
deriving DecidableEq

instance instInhabitedSplPar : Inhabited SplPar where
  default := { spline := { size := 0, x := [], y := [] }, x0 := 0, xf := 0, y0 := 0, yf := 0 }

/-- Function `spline_init`; `none` is the `NULL` returned when
`gsl_spline_init` reports a non-zero status.  The pointer returned by
`gsl_spline_alloc` is not tested in the source; here it is a spline, see
`spline_init_alloc` for the other case. -/
def spline_init (E : Externals) (n : Int) (x y : List ℚ) (y0 yf : ℚ) : Option SplPar :=
  let parstatus := E.gsl_spline_init n x y
  if parstatus ≠ 0 then none
  else some { spline := { size := n, x := x, y := y },
              x0 := idx x 0, xf := idx x (n - 1), y0 := y0, yf := yf }

/-- Function `spline_eval`. -/
def spline_eval (E : Externals) (x : ℚ) (spl : SplPar) : ℚ :=
  if x ≤ spl.x0 then spl.y0
  else if x ≥ spl.xf then spl.yf
  else E.gsl_spline_eval spl.spline x

/-- Function `speval_bis`. -/
def speval_bis (E : Externals) (x : ℚ) (params : SplPar) : ℚ :=
  spline_eval E x params

/-- Dereference of a spline pointer held by a tracer; a pointer that was never
set reads as the all-zero spline. -/
def deref (p : Option SplPar) : SplPar := p.getD default

/-! ## Tracers -/

/-- Struct `CCL_ClTracer`.  A pointer or flag the constructor did not assign
is `none`. -/
structure CCL_ClTracer where
  tracer_type : Int
  prefac_lensing : ℚ
  chimax : ℚ
  chimin : ℚ
  has_rsd : Option Int
  has_magnification : Option Int
  has_intrinsic_alignment : Option Int
  spl_nz : Option SplPar
  spl_bz : Option SplPar
  spl_sz : Option SplPar
  spl_rf : Option SplPar
  spl_ba : Option SplPar
  spl_wL : Option SplPar
  spl_wM : Option SplPar
deriving DecidableEq

/-- Test `if(flag)` on an `int` field of a tracer; a field that was never set
reads as `0`. -/
def isSet (flag : Option Int) : Prop := flag.getD 0 ≠ 0

instance instDecidableIsSet (flag : Option Int) : Decidable (isSet flag) :=
  inferInstanceAs (Decidable (flag.getD 0 ≠ 0))

/-! ## Projection kernels -/

/-- Function `integrand_wl`, with the fields of `IntLensPar` as arguments. -/
def integrand_wl (E : Externals) (cosmo : ccl_cosmology) (chi : ℚ) (spl_pz : SplPar)
    (chip : ℚ) : StatusM ℚ := do
  let a ← call (cosmo.ccl_scale_factor_of_chi chip)
  let z := 1 / a - 1
  let pz := spline_eval E z spl_pz
  let h := cosmo.h * (← call (cosmo.ccl_h_over_h0 a)) / CLIGHT_HMPC
  if chi = 0 then
    pure (h * pz)
  else do
    let num ← call (cosmo.ccl_sinn (chip - chi))
    let den ← call (cosmo.ccl_sinn chip)
    pure (h * pz * num / den)

/-- Function `window_lensing`: the returned pair is the `int` result and the
value stored in `*win`. -/
def window_lensing (E : Externals) (cosmo : ccl_cosmology) (chi : ℚ) (spl_pz : SplPar)
    (chi_max : ℚ) : Int × ℚ :=
  let status : Int := 0
  let r := (E.gsl_integration_qag chi chi_max).run (integrand_wl E cosmo chi spl_pz) status
  let gslstatus := r.1.1
  let result := r.1.2
  if gslstatus ≠ GSL_SUCCESS ∨ r.2 ≠ 0 then (1, result) else (0, result)

/-- Function `integrand_mag`, with the fields of `IntMagPar` as arguments. -/
def integrand_mag (E : Externals) (cosmo : ccl_cosmology) (chi : ℚ) (spl_pz spl_sz : SplPar)
    (chip : ℚ) : StatusM ℚ := do
  let a ← call (cosmo.ccl_scale_factor_of_chi chip)
  let z := 1 / a - 1
  let pz := spline_eval E z spl_pz
  let sz := spline_eval E z spl_sz
  let h := cosmo.h * (← call (cosmo.ccl_h_over_h0 a)) / CLIGHT_HMPC
  if chi = 0 then
    pure (h * pz * (1 - 5 / 2 * sz))
  else do
    let num ← call (cosmo.ccl_sinn (chip - chi))
    let den ← call (cosmo.ccl_sinn chip)
    pure (h * pz * (1 - 5 / 2 * sz) * num / den)

/-- Function `window_magnification`: the returned pair is the `int` result and
the value stored in `*win`. -/
def window_magnification (E : Externals) (cosmo : ccl_cosmology) (chi : ℚ)
    (spl_pz spl_sz : SplPar) (chi_max : ℚ) : Int × ℚ :=
  let status : Int := 0
  let r := (E.gsl_integration_qag chi chi_max).run
    (integrand_mag E cosmo chi spl_pz spl_sz) status
  let gslstatus := r.1.1
  let result := r.1.2
  if gslstatus ≠ GSL_SUCCESS ∨ r.2 ≠ 0 then (1, result) else (0, result)

/-! ## The tracer constructor -/

/-- Computations of `cl_tracer_new`: they read and write the `int *status`
slot and either go on with a value or leave the function with `return NULL`
(`none`). -/
def Build (α : Type) : Type := Int → Option α × Int

instance instMonadBuild : Monad Build where
  pure a := fun s => (some a, s)
  bind m f := fun s =>
    match (m s).1 with
    | none => (none, (m s).2)
    | some a => f a (m s).2

/-- Error exit of `cl_tracer_new`: `*status = code; return NULL`. -/
def fail {α : Type} (code : Int) : Build α := fun _ => (none, code)

/-- Guarded error exit: `if(c) { *status = code; return NULL; }`. -/
def failIf (c : Prop) [Decidable c] (code : Int) : Build Unit :=
  fun s => if c then (none, code) else (some (), s)

/-- Null test on a freshly built spline:
`if(spl==NULL) { *status = code; return NULL; }`. -/
def orFail {α : Type} (o : Option α) (code : Int) : Build α :=
  fun s => match o with
    | none => (none, code)
    | some a => (some a, s)

/-- A background routine called from `cl_tracer_new`, see `call`. -/
def callB (r : ℚ × Int) : Build ℚ := fun s => (some (call r s).1, (call r s).2)

/-- Function `cl_tracer_new`.  Each triple of a count and two arrays of the C
signature is a pair of lists.  `none` is the `NULL` result. -/
def cl_tracer_new (E : Externals) (cosmo : ccl_cosmology) (tracer_type : Int)
    (has_rsd has_magnification has_intrinsic_alignment : Int)
    (z_n n z_b b z_s s z_ba ba z_rf rf : List ℚ) : Build CCL_ClTracer := do
  let nz_n : Int := z_n.length
  let nz_b : Int := z_b.length
  let nz_s : Int := z_s.length
  let nz_ba : Int := z_ba.length
  let nz_rf : Int := z_rf.length
  let hub := cosmo.h * (← callB (cosmo.ccl_h_over_h0 1)) / CLIGHT_HMPC
  let prefac_lensing := 3 / 2 * hub * hub * cosmo.Omega_m
  if tracer_type = E.CL_TRACER_NC ∨ tracer_type = E.CL_TRACER_WL then do
    let clt_chimax ← callB (cosmo.ccl_comoving_radial_distance (1 / (1 + idx z_n (nz_n - 1))))
    let spl_nz_raw ← orFail (spline_init E nz_n z_n n 0 0) E.CCL_ERROR_SPLINE
    -- Normalize n(z)
    let q := (E.gsl_integration_qag (idx z_n 0) (idx z_n (nz_n - 1))).integrate
      (fun x => speval_bis E x spl_nz_raw)
    let clstatus := q.1
    let nz_norm := q.2
    failIf (clstatus ≠ GSL_SUCCESS) E.CCL_ERROR_INTEG
    let nz_normalized := n.map (fun v => v / nz_norm)
    let spl_nz ← orFail (spline_init E nz_n z_n nz_normalized 0 0) E.CCL_ERROR_SPLINE
    if tracer_type = E.CL_TRACER_NC then do
      -- Initialize bias spline
      let spl_bz ← orFail (spline_init E nz_b z_b b (idx b 0) (idx b (nz_b - 1)))
        E.CCL_ERROR_SPLINE
      -- the pair (spl_sz, spl_wM), assigned only with magnification
      let mag ← (if has_magnification ≠ 0 then do
          -- Compute weak lensing kernel
          let zmax := spl_nz.xf
          let chimax ← callB (cosmo.ccl_comoving_radial_distance (1 / (1 + zmax)))
          let spl_sz ← orFail (spline_init E nz_s z_s s (idx s 0) (idx s (nz_s - 1)))
            E.CCL_ERROR_SPLINE
          let nchi := c_int (chimax / 5) + 1
          let x := (E.ccl_linear_spacing 0 chimax nchi).getD []
          failIf (E.ccl_linear_spacing 0 chimax nchi = none ∨ fabs (idx x 0 - 0) > 1 / 100000
            ∨ fabs (idx x (nchi - 1) - chimax) > 1 / 100000) E.CCL_ERROR_LINSPACE
          let w := (List.range nchi.toNat).map (fun (j : Nat) =>
            window_magnification E cosmo (idx x (j : Int)) spl_nz spl_sz chimax)
          let clstatus := w.foldl (fun c r => Int.lor c r.1) clstatus
          let y := w.map (fun r => r.2)
          failIf (clstatus ≠ 0) E.CCL_ERROR_INTEG
          let spl_wM ← orFail (spline_init E nchi x y (idx y 0) 0) E.CCL_ERROR_SPLINE
          pure (some spl_sz, some spl_wM)
        else pure (none, none))
      let chimin ← callB (cosmo.ccl_comoving_radial_distance (1 / (1 + idx z_n 0)))
      pure
        { tracer_type := tracer_type, prefac_lensing := prefac_lensing,
          chimax := clt_chimax, chimin := chimin,
          has_rsd := some has_rsd, has_magnification := some has_magnification,
          has_intrinsic_alignment := none,
          spl_nz := some spl_nz, spl_bz := some spl_bz, spl_sz := mag.1,
          spl_rf := none, spl_ba := none, spl_wL := none, spl_wM := mag.2 }
    else if tracer_type = E.CL_TRACER_WL then do
      -- Compute weak lensing kernel
      let zmax := spl_nz.xf
      let chimax ← callB (cosmo.ccl_comoving_radial_distance (1 / (1 + zmax)))
      let chimin : ℚ := 0
      let nchi := c_int (chimax / 5) + 1
      let x := (E.ccl_linear_spacing 0 chimax nchi).getD []
      failIf (E.ccl_linear_spacing 0 chimax nchi = none ∨ fabs (idx x 0 - 0) > 1 / 100000
        ∨ fabs (idx x (nchi - 1) - chimax) > 1 / 100000) E.CCL_ERROR_LINSPACE
      let w := (List.range nchi.toNat).map (fun (j : Nat) =>
        window_lensing E cosmo (idx x (j : Int)) spl_nz chimax)
      let clstatus := w.foldl (fun c r => Int.lor c r.1) clstatus
      let y := w.map (fun r => r.2)
      failIf (clstatus ≠ 0) E.CCL_ERROR_INTEG
      let spl_wL ← orFail (spline_init E nchi x y (idx y 0) 0) E.CCL_ERROR_SPLINE
      -- the pair (spl_rf, spl_ba), assigned only with intrinsic alignment
      let ia ← (if has_intrinsic_alignment ≠ 0 then do
          let spl_rf ← orFail (spline_init E nz_rf z_rf rf (idx rf 0) (idx rf (nz_rf - 1)))
            E.CCL_ERROR_SPLINE
          let spl_ba ← orFail (spline_init E nz_ba z_ba ba (idx ba 0) (idx ba (nz_ba - 1)))
            E.CCL_ERROR_SPLINE
          pure (some spl_rf, some spl_ba)
        else pure (none, none))
      pure
        { tracer_type := tracer_type, prefac_lensing := prefac_lensing,
          chimax := clt_chimax, chimin := chimin,
          has_rsd := none, has_magnification := none,
          has_intrinsic_alignment := some has_intrinsic_alignment,
          spl_nz := some spl_nz, spl_bz := none, spl_sz := none,
          spl_rf := ia.1, spl_ba := ia.2, spl_wL := some spl_wL, spl_wM := none }
    else
      -- not reached: the enclosing test admits the two types only
      pure
        { tracer_type := tracer_type, prefac_lensing := prefac_lensing,
          chimax := clt_chimax, chimin := 0,
          has_rsd := none, has_magnification := none, has_intrinsic_alignment := none,
          spl_nz := some spl_nz, spl_bz := none, spl_sz := none,
          spl_rf := none, spl_ba := none, spl_wL := none, spl_wM := none }
  else fail E.CCL_ERROR_INCONSISTENT

/-- Function `ccl_cl_tracer_new`. -/
def ccl_cl_tracer_new (E : Externals) (cosmo : ccl_cosmology) (tracer_type : Int)
    (has_rsd has_magnification has_intrinsic_alignment : Int)
    (z_n n z_b b z_s s z_ba ba z_rf rf : List ℚ) : Build CCL_ClTracer := fun status =>
  let r := cl_tracer_new E cosmo tracer_type has_rsd has_magnification has_intrinsic_alignment
    z_n n z_b b z_s s z_ba ba z_rf rf status
  (r.1, cosmo.ccl_check_status r.2)

/-- Function `ccl_cl_tracer_number_counts_new`. -/
def ccl_cl_tracer_number_counts_new (E : Externals) (cosmo : ccl_cosmology)
    (has_rsd has_magnification : Int) (z_n n z_b b z_s s : List ℚ) :
    Build CCL_ClTracer :=
  ccl_cl_tracer_new E cosmo E.CL_TRACER_NC has_rsd has_magnification 0
    z_n n z_b b z_s s [] [] [] []

/-- Function `ccl_cl_tracer_number_counts_simple_new`. -/
def ccl_cl_tracer_number_counts_simple_new (E : Externals) (cosmo : ccl_cosmology)
    (z_n n z_b b : List ℚ) : Build CCL_ClTracer :=
  ccl_cl_tracer_new E cosmo E.CL_TRACER_NC 0 0 0 z_n n z_b b [] [] [] [] [] []

/-- Function `ccl_cl_tracer_lensing_new`. -/
def ccl_cl_tracer_lensing_new (E : Externals) (cosmo : ccl_cosmology)
    (has_alignment : Int) (z_n n z_ba ba z_rf rf : List ℚ) : Build CCL_ClTracer :=
  ccl_cl_tracer_new E cosmo E.CL_TRACER_WL 0 0 has_alignment
    z_n n [] [] [] [] z_ba ba z_rf rf

/-- Function `ccl_cl_tracer_lensing_simple_new`. -/
def ccl_cl_tracer_lensing_simple_new (E : Externals) (cosmo : ccl_cosmology)
    (z_n n : List ℚ) : Build CCL_ClTracer :=
  ccl_cl_tracer_new E cosmo E.CL_TRACER_WL 0 0 0 z_n n [] [] [] [] [] [] [] []

/-! ## Transfer functions -/

/-- Function `j_bessel_limber`: in `2*l+1.` the product `2*l` is an `int`
operation and the sum is a `double` operation. -/
def j_bessel_limber (E : Externals) (l : Int) (k : ℚ) : ℚ :=
  E.sqrt (E.M_PI / (((wrap32 (2 * l) : Int) : ℚ) + 1)) / k

/-- Function `f_dens`. -/
def f_dens (E : Externals) (cosmo : ccl_cosmology) (a : ℚ) (clt : CCL_ClTracer) :
    StatusM ℚ := do
  let z := 1 / a - 1
  let pz := spline_eval E z (deref clt.spl_nz)
  let bz := spline_eval E z (deref clt.spl_bz)
  let h := cosmo.h * (← call (cosmo.ccl_h_over_h0 a)) / CLIGHT_HMPC
  pure (pz * bz * h)

/-- Function `f_rsd`. -/
def f_rsd (E : Externals) (cosmo : ccl_cosmology) (a : ℚ) (clt : CCL_ClTracer) :
    StatusM ℚ := do
  let z := 1 / a - 1
  let pz := spline_eval E z (deref clt.spl_nz)
  let fg ← call (cosmo.ccl_growth_rate a)
  let h := cosmo.h * (← call (cosmo.ccl_h_over_h0 a)) / CLIGHT_HMPC
  pure (pz * fg * h)

/-- Function `f_mag`; it does not touch its `cosmo` and `status` arguments. -/
def f_mag (E : Externals) (a chi : ℚ) (clt : CCL_ClTracer) : ℚ :=
  let wM := spline_eval E chi (deref clt.spl_wM)
  if wM ≤ 0 then 0 else wM / (a * chi)

/-- One term of the loop of `transfer_nc` for `l <= LLIMBER`: the value added
to `ret` at index `i`. -/
def transfer_nc_term (E : Externals) (cosmo : ccl_cosmology) (l : Int) (k : ℚ)
    (clt : CCL_ClTracer) (ret : ℚ) (i : Nat) : StatusM ℚ := do
  let chi := clt.chimin + DCHI * ((i : ℚ) + 1 / 2)
  if chi ≤ clt.chimax then do
    let a ← call (cosmo.ccl_scale_factor_of_chi chi)
    let pk ← call (cosmo.ccl_nonlin_matter_power k a)
    let jl := E.ccl_j_bessel l (k * chi)
    let f_all := (← f_dens E cosmo a clt) * jl
    let f_all ← (if isSet clt.has_rsd then do
        let x := k * chi
        let ddjl :=
          if x < 1 / 10000000000 then
            if l = 0 then 3333 / 10000 - 1 / 10 * x * x
            else if l = 2 then -(13333333333 / 100000000000)
              + 5714285714285714 / 100000000000000000 * x * x
            else 0
          else
            let jlp1 := E.ccl_j_bessel (wrap32 (l + 1)) x
            ((x * x - ((wrap32 (l * wrap32 (l - 1)) : Int) : ℚ)) * jl - 2 * x * jlp1) / (x * x)
        pure (f_all + (← f_rsd E cosmo a clt) * ddjl)
      else pure f_all)
    let f_all :=
      if isSet clt.has_magnification then
        f_all + -2 * clt.prefac_lensing * (l : ℚ) * ((wrap32 (l + 1) : Int) : ℚ)
          * f_mag E a chi clt * jl / (k * k)
      else f_all
    pure (ret + f_all * E.sqrt pk)
  else pure ret

/-- Function `transfer_nc`. -/
def transfer_nc (E : Externals) (cosmo : ccl_cosmology) (l : Int) (k : ℚ)
    (clt : CCL_ClTracer) : StatusM ℚ := do
  if l > LLIMBER then
    let x0 : ℚ := (l : ℚ) + 1 / 2
    let chi0 := x0 / k
    if chi0 ≤ clt.chimax then do
      let a0 ← call (cosmo.ccl_scale_factor_of_chi chi0)
      let pk0 ← call (cosmo.ccl_nonlin_matter_power k a0)
      let jl0 := j_bessel_limber E l k
      let f_all := (← f_dens E cosmo a0 clt) * jl0
      let f_all ← (if isSet clt.has_rsd then do
          let x1 : ℚ := (l : ℚ) + 3 / 2
          let chi1 := x1 / k
          let a1 ← call (cosmo.ccl_scale_factor_of_chi chi1)
          let pk1 ← call (cosmo.ccl_nonlin_matter_power k a1)
          let fg0 ← f_rsd E cosmo chi0 clt
          let fg1 ← f_rsd E cosmo chi1 clt
          let jl1 := j_bessel_limber E (wrap32 (l + 1)) k
          pure (f_all + (fg0 * (1 - (l : ℚ) * ((l : ℚ) - 1) / (x0 * x0)) * jl0
            - fg1 * 2 * jl1 * E.sqrt (pk1 / pk0) / x1))
        else pure f_all)
      let f_all :=
        if isSet clt.has_magnification then
          f_all + -2 * clt.prefac_lensing * (l : ℚ) * ((wrap32 (l + 1) : Int) : ℚ)
            * f_mag E a0 chi0 clt * jl0 / (k * k)
        else f_all
      pure (f_all * E.sqrt pk0)
    else pure 0
  else do
    let nchi := c_int ((clt.chimax - clt.chimin) / DCHI) + 1
    let ret ← (List.range nchi.toNat).foldlM (transfer_nc_term E cosmo l k clt) 0
    pure (ret * DCHI)

/-- Function `f_lensing`; it does not touch its `cosmo` and `status`
arguments. -/
def f_lensing (E : Externals) (a chi : ℚ) (clt : CCL_ClTracer) : ℚ :=
  let wL := spline_eval E chi (deref clt.spl_wL)
  if wL ≤ 0 then 0 else clt.prefac_lensing * wL / (a * chi)

/-- Function `f_IA_NLA`; its first argument `a` is shadowed in the source and
is left out. -/
def f_IA_NLA (E : Externals) (cosmo : ccl_cosmology) (chi : ℚ) (clt : CCL_ClTracer) :
    StatusM ℚ := do
  if chi ≤ 1 / 10000000000 then pure 0
  else do
    let a ← call (cosmo.ccl_scale_factor_of_chi chi)
    let z := 1 / a - 1
    let pz := spline_eval E z (deref clt.spl_nz)
    let ba := spline_eval E z (deref clt.spl_ba)
    let rf := spline_eval E z (deref clt.spl_rf)
    let h := cosmo.h * (← call (cosmo.ccl_h_over_h0 a)) / CLIGHT_HMPC
    pure (pz * ba * rf * h / (chi * chi))

/-- One term of the loop of `transfer_wl` for `l <= LLIMBER`: the value added
to `ret` at index `i`. -/
def transfer_wl_term (E : Externals) (cosmo : ccl_cosmology) (l : Int) (k : ℚ)
    (clt : CCL_ClTracer) (ret : ℚ) (i : Nat) : StatusM ℚ := do
  let chi := clt.chimin + DCHI * ((i : ℚ) + 1 / 2)
  if chi ≤ clt.chimax then do
    let a ← call (cosmo.ccl_scale_factor_of_chi chi)
    let pk ← call (cosmo.ccl_nonlin_matter_power k a)
    let jl := E.ccl_j_bessel l (k * chi)
    let f_all := f_lensing E a chi clt * jl
    let f_all ← (if isSet clt.has_intrinsic_alignment then do
        pure (f_all + (← f_IA_NLA E cosmo chi clt) * jl)
      else pure f_all)
    pure (ret + f_all * E.sqrt pk)
  else pure ret

/-- Function `transfer_wl`. -/
def transfer_wl (E : Externals) (cosmo : ccl_cosmology) (l : Int) (k : ℚ)
    (clt : CCL_ClTracer) : StatusM ℚ := do
  let ret ← (if l > LLIMBER then
      let chi := ((l : ℚ) + 1 / 2) / k
      if chi ≤ clt.chimax then do
        let a ← call (cosmo.ccl_scale_factor_of_chi chi)
        let pk ← call (cosmo.ccl_nonlin_matter_power k a)
        let jl := j_bessel_limber E l k
        let f_all := f_lensing E a chi clt * jl
        let f_all ← (if isSet clt.has_intrinsic_alignment then do
            pure (f_all + (← f_IA_NLA E cosmo chi clt) * jl)
          else pure f_all)
        pure (f_all * E.sqrt pk)
      else pure 0
    else do
      let nchi := c_int ((clt.chimax - clt.chimin) / DCHI) + 1
      let ret ← (List.range nchi.toNat).foldlM (transfer_wl_term E cosmo l k clt) 0
      pure (ret * DCHI))
  pure (((l : ℚ) + 1) * (l : ℚ) * ret / (k * k))

/-- Function `transfer_wrap`. -/
def transfer_wrap (E : Externals) (cosmo : ccl_cosmology) (l : Int) (k : ℚ)
    (clt : CCL_ClTracer) : StatusM ℚ :=
  if clt.tracer_type = E.CL_TRACER_NC then transfer_nc E cosmo l k clt
  else if clt.tracer_type = E.CL_TRACER_WL then transfer_wl E cosmo l k clt
  else pure (-1)

/-! ## The angular power spectrum -/

/-- Function `cl_integrand`, with the fields of `IntClPar` as arguments.  The
product is exact here; `cl_integrand_rounded` has the multiplications of the
source one by one. -/
def cl_integrand (E : Externals) (cosmo : ccl_cosmology) (l : Int)
    (clt1 clt2 : CCL_ClTracer) (lk : ℚ) : StatusM ℚ := do
  let k := E.pow 10 lk
  let d1 ← transfer_wrap E cosmo l k clt1
  let d2 ← transfer_wrap E cosmo l k clt2
  pure (k * k * k * d1 * d2)

/-- Function `get_k_interval`: the returned pair is (`*lkmin`, `*lkmax`).
The two arguments of `log10` are positive when `l >= 0` and the distances
`chimin`, `chimax` of the last step are positive; outside this range the C
function `log10` yields a NaN or an infinity, which `E.log10` over `ℚ` does not
represent, and the statements that compare the returned bounds with numbers
carry these conditions. -/
def get_k_interval (E : Externals) (clt1 clt2 : CCL_ClTracer) (l : Int) : ℚ × ℚ :=
  let c : ℚ × ℚ :=
    if clt1.tracer_type = E.CL_TRACER_NC then
      if clt2.tracer_type = E.CL_TRACER_NC then
        (fmax clt1.chimin clt2.chimin, fmin clt1.chimax clt2.chimax)
      else (clt1.chimin, clt1.chimax)
    else if clt2.tracer_type = E.CL_TRACER_NC then (clt2.chimin, clt2.chimax)
    else (1 / 2 * ((l : ℚ) + 1 / 2) / E.K_MAX, 2 * ((l : ℚ) + 1 / 2) / E.K_MIN_DEFAULT)
  let chimax := c.2
  let chimin := if c.1 ≤ 0 then 1 / 2 * ((l : ℚ) + 1 / 2) / E.K_MAX else c.1
  let lkmax := fmin 2 (E.log10 (2 * ((l : ℚ) + 1 / 2) / chimin))
  let lkmin := fmax (-4) (E.log10 (1 / 2 * ((l : ℚ) + 1 / 2) / chimax))
  (lkmin, lkmax)

/-- Function `ccl_angular_cl`. -/
def ccl_angular_cl (E : Externals) (cosmo : ccl_cosmology) (l : Int)
    (clt1 clt2 : CCL_ClTracer) : StatusM ℚ := fun status =>
  let clastatus : Int := 0
  let lk := get_k_interval E clt1 clt2 l
  let r := (E.gsl_integration_qag lk.1 lk.2).run (cl_integrand E cosmo l clt1 clt2) clastatus
  let qagstatus := r.1.1
  let result := r.1.2
  if qagstatus ≠ GSL_SUCCESS ∨ r.2 ≠ 0 then (-1, E.CCL_ERROR_INTEG)
  else (result * E.M_LN10 * 2 / E.M_PI, cosmo.ccl_check_status status)

/-! ## Auxiliary notions used in the statements -/

/-- A computation whose value does not depend on the incoming status and
whose only effect on the slot is to overwrite it with a code `e` when `e` is
non-zero. -/
def StatusPure {α : Type} (m : StatusM α) : Prop :=
  ∃ v e, ∀ s, m s = (v, if e = 0 then s else e)

/-- Two values of a status slot that agree on being zero. -/
def SameZero (s t : Int) : Prop := s = 0 ↔ t = 0

/-- The abscissas at which a quadrature evaluates its integrand, in order. -/
def Quad.visited : Quad → (ℚ → StatusM ℚ) → Int → List ℚ
  | .done _ _, _, _ => []
  | .eval x next, f, s => x :: Quad.visited (next (f x s).1) f (f x s).2

/-- The integrand of the angular power spectrum in the words of the
specification: `k^3 * T1(l,k) * T2(l,k)` with `k = 10^(log10 k)`, where `Ti`
is the transfer function of tracer `i` and the status slot is handed from the
first evaluation to the second. -/
def spec_integrand (E : Externals) (cosmo : ccl_cosmology) (l : Int)
    (t1 t2 : CCL_ClTracer) (log10k : ℚ) : StatusM ℚ := fun s =>
  let k := E.pow 10 log10k
  let T1 := transfer_wrap E cosmo l k t1 s
  let T2 := transfer_wrap E cosmo l k t2 T1.2
  (k ^ 3 * T1.1 * T2.1, T2.2)

/-- The quadrature of `ccl_angular_cl` in the words of the specification: the
run of the quadrature routine over `[lkmin, lkmax]` from `get_k_interval`
against `spec_integrand`, started with a zero status slot.  The result is
((GSL status, value), final slot). -/
def spec_quadrature (E : Externals) (cosmo : ccl_cosmology) (l : Int)
    (t1 t2 : CCL_ClTracer) : (Int × ℚ) × Int :=
  (E.gsl_integration_qag (get_k_interval E t1 t2 l).1 (get_k_interval E t1 t2 l).2).run
    (spec_integrand E cosmo l t1 t2) 0

/-- A quadrature that reports `GSL_SUCCESS` whatever values the integrand
takes. -/
def Quad.Succeeds : Quad → Prop
  | .done gslstatus _ => gslstatus = GSL_SUCCESS
  | .eval _ next => ∀ v, (next v).Succeeds

/-- Every routine of the cosmology succeeds on every input (reports the code
`0`), and `ccl_check_status` leaves a zero status at zero. -/
def ccl_cosmology.AllSucceed (cosmo : ccl_cosmology) : Prop :=
  (∀ a, (cosmo.ccl_h_over_h0 a).2 = 0) ∧
  (∀ a, (cosmo.ccl_comoving_radial_distance a).2 = 0) ∧
  (∀ chi, (cosmo.ccl_scale_factor_of_chi chi).2 = 0) ∧
  (∀ x, (cosmo.ccl_sinn x).2 = 0) ∧
  (∀ a, (cosmo.ccl_growth_rate a).2 = 0) ∧
  (∀ k a, (cosmo.ccl_nonlin_matter_power k a).2 = 0) ∧
  cosmo.ccl_check_status 0 = 0

/-- The normalisation integral in the words of the specification: GSL status
and value of the quadrature of the raw N(z) interpolant over
`[z_first, z_last]`; `none` when the raw interpolant cannot be built. -/
def nz_normalisation (E : Externals) (z_n n : List ℚ) : Option (Int × ℚ) :=
  (spline_init E z_n.length z_n n 0 0).map (fun spl =>
    (E.gsl_integration_qag (idx z_n 0) (idx z_n (z_n.length - 1))).integrate
      (fun x => spline_eval E x spl))

/-- The grid test of the kernel construction passes for the N(z) redshifts
`z_n`: with `chimax` the comoving distance to the last redshift,
`ccl_linear_spacing(0, chimax, (int)(chimax/5)+1)` returns a grid whose first
point is within `1e-5` of `0` and whose last point is within `1e-5` of
`chimax`. -/
def kernel_grid_ok (E : Externals) (cosmo : ccl_cosmology) (z_n : List ℚ) : Prop :=
  let chimax := (cosmo.ccl_comoving_radial_distance (1 / (1 + idx z_n (z_n.length - 1)))).1
  let nchi := c_int (chimax / 5) + 1
  ∃ x, E.ccl_linear_spacing 0 chimax nchi = some x ∧
    fabs (idx x 0 - 0) ≤ 1 / 100000 ∧ fabs (idx x (nchi - 1) - chimax) ≤ 1 / 100000

/-- Example externals: a midpoint rule for the quadrature, a spline that
rejects grids with fewer than two points or not strictly increasing and
interpolates by the first ordinate, and evenly spaced grids. -/
def exE : Externals where
  sqrt := fun x => x
  log10 := fun x => x - 1
  pow := fun _ y => y + 1
  M_PI := 22 / 7
  M_LN10 := 23 / 10
  gsl_spline_init := fun n x _ => if 2 ≤ n ∧ x.Sorted (fun a b => a < b) then 0 else 4
  gsl_spline_eval := fun spl _ => idx spl.y 0
  gsl_integration_qag := fun a b => Quad.eval ((a + b) / 2) (fun v => Quad.done 0 ((b - a) * v))
  ccl_linear_spacing := fun xmin xmax N =>
    some ((List.range N.toNat).map (fun i => xmin + (i : ℚ) * (xmax - xmin) / ((N : ℚ) - 1)))
  ccl_j_bessel := fun _ _ => 0
  CL_TRACER_NC := 1
  CL_TRACER_WL := 2
  CCL_ERROR_LINSPACE := 1026
  CCL_ERROR_INCONSISTENT := 1027
  CCL_ERROR_SPLINE := 1028
  CCL_ERROR_INTEG := 1030
  K_MAX := 1000
  K_MIN_DEFAULT := 1 / 20000

/-- Example cosmology: comoving distance `3000 z` (zero for `a > 1`), unit
Hubble rate, growth and power, flat geometry; every routine succeeds. -/
def exCosmo : ccl_cosmology where
  h := 7 / 10
  Omega_m := 3 / 10
  ccl_h_over_h0 := fun _ => (1, 0)
  ccl_comoving_radial_distance := fun a => (if 1 / a - 1 < 0 then 0 else 3000 * (1 / a - 1), 0)
  ccl_scale_factor_of_chi := fun chi => (1 / (1 + chi / 3000), 0)
  ccl_sinn := fun x => (x, 0)
  ccl_growth_rate := fun _ => (1, 0)
  ccl_nonlin_matter_power := fun _ _ => (1, 0)
  ccl_check_status := fun s => s

/-- Example externals whose spline initialisation accepts every table. -/
def exOk : Externals := { exE with gsl_spline_init := fun _ _ _ => 0 }

/-- Example externals whose quadrature reports an error. -/
def exFailE : Externals := { exE with gsl_integration_qag := fun _ _ => Quad.done 1 0 }

/-- Example redshifts: the comoving distance to the last one is `5`. -/
def exZ : List ℚ := [0, 1 / 1200, 1 / 600]

/-- Example redshifts: the comoving distance to the last one is `3`. -/
def exZshort : List ℚ := [0, 1 / 2000, 1 / 1000]

/-- Example samples of N(z) or of the bias. -/
def exOnes : List ℚ := [1, 1, 1]

/-- Example samples of N(z) with a negative integral. -/
def exNeg : List ℚ := [-1, -1, -1]

/-- Example number-counts tracer with support between distances 300 and 600. -/
def exNC : CCL_ClTracer where
  tracer_type := 1
  prefac_lensing := 1
  chimax := 600
  chimin := 300
  has_rsd := some 0
  has_magnification := some 0
  has_intrinsic_alignment := none
  spl_nz := some { spline := { size := 2, x := [1 / 20, 1 / 5], y := [10, 10] },
                   x0 := 1 / 20, xf := 1 / 5, y0 := 0, yf := 0 }
  spl_bz := some { spline := { size := 2, x := [1 / 20, 1 / 5], y := [1, 1] },
                   x0 := 1 / 20, xf := 1 / 5, y0 := 1, yf := 1 }
  spl_sz := none
  spl_rf := none
  spl_ba := none
  spl_wL := none
  spl_wM := none

/-! ## Allocation tracking -/

/-- The splines of `cl_tracer_new`, by the variable that holds them;
`nz_raw` is the N(z) spline before normalisation. -/
inductive SplSite where
  | nz_raw | nz | bz | sz | wM | wL | rf | ba
deriving DecidableEq

/-- The heap objects of one call of `cl_tracer_new`: the tracer record, the
buffer `nz_normalized`, the quadrature workspace `w`, the arrays `x` and `y`,
and for every spline the `SplPar` record, the GSL accelerator and the GSL
spline that `spline_init` allocates. -/
inductive Obj where
  | clt | nz_normalized | workspace | x | y
  | splpar (site : SplSite) | accel (site : SplSite) | gslspline (site : SplSite)
deriving DecidableEq

/-- The status slot together with the heap: the objects allocated and not yet
freed, and the objects that were freed while not allocated. -/
structure Mem where
  status : Int
  live : List Obj
  faults : List Obj

/-- Computations that read and write the status slot and the heap and either
go on with a value or leave the function (`none`). -/
def MemM (α : Type) : Type := Mem → Option α × Mem

instance instMonadMemM : Monad MemM where
  pure a := fun m => (some a, m)
  bind c f := fun m =>
    match (c m).1 with
    | none => (none, (c m).2)
    | some a => f a (c m).2

/-- Allocation of the object `o` (`malloc` and the GSL `_alloc` routines). -/
def alloc (o : Obj) : MemM Unit := fun m => (some (), { m with live := o :: m.live })

/-- Release of the object `o` (`free` and the GSL `_free` routines). -/
def release (o : Obj) : MemM Unit := fun m =>
  (some (), if o ∈ m.live then { m with live := m.live.erase o }
            else { m with faults := o :: m.faults })

/-- Release of several objects, in order. -/
def releaseAll : List Obj → MemM Unit
  | [] => pure ()
  | o :: os => do release o; releaseAll os

/-- The objects `spline_free` releases, in its order. -/
def splObjs (site : SplSite) : List Obj := [.gslspline site, .accel site, .splpar site]

/-- Function `spline_free`. -/
def spline_free_mem (site : SplSite) : MemM Unit := releaseAll (splObjs site)

/-- Function `spline_init` with its allocations: the record, the accelerator
and the GSL spline are allocated; when GSL reports an error the accelerator and
the GSL spline are released and `NULL` is returned. -/
def spline_init_mem (E : Externals) (site : SplSite) (n : Int) (x y : List ℚ) (y0 yf : ℚ) :
    MemM (Option SplPar) := do
  alloc (.splpar site)
  alloc (.accel site)
  alloc (.gslspline site)
  match spline_init E n x y y0 yf with
  | none => do
    release (.accel site)
    release (.gslspline site)
    pure none
  | some spl => pure (some spl)

/-- Error exit of `cl_tracer_new`: the releases written before it, then
`*status = code; return NULL`. -/
def bail {α : Type} (cleanup : List Obj) (code : Int) : MemM α := fun m =>
  (none, { (releaseAll cleanup m).2 with status := code })

/-- Guarded error exit. -/
def bailIf (c : Prop) [Decidable c] (cleanup : List Obj) (code : Int) : MemM Unit :=
  if c then bail cleanup code else pure ()

/-- Null test on a freshly built spline with its error exit. -/
def orBail {α : Type} (o : Option α) (cleanup : List Obj) (code : Int) : MemM α :=
  match o with
  | none => bail cleanup code
  | some a => pure a

/-- A background routine called from `cl_tracer_new`, see `call`. -/
def callM (r : ℚ × Int) : MemM ℚ := fun m =>
  (some r.1, { m with status := if r.2 = 0 then m.status else r.2 })

/-- The array returned by `ccl_linear_spacing` is on the heap when it is not
`NULL`. -/
def allocIf (c : Prop) [Decidable c] (o : Obj) : MemM Unit :=
  if c then alloc o else pure ()

/-- Function `cl_tracer_new` with its allocations and releases.  The values
computed are those of `cl_tracer_new`; each error exit carries the releases the
source performs before it, in their order. -/
def cl_tracer_new_mem (E : Externals) (cosmo : ccl_cosmology) (tracer_type : Int)
    (has_rsd has_magnification has_intrinsic_alignment : Int)
    (z_n n z_b b z_s s z_ba ba z_rf rf : List ℚ) : MemM CCL_ClTracer := do
  let nz_n : Int := z_n.length
  let nz_b : Int := z_b.length
  let nz_s : Int := z_s.length
  let nz_ba : Int := z_ba.length
  let nz_rf : Int := z_rf.length
  alloc .clt
  let hub := cosmo.h * (← callM (cosmo.ccl_h_over_h0 1)) / CLIGHT_HMPC
  let prefac_lensing := 3 / 2 * hub * hub * cosmo.Omega_m
  if tracer_type = E.CL_TRACER_NC ∨ tracer_type = E.CL_TRACER_WL then do
    let clt_chimax ← callM (cosmo.ccl_comoving_radial_distance (1 / (1 + idx z_n (nz_n - 1))))
    let o ← spline_init_mem E .nz_raw nz_n z_n n 0 0
    let spl_nz_raw ← orBail o [.clt] E.CCL_ERROR_SPLINE
    -- Normalize n(z)
    alloc .nz_normalized
    alloc .workspace
    let q := (E.gsl_integration_qag (idx z_n 0) (idx z_n (nz_n - 1))).integrate
      (fun x => speval_bis E x spl_nz_raw)
    let clstatus := q.1
    let nz_norm := q.2
    release .workspace
    bailIf (clstatus ≠ GSL_SUCCESS) (splObjs .nz_raw ++ [.clt]) E.CCL_ERROR_INTEG
    let nz_normalized := n.map (fun v => v / nz_norm)
    spline_free_mem .nz_raw
    let o ← spline_init_mem E .nz nz_n z_n nz_normalized 0 0
    release .nz_normalized
    let spl_nz ← orBail o [.clt] E.CCL_ERROR_SPLINE
    if tracer_type = E.CL_TRACER_NC then do
      -- Initialize bias spline
      let o ← spline_init_mem E .bz nz_b z_b b (idx b 0) (idx b (nz_b - 1))
      let spl_bz ← orBail o (splObjs .nz ++ [.clt]) E.CCL_ERROR_SPLINE
      let mag ← (if has_magnification ≠ 0 then do
          -- Compute weak lensing kernel
          let zmax := spl_nz.xf
          let chimax ← callM (cosmo.ccl_comoving_radial_distance (1 / (1 + zmax)))
          let o ← spline_init_mem E .sz nz_s z_s s (idx s 0) (idx s (nz_s - 1))
          let spl_sz ← orBail o (splObjs .nz ++ splObjs .bz ++ [.clt]) E.CCL_ERROR_SPLINE
          let nchi := c_int (chimax / 5) + 1
          allocIf (E.ccl_linear_spacing 0 chimax nchi ≠ none) .x
          let x := (E.ccl_linear_spacing 0 chimax nchi).getD []
          bailIf (E.ccl_linear_spacing 0 chimax nchi = none ∨ fabs (idx x 0 - 0) > 1 / 100000
            ∨ fabs (idx x (nchi - 1) - chimax) > 1 / 100000)
            (splObjs .nz ++ splObjs .bz ++ splObjs .sz ++ [.clt]) E.CCL_ERROR_LINSPACE
          alloc .y
          let w := (List.range nchi.toNat).map (fun (j : Nat) =>
            window_magnification E cosmo (idx x (j : Int)) spl_nz spl_sz chimax)
          let clstatus := w.foldl (fun c r => Int.lor c r.1) clstatus
          let y := w.map (fun r => r.2)
          bailIf (clstatus ≠ 0)
            ([.y, .x] ++ splObjs .nz ++ splObjs .bz ++ splObjs .sz ++ [.clt]) E.CCL_ERROR_INTEG
          let o ← spline_init_mem E .wM nchi x y (idx y 0) 0
          let spl_wM ← orBail o
            ([.y, .x] ++ splObjs .nz ++ splObjs .bz ++ splObjs .sz ++ [.clt]) E.CCL_ERROR_SPLINE
          release .x
          release .y
          pure (some spl_sz, some spl_wM)
        else pure (none, none))
      let chimin ← callM (cosmo.ccl_comoving_radial_distance (1 / (1 + idx z_n 0)))
      pure
        { tracer_type := tracer_type, prefac_lensing := prefac_lensing,
          chimax := clt_chimax, chimin := chimin,
          has_rsd := some has_rsd, has_magnification := some has_magnification,
          has_intrinsic_alignment := none,
          spl_nz := some spl_nz, spl_bz := some spl_bz, spl_sz := mag.1,
          spl_rf := none, spl_ba := none, spl_wL := none, spl_wM := mag.2 }
    else if tracer_type = E.CL_TRACER_WL then do
      -- Compute weak lensing kernel
      let zmax := spl_nz.xf
      let chimax ← callM (cosmo.ccl_comoving_radial_distance (1 / (1 + zmax)))
      let chimin : ℚ := 0
      let nchi := c_int (chimax / 5) + 1
      allocIf (E.ccl_linear_spacing 0 chimax nchi ≠ none) .x
      let x := (E.ccl_linear_spacing 0 chimax nchi).getD []
      bailIf (E.ccl_linear_spacing 0 chimax nchi = none ∨ fabs (idx x 0 - 0) > 1 / 100000
        ∨ fabs (idx x (nchi - 1) - chimax) > 1 / 100000)
        (splObjs .nz ++ [.clt]) E.CCL_ERROR_LINSPACE
      alloc .y
      let w := (List.range nchi.toNat).map (fun (j : Nat) =>
        window_lensing E cosmo (idx x (j : Int)) spl_nz chimax)
      let clstatus := w.foldl (fun c r => Int.lor c r.1) clstatus
      let y := w.map (fun r => r.2)
      bailIf (clstatus ≠ 0) ([.y, .x] ++ splObjs .nz ++ [.clt]) E.CCL_ERROR_INTEG
      let o ← spline_init_mem E .wL nchi x y (idx y 0) 0
      let spl_wL ← orBail o ([.y, .x] ++ splObjs .nz ++ [.clt]) E.CCL_ERROR_SPLINE
      release .x
      release .y
      let ia ← (if has_intrinsic_alignment ≠ 0 then do
          let o ← spline_init_mem E .rf nz_rf z_rf rf (idx rf 0) (idx rf (nz_rf - 1))
          let spl_rf ← orBail o (splObjs .nz ++ [.clt]) E.CCL_ERROR_SPLINE
          let o ← spline_init_mem E .ba nz_ba z_ba ba (idx ba 0) (idx ba (nz_ba - 1))
          let spl_ba ← orBail o (splObjs .rf ++ splObjs .nz ++ [.clt]) E.CCL_ERROR_SPLINE
          pure (some spl_rf, some spl_ba)
        else pure (none, none))
      pure
        { tracer_type := tracer_type, prefac_lensing := prefac_lensing,
          chimax := clt_chimax, chimin := chimin,
          has_rsd := none, has_magnification := none,
          has_intrinsic_alignment := some has_intrinsic_alignment,
          spl_nz := some spl_nz, spl_bz := none, spl_sz := none,
          spl_rf := ia.1, spl_ba := ia.2, spl_wL := some spl_wL, spl_wM := none }
    else
      -- not reached: the enclosing test admits the two types only
      pure
        { tracer_type := tracer_type, prefac_lensing := prefac_lensing,
          chimax := clt_chimax, chimin := 0,
          has_rsd := none, has_magnification := none, has_intrinsic_alignment := none,
          spl_nz := some spl_nz, spl_bz := none, spl_sz := none,
          spl_rf := none, spl_ba := none, spl_wL := none, spl_wM := none }
  else bail [] E.CCL_ERROR_INCONSISTENT

/-- Read of an `int` flag of a tracer; the computation stops (`none`) when the
flag was never assigned. -/
def readFlag (flag : Option Int) : MemM Int := fun m => (flag, m)

/-- Function `ccl_cl_tracer_free`. -/
def ccl_cl_tracer_free (E : Externals) (clt : CCL_ClTracer) : MemM Unit := do
  spline_free_mem .nz
  if clt.tracer_type = E.CL_TRACER_NC then do
    spline_free_mem .bz
    if (← readFlag clt.has_magnification) ≠ 0 then do
      spline_free_mem .sz
      spline_free_mem .wM
  else if clt.tracer_type = E.CL_TRACER_WL then do
    spline_free_mem .wL
    if (← readFlag clt.has_intrinsic_alignment) ≠ 0 then do
      spline_free_mem .ba
      spline_free_mem .rf
  release .clt

/-- The interpolants of a tracer in the words of the specification: N(z)
always; bias, plus slope and magnification kernel iff magnification, for
number counts; lensing kernel, plus alignment-bias and alignment-amplitude iff
intrinsic alignment, for weak lensing. -/
def spec_interpolants (E : Externals) (clt : CCL_ClTracer) : List SplSite :=
  .nz ::
    (if clt.tracer_type = E.CL_TRACER_NC then
      .bz :: (if isSet clt.has_magnification then [.sz, .wM] else [])
    else if clt.tracer_type = E.CL_TRACER_WL then
      .wL :: (if isSet clt.has_intrinsic_alignment then [.ba, .rf] else [])
    else [])

/-- The empty heap with the status `st`. -/
def Mem.start (st : Int) : Mem := { status := st, live := [], faults := [] }

/-- A heap computation and a status computation that return the same result
and leave the same status. -/
def Sim {α : Type} (c : MemM α) (b : Build α) : Prop :=
  ∀ m : Mem, (c m).1 = (b m.status).1 ∧ (c m).2.status = (b m.status).2

/-- A heap computation that returns `a` and leaves the status alone. -/
def Quiet {α : Type} (c : MemM α) (a : α) : Prop :=
  ∀ m : Mem, (c m).1 = some a ∧ (c m).2.status = m.status

/-- The values `f x` tend to `L` as `x` decreases to `a`. -/
def TendsFromAbove (f : ℚ → ℚ) (a L : ℚ) : Prop :=
  ∀ ε > 0, ∃ δ > 0, ∀ x, a < x → x < a + δ → |f x - L| < ε

/-- The values `f x` tend to `L` as `x` increases to `a`. -/
def TendsFromBelow (f : ℚ → ℚ) (a L : ℚ) : Prop :=
  ∀ ε > 0, ∃ δ > 0, ∀ x, a - δ < x → x < a → |f x - L| < ε

/-! ## The transfer functions in the words of the specification -/

/-- The Limber surrogate of the spherical Bessel function in the words of the
specification: `j_l = sqrt(pi/(2l+1))/k`. -/
def spec_j (E : Externals) (l : Int) (k : ℚ) : ℚ := E.sqrt (E.M_PI / (2 * (l : ℚ) + 1)) / k

/-- The prefactor `H = h*E(a)/c_H` of the specification. -/
def spec_H (cosmo : ccl_cosmology) (a : ℚ) : ℚ :=
  cosmo.h * (cosmo.ccl_h_over_h0 a).1 / CLIGHT_HMPC

/-- The scale factor at the comoving distance `chi`. -/
def spec_a (cosmo : ccl_cosmology) (chi : ℚ) : ℚ := (cosmo.ccl_scale_factor_of_chi chi).1

/-- The non-linear matter power `P(k, a)`. -/
def spec_P (cosmo : ccl_cosmology) (k a : ℚ) : ℚ := (cosmo.ccl_nonlin_matter_power k a).1

/-- The number-counts transfer function without RSD and magnification in the
words of the specification: `0` if `chi0 = (l+0.5)/k > chimax`, and otherwise
`N(z0) * b(z0) * (h*E(a0)/c_H) * sqrt(pi/(2l+1))/k * sqrt(P(k,a0))` with `a0`
the scale factor at `chi0` and `z0 = 1/a0 - 1`. -/
def spec_transfer_density (E : Externals) (cosmo : ccl_cosmology) (l : Int) (k : ℚ)
    (clt : CCL_ClTracer) : ℚ :=
  let chi0 := ((l : ℚ) + 1 / 2) / k
  if chi0 > clt.chimax then 0
  else
    let a0 := spec_a cosmo chi0
    let z0 := 1 / a0 - 1
    spline_eval E z0 (deref clt.spl_nz) * spline_eval E z0 (deref clt.spl_bz)
      * spec_H cosmo a0 * spec_j E l k * E.sqrt (spec_P cosmo k a0)

/-- The quantity `fg(a) = N(1/a - 1) * growth_rate(a) * h*E(a)/c_H` of the
specification. -/
def spec_fg (E : Externals) (cosmo : ccl_cosmology) (clt : CCL_ClTracer) (a : ℚ) : ℚ :=
  spline_eval E (1 / a - 1) (deref clt.spl_nz) * (cosmo.ccl_growth_rate a).1 * spec_H cosmo a

/-- The RSD correction in the words of the specification:
`fg(a0)*(1 - l(l-1)/(l+0.5)^2)*j_l - fg(a1)*2*j_{l+1}*sqrt(P(k,a1)/P(k,a0))/(l+1.5)`
with `a0`, `a1` the scale factors at `chi0 = (l+0.5)/k` and
`chi1 = (l+1.5)/k`. -/
def spec_rsd_term (E : Externals) (cosmo : ccl_cosmology) (l : Int) (k : ℚ)
    (clt : CCL_ClTracer) : ℚ :=
  let a0 := spec_a cosmo (((l : ℚ) + 1 / 2) / k)
  let a1 := spec_a cosmo (((l : ℚ) + 3 / 2) / k)
  spec_fg E cosmo clt a0 * (1 - (l : ℚ) * ((l : ℚ) - 1) / ((l : ℚ) + 1 / 2) ^ 2) * spec_j E l k
    - spec_fg E cosmo clt a1 * 2 * spec_j E (l + 1) k
      * E.sqrt (spec_P cosmo k a1 / spec_P cosmo k a0) / ((l : ℚ) + 3 / 2)

/-- The RSD correction with `fg` taken at the comoving distances `chi0`,
`chi1` themselves in place of the scale factors. -/
def rsd_term_at_distances (E : Externals) (cosmo : ccl_cosmology) (l : Int) (k : ℚ)
    (clt : CCL_ClTracer) : ℚ :=
  let chi0 := ((l : ℚ) + 1 / 2) / k
  let chi1 := ((l : ℚ) + 3 / 2) / k
  let a0 := spec_a cosmo chi0
  let a1 := spec_a cosmo chi1
  spec_fg E cosmo clt chi0 * (1 - (l : ℚ) * ((l : ℚ) - 1) / ((l : ℚ) + 1 / 2) ^ 2) * spec_j E l k
    - spec_fg E cosmo clt chi1 * 2 * spec_j E (l + 1) k
      * E.sqrt (spec_P cosmo k a1 / spec_P cosmo k a0) / ((l : ℚ) + 3 / 2)

/-- The magnification term in the words of the specification:
`-2 * prefac_lensing * l*(l+1) * (W_mag(chi0)/(a0*chi0)) * (sqrt(pi/(2l+1))/k) / k^2
 * sqrt(P(k,a0))`. -/
def spec_mag_term (E : Externals) (cosmo : ccl_cosmology) (l : Int) (k : ℚ)
    (clt : CCL_ClTracer) : ℚ :=
  let chi0 := ((l : ℚ) + 1 / 2) / k
  let a0 := spec_a cosmo chi0
  (-2 * clt.prefac_lensing * ((l : ℚ) * ((l : ℚ) + 1))
    * (spline_eval E chi0 (deref clt.spl_wM) / (a0 * chi0)) * spec_j E l k / k ^ 2
    * E.sqrt (spec_P cosmo k a0))

/-- Example tracer: the example number-counts tracer with RSD switched on. -/
def exRSD : CCL_ClTracer := { exNC with has_rsd := some 1 }

/-- Example tracer: the example number-counts tracer with magnification
switched on and a magnification kernel that is `-1` inside `(0, 600)`. -/
def exMagNeg : CCL_ClTracer :=
  { exNC with
    has_magnification := some 1
    spl_sz := some { spline := { size := 2, x := [1 / 20, 1 / 5], y := [1, 1] },
                     x0 := 1 / 20, xf := 1 / 5, y0 := 1, yf := 1 }
    spl_wM := some { spline := { size := 2, x := [0, 600], y := [-1, 0] },
                     x0 := 0, xf := 600, y0 := -1, yf := 0 } }

/-- Example weak-lensing tracer with intrinsic alignment, whose N(z) table
starts at redshift `0`. -/
def exIA : CCL_ClTracer where
  tracer_type := 2
  prefac_lensing := 1
  chimax := 600
  chimin := 0
  has_rsd := none
  has_magnification := none
  has_intrinsic_alignment := some 1
  spl_nz := some { spline := { size := 2, x := [0, 1 / 5], y := [10, 10] },
                   x0 := 0, xf := 1 / 5, y0 := 0, yf := 0 }
  spl_bz := none
  spl_sz := none
  spl_rf := some { spline := { size := 2, x := [0, 1 / 5], y := [1, 1] },
                   x0 := 0, xf := 1 / 5, y0 := 1, yf := 1 }
  spl_ba := some { spline := { size := 2, x := [0, 1 / 5], y := [1, 1] },
                   x0 := 0, xf := 1 / 5, y0 := 1, yf := 1 }
  spl_wL := some { spline := { size := 2, x := [0, 600], y := [1, 0] },
                   x0 := 0, xf := 600, y0 := 1, yf := 0 }
  spl_wM := none

/-! ## Wavenumber bounds: auxiliary notions -/

/-- The distances `chimin` and `chimax` with which `get_k_interval` reaches its
last two assignments: the pair chosen by the tracer types, with a non-positive
`chimin` replaced by `0.5*(l+0.5)/K_MAX`. -/
def k_interval_distances (E : Externals) (clt1 clt2 : CCL_ClTracer) (l : Int) : ℚ × ℚ :=
  let c : ℚ × ℚ :=
    if clt1.tracer_type = E.CL_TRACER_NC then
      if clt2.tracer_type = E.CL_TRACER_NC then
        (fmax clt1.chimin clt2.chimin, fmin clt1.chimax clt2.chimax)
      else (clt1.chimin, clt1.chimax)
    else if clt2.tracer_type = E.CL_TRACER_NC then (clt2.chimin, clt2.chimax)
    else (1 / 2 * ((l : ℚ) + 1 / 2) / E.K_MAX, 2 * ((l : ℚ) + 1 / 2) / E.K_MIN_DEFAULT)
  (if c.1 ≤ 0 then 1 / 2 * ((l : ℚ) + 1 / 2) / E.K_MAX else c.1, c.2)

/-- The wavenumber bounds for a pair with at least one number-counts tracer in
the words of the specification: `chimin` is the larger of the two `chimin` and
`chimax` the smaller of the two `chimax` when both tracers are number counts,
and they are those of the number-counts tracer when only one is; a non-positive
`chimin` is replaced by `0.5*(l+0.5)/K_MAX`; the result is
`lkmin = max(-4, log10(0.5*(l+0.5)/chimax))` and
`lkmax = min(2, log10(2*(l+0.5)/chimin))`. -/
def spec_k_interval_nc (E : Externals) (clt1 clt2 : CCL_ClTracer) (l : Int) : ℚ × ℚ :=
  let nc1 := clt1.tracer_type = E.CL_TRACER_NC
  let nc2 := clt2.tracer_type = E.CL_TRACER_NC
  let chimin0 : ℚ :=
    if nc1 ∧ nc2 then max clt1.chimin clt2.chimin
    else if nc1 then clt1.chimin else clt2.chimin
  let chimax : ℚ :=
    if nc1 ∧ nc2 then min clt1.chimax clt2.chimax
    else if nc1 then clt1.chimax else clt2.chimax
  let chimin : ℚ := if chimin0 ≤ 0 then 1 / 2 * ((l : ℚ) + 1 / 2) / E.K_MAX else chimin0
  (max (-4) (E.log10 (1 / 2 * ((l : ℚ) + 1 / 2) / chimax)),
   min 2 (E.log10 (2 * ((l : ℚ) + 1 / 2) / chimin)))

/-- What the statements about the ordering of the bounds use of the C function
`log10`: on positive arguments it preserves and reflects the order, and it is
exact at `100` and at `1e-4`. -/
def Log10Contract (E : Externals) : Prop :=
  (∀ x y : ℚ, 0 < x → 0 < y → (E.log10 x ≤ E.log10 y ↔ x ≤ y)) ∧
  E.log10 100 = 2 ∧ E.log10 (1 / 10000) = -4

/-- Example `log10`: the least of the lines through the consecutive points
`(10^j, j)` and `(10^(j+1), j+1)` for `j = -5, ..., 2`, which is the
piecewise-linear function through the points `(10^j, j)`, `j = -5, ..., 3`,
continued linearly beyond them. -/
def exLog10 (x : ℚ) : ℚ :=
  min (-5 + (x - 1 / 100000) * (100000 / 9))
  (min (-4 + (x - 1 / 10000) * (10000 / 9))
  (min (-3 + (x - 1 / 1000) * (1000 / 9))
  (min (-2 + (x - 1 / 100) * (100 / 9))
  (min (-1 + (x - 1 / 10) * (10 / 9))
  (min (0 + (x - 1) * (1 / 9))
  (min (1 + (x - 10) * (1 / 90))
    (2 + (x - 100) * (1 / 900))))))))

/-- Example externals with the example `log10`; the spline bounds are
`K_MAX = 1000` and `K_MIN_DEFAULT = 5e-5`. -/
def exLogE : Externals := { exE with log10 := exLog10 }

/-- Example externals with the example `log10` and the spline bounds
`K_MAX = 25`, `K_MIN_DEFAULT = 4e-4`. -/
def exLogSmallE : Externals :=
  { exE with log10 := exLog10, K_MAX := 25, K_MIN_DEFAULT := 1 / 2500 }

/-- Example tracer whose type is neither number counts nor weak lensing. -/
def exUnknown : CCL_ClTracer := { exNC with tracer_type := 3 }

/-- Example number-counts tracer far away: distances from `300000` to
`600000`. -/
def exFar : CCL_ClTracer := { exNC with chimin := 300000, chimax := 600000 }

/-- Example number-counts tracer close by: distances from `1/4000` to
`3/4000`. -/
def exNear : CCL_ClTracer := { exNC with chimin := 1 / 4000, chimax := 3 / 4000 }

/-! ## The allocation of the GSL splines made explicit

`spline_init` calls `gsl_spline_alloc(gsl_interp_cspline, n)` and hands the
pointer it receives to `gsl_spline_init` without a test, unlike the pointer
received from `malloc` two lines above.  The definitions of this section
repeat `spline_init` and `cl_tracer_new` with the result of the allocation as a
parameter; with an allocation that always yields a spline they are the
definitions above. -/

/-- A C call either returns a value to its caller or does not return: its
behaviour is undefined (here: a null pointer is dereferenced). -/
inductive Outcome (α : Type) where
  | undefined : Outcome α
  | returns (a : α) : Outcome α
deriving DecidableEq

/-- Function `spline_init` with the result of
`gsl_spline_alloc(gsl_interp_cspline, n)` explicit: `gsl_spline_alloc n` is
`true` when the call yields a spline and `false` when it yields `NULL`.  The
source passes the pointer to `gsl_spline_init(spl->spline, x, y, n)`
untested, which reads through it. -/
def spline_init_alloc (E : Externals) (gsl_spline_alloc : Int → Bool) (n : Int)
    (x y : List ℚ) (y0 yf : ℚ) : Outcome (Option SplPar) :=
  if gsl_spline_alloc n then Outcome.returns (spline_init E n x y y0 yf)
  else Outcome.undefined

/-- Computations of `cl_tracer_new` that may also fail to return, see
`Build` and `Outcome`. -/
def BuildU (α : Type) : Type := Int → Outcome (Option α × Int)

instance instMonadBuildU : Monad BuildU where
  pure a := fun s => Outcome.returns (some a, s)
  bind m f := fun s =>
    match m s with
    | Outcome.undefined => Outcome.undefined
    | Outcome.returns (none, s1) => Outcome.returns (none, s1)
    | Outcome.returns (some a, s1) => f a s1

/-- A step of `cl_tracer_new` that always returns. -/
def liftB {α : Type} (m : Build α) : BuildU α := fun s => Outcome.returns (m s)

/-- Null test on a freshly built spline, see `orFail`, after a call of
`spline_init` that may not return. -/
def orFailU {α : Type} (o : Outcome (Option α)) (code : Int) : BuildU α :=
  fun s => match o with
    | Outcome.undefined => Outcome.undefined
    | Outcome.returns r => Outcome.returns (orFail r code s)

/-- Function `cl_tracer_new` with the result of `gsl_spline_alloc` explicit:
the text of `cl_tracer_new` above with `spline_init_alloc` in place of
`spline_init`. -/
def cl_tracer_new_alloc (E : Externals) (gsl_spline_alloc : Int → Bool)
    (cosmo : ccl_cosmology) (tracer_type : Int)
    (has_rsd has_magnification has_intrinsic_alignment : Int)
    (z_n n z_b b z_s s z_ba ba z_rf rf : List ℚ) : BuildU CCL_ClTracer := do
  let nz_n : Int := z_n.length
  let nz_b : Int := z_b.length
  let nz_s : Int := z_s.length
  let nz_ba : Int := z_ba.length
  let nz_rf : Int := z_rf.length
  let hub := cosmo.h * (← liftB (callB (cosmo.ccl_h_over_h0 1))) / CLIGHT_HMPC
  let prefac_lensing := 3 / 2 * hub * hub * cosmo.Omega_m
  if tracer_type = E.CL_TRACER_NC ∨ tracer_type = E.CL_TRACER_WL then do
    let clt_chimax ← liftB (callB
      (cosmo.ccl_comoving_radial_distance (1 / (1 + idx z_n (nz_n - 1)))))
    let spl_nz_raw ← orFailU
      (spline_init_alloc E gsl_spline_alloc nz_n z_n n 0 0) E.CCL_ERROR_SPLINE
    -- Normalize n(z)
    let q := (E.gsl_integration_qag (idx z_n 0) (idx z_n (nz_n - 1))).integrate
      (fun x => speval_bis E x spl_nz_raw)
    let clstatus := q.1
    let nz_norm := q.2
    liftB (failIf (clstatus ≠ GSL_SUCCESS) E.CCL_ERROR_INTEG)
    let nz_normalized := n.map (fun v => v / nz_norm)
    let spl_nz ← orFailU
      (spline_init_alloc E gsl_spline_alloc nz_n z_n nz_normalized 0 0) E.CCL_ERROR_SPLINE
    if tracer_type = E.CL_TRACER_NC then do
      -- Initialize bias spline
      let spl_bz ← orFailU
        (spline_init_alloc E gsl_spline_alloc nz_b z_b b (idx b 0) (idx b (nz_b - 1)))
        E.CCL_ERROR_SPLINE
      -- the pair (spl_sz, spl_wM), assigned only with magnification
      let mag ← (if has_magnification ≠ 0 then do
          -- Compute weak lensing kernel
          let zmax := spl_nz.xf
          let chimax ← liftB (callB (cosmo.ccl_comoving_radial_distance (1 / (1 + zmax))))
          let spl_sz ← orFailU
            (spline_init_alloc E gsl_spline_alloc nz_s z_s s (idx s 0) (idx s (nz_s - 1)))
            E.CCL_ERROR_SPLINE
          let nchi := c_int (chimax / 5) + 1
          let x := (E.ccl_linear_spacing 0 chimax nchi).getD []
          liftB (failIf (E.ccl_linear_spacing 0 chimax nchi = none
            ∨ fabs (idx x 0 - 0) > 1 / 100000
            ∨ fabs (idx x (nchi - 1) - chimax) > 1 / 100000) E.CCL_ERROR_LINSPACE)
          let w := (List.range nchi.toNat).map (fun (j : Nat) =>
            window_magnification E cosmo (idx x (j : Int)) spl_nz spl_sz chimax)
          let clstatus := w.foldl (fun c r => Int.lor c r.1) clstatus
          let y := w.map (fun r => r.2)
          liftB (failIf (clstatus ≠ 0) E.CCL_ERROR_INTEG)
          let spl_wM ← orFailU
            (spline_init_alloc E gsl_spline_alloc nchi x y (idx y 0) 0) E.CCL_ERROR_SPLINE
          pure (some spl_sz, some spl_wM)
        else pure (none, none))
      let chimin ← liftB (callB (cosmo.ccl_comoving_radial_distance (1 / (1 + idx z_n 0))))
      pure
        { tracer_type := tracer_type, prefac_lensing := prefac_lensing,
          chimax := clt_chimax, chimin := chimin,
          has_rsd := some has_rsd, has_magnification := some has_magnification,
          has_intrinsic_alignment := none,
          spl_nz := some spl_nz, spl_bz := some spl_bz, spl_sz := mag.1,
          spl_rf := none, spl_ba := none, spl_wL := none, spl_wM := mag.2 }
    else if tracer_type = E.CL_TRACER_WL then do
      -- Compute weak lensing kernel
      let zmax := spl_nz.xf
      let chimax ← liftB (callB (cosmo.ccl_comoving_radial_distance (1 / (1 + zmax))))
      let chimin : ℚ := 0
      let nchi := c_int (chimax / 5) + 1
      let x := (E.ccl_linear_spacing 0 chimax nchi).getD []
      liftB (failIf (E.ccl_linear_spacing 0 chimax nchi = none
        ∨ fabs (idx x 0 - 0) > 1 / 100000
        ∨ fabs (idx x (nchi - 1) - chimax) > 1 / 100000) E.CCL_ERROR_LINSPACE)
      let w := (List.range nchi.toNat).map (fun (j : Nat) =>
        window_lensing E cosmo (idx x (j : Int)) spl_nz chimax)
      let clstatus := w.foldl (fun c r => Int.lor c r.1) clstatus
      let y := w.map (fun r => r.2)
      liftB (failIf (clstatus ≠ 0) E.CCL_ERROR_INTEG)
      let spl_wL ← orFailU
        (spline_init_alloc E gsl_spline_alloc nchi x y (idx y 0) 0) E.CCL_ERROR_SPLINE
      -- the pair (spl_rf, spl_ba), assigned only with intrinsic alignment
      let ia ← (if has_intrinsic_alignment ≠ 0 then do
          let spl_rf ← orFailU
            (spline_init_alloc E gsl_spline_alloc nz_rf z_rf rf (idx rf 0) (idx rf (nz_rf - 1)))
            E.CCL_ERROR_SPLINE
          let spl_ba ← orFailU
            (spline_init_alloc E gsl_spline_alloc nz_ba z_ba ba (idx ba 0) (idx ba (nz_ba - 1)))
            E.CCL_ERROR_SPLINE
          pure (some spl_rf, some spl_ba)
        else pure (none, none))
      pure
        { tracer_type := tracer_type, prefac_lensing := prefac_lensing,
          chimax := clt_chimax, chimin := chimin,
          has_rsd := none, has_magnification := none,
          has_intrinsic_alignment := some has_intrinsic_alignment,
          spl_nz := some spl_nz, spl_bz := none, spl_sz := none,
          spl_rf := ia.1, spl_ba := ia.2, spl_wL := some spl_wL, spl_wM := none }
    else
      -- not reached: the enclosing test admits the two types only
      pure
        { tracer_type := tracer_type, prefac_lensing := prefac_lensing,
          chimax := clt_chimax, chimin := 0,
          has_rsd := none, has_magnification := none, has_intrinsic_alignment := none,
          spl_nz := some spl_nz, spl_bz := none, spl_sz := none,
          spl_rf := none, spl_ba := none, spl_wL := none, spl_wM := none }
  else liftB (fail E.CCL_ERROR_INCONSISTENT)

/-- Example allocation: `gsl_spline_alloc(gsl_interp_cspline, n)` yields a
spline for `n >= 3`, the least number of points of a cubic spline, and `NULL`
below. -/
def exAlloc (n : Int) : Bool := decide (3 ≤ n)

/-! ## The products of `cl_integrand` in binary64

The value of `cl_integrand` is the product `k*k*k*d1*d2`, which the source
evaluates from left to right, each multiplication rounding its result.  The
definitions of this section repeat `cl_integrand` and `ccl_angular_cl` with the
multiplication of two `double` values as a parameter; with the exact product
they are the definitions above. -/

/-- Rounding of a rational number to the nearest integer, a tie going to the
even neighbour. -/
def round_half_even (q : ℚ) : Int :=
  if q - (⌊q⌋ : ℚ) < 1 / 2 then ⌊q⌋
  else if 1 / 2 < q - (⌊q⌋ : ℚ) then ⌊q⌋ + 1
  else if ⌊q⌋ % 2 = 0 then ⌊q⌋ else ⌊q⌋ + 1

/-- Rounding of a real value to binary64 in the default rounding mode: with
`2^e <= |x| < 2^(e+1)` the value is rounded to the nearest multiple of
`2^(e-52)`, a tie going to the even multiple.  The range of the exponent is not
represented. -/
def b64 (x : ℚ) : ℚ :=
  if x = 0 then 0
  else (round_half_even (x / 2 ^ (Int.log 2 |x| - 52)) : ℚ) * 2 ^ (Int.log 2 |x| - 52)

/-- The product of two `double` values: the exact product rounded to
binary64. -/
def mul_b64 (x y : ℚ) : ℚ := b64 (x * y)

/-- Function `cl_integrand` with the multiplication `mul` of two `double`
values as a parameter: the product `k*k*k*d1*d2` is `(((k*k)*k)*d1)*d2`. -/
def cl_integrand_rounded (mul : ℚ → ℚ → ℚ) (E : Externals) (cosmo : ccl_cosmology) (l : Int)
    (clt1 clt2 : CCL_ClTracer) (lk : ℚ) : StatusM ℚ := do
  let k := E.pow 10 lk
  let d1 ← transfer_wrap E cosmo l k clt1
  let d2 ← transfer_wrap E cosmo l k clt2
  pure (mul (mul (mul (mul k k) k) d1) d2)

/-- Function `ccl_angular_cl` over `cl_integrand_rounded`. -/
def ccl_angular_cl_rounded (mul : ℚ → ℚ → ℚ) (E : Externals) (cosmo : ccl_cosmology)
    (l : Int) (clt1 clt2 : CCL_ClTracer) : StatusM ℚ := fun status =>
  let clastatus : Int := 0
  let lk := get_k_interval E clt1 clt2 l
  let r := (E.gsl_integration_qag lk.1 lk.2).run
    (cl_integrand_rounded mul E cosmo l clt1 clt2) clastatus
  let qagstatus := r.1.1
  let result := r.1.2
  if qagstatus ≠ GSL_SUCCESS ∨ r.2 ≠ 0 then (-1, E.CCL_ERROR_INTEG)
  else (result * E.M_LN10 * 2 / E.M_PI, cosmo.ccl_check_status status)

/-- Example externals in which the wavenumber and the Limber factor are
binary64 numbers: `pow` yields `3` and, with the identity for `sqrt` and
`M_PI = 9`, `j_bessel_limber(1, 3) = (9/3)/3 = 1`. -/
def exRoundE : Externals := { exE with pow := fun _ _ => 3, M_PI := 9 }

/-- Example cosmology with `h = c_H`, so that `h*E(a)/c_H = 1`. -/
def exRoundCosmo : ccl_cosmology := { exCosmo with h := CLIGHT_HMPC }

/-- Example number-counts tracer with distances from `3/10` to `3`, unit bias
and the constant `N(z) = 1 + 2^-52` on the redshifts from `1/10000` to
`1/1000`. -/
def exRoundA : CCL_ClTracer where
  tracer_type := 1
  prefac_lensing := 1
  chimax := 3
  chimin := 3 / 10
  has_rsd := some 0
  has_magnification := some 0
  has_intrinsic_alignment := none
  spl_nz := some { spline := { size := 2, x := [1 / 10000, 1 / 1000],
                               y := [1 + 1 / 2 ^ 52, 1 + 1 / 2 ^ 52] },
                   x0 := 1 / 10000, xf := 1 / 1000, y0 := 0, yf := 0 }
  spl_bz := some { spline := { size := 2, x := [1 / 10000, 1 / 1000], y := [1, 1] },
                   x0 := 1 / 10000, xf := 1 / 1000, y0 := 1, yf := 1 }
  spl_sz := none
  spl_rf := none
  spl_ba := none
  spl_wL := none
  spl_wM := none

/-- Example number-counts tracer: as `exRoundA`, with the constant
`N(z) = 7`. -/
def exRoundB : CCL_ClTracer :=
  { exRoundA with
    spl_nz := some { spline := { size := 2, x := [1 / 10000, 1 / 1000], y := [7, 7] },
                     x0 := 1 / 10000, xf := 1 / 1000, y0 := 0, yf := 0 } }

/-- Example number-counts tracer: as `exRoundA`, with the constant
`N(z) = 5`. -/
def exRoundC : CCL_ClTracer :=
  { exRoundA with
    spl_nz := some { spline := { size := 2, x := [1 / 10000, 1 / 1000], y := [5, 5] },
                     x0 := 1 / 10000, xf := 1 / 1000, y0 := 0, yf := 0 } }

/-! ## Basic facts about the status slot -/

@[simp] theorem bind_apply {α β : Type} (m : StatusM α) (f : α → StatusM β) (s : Int) :
    (m >>= f) s = f (m s).1 (m s).2 := rfl

@[simp] theorem pure_apply {α : Type} (a : α) (s : Int) :
    (pure a : StatusM α) s = (a, s) := rfl

@[simp] theorem call_apply (r : ℚ × Int) (s : Int) :
    call r s = (r.1, if r.2 = 0 then s else r.2) := rfl


theorem statusPure_pure {α : Type} (a : α) : StatusPure (pure a : StatusM α) :=
  ⟨a, 0, fun s => by simp⟩

theorem statusPure_call (r : ℚ × Int) : StatusPure (call r) :=
  ⟨r.1, r.2, fun s => by simp⟩

theorem statusPure_bind {α β : Type} {m : StatusM α} {f : α → StatusM β}
    (hm : StatusPure m) (hf : ∀ a, StatusPure (f a)) : StatusPure (m >>= f) := by
  obtain ⟨v, e, hv⟩ := hm
  obtain ⟨w, e2, hw⟩ := hf v
  refine ⟨w, if e2 = 0 then e else e2, fun s => ?_⟩
  simp only [bind_apply, hv, hw]
  by_cases h2 : e2 = 0 <;> simp [h2]

theorem statusPure_ite {α : Type} {c : Prop} [Decidable c] {m1 m2 : StatusM α}
    (h1 : StatusPure m1) (h2 : StatusPure m2) : StatusPure (if c then m1 else m2) := by
  split
  · exact h1
  · exact h2

theorem statusPure_foldlM {α : Type} (f : ℚ → α → StatusM ℚ)
    (hf : ∀ r a, StatusPure (f r a)) (xs : List α) (init : ℚ) :
    StatusPure (xs.foldlM f init) := by
  induction xs generalizing init with
  | nil => exact statusPure_pure init
  | cons a xs ih =>
    rw [List.foldlM_cons]
    exact statusPure_bind (hf init a) (fun r => ih r)

theorem statusPure_f_dens (E : Externals) (cosmo : ccl_cosmology) (a : ℚ)
    (clt : CCL_ClTracer) : StatusPure (f_dens E cosmo a clt) := by
  unfold f_dens
  exact statusPure_bind (statusPure_call _) (fun _ => statusPure_pure _)

theorem statusPure_f_rsd (E : Externals) (cosmo : ccl_cosmology) (a : ℚ)
    (clt : CCL_ClTracer) : StatusPure (f_rsd E cosmo a clt) := by
  unfold f_rsd
  exact statusPure_bind (statusPure_call _)
    (fun _ => statusPure_bind (statusPure_call _) (fun _ => statusPure_pure _))

theorem statusPure_f_IA_NLA (E : Externals) (cosmo : ccl_cosmology) (chi : ℚ)
    (clt : CCL_ClTracer) : StatusPure (f_IA_NLA E cosmo chi clt) := by
  unfold f_IA_NLA
  exact statusPure_ite (statusPure_pure _)
    (statusPure_bind (statusPure_call _)
      (fun _ => statusPure_bind (statusPure_call _) (fun _ => statusPure_pure _)))

theorem statusPure_transfer_nc_term (E : Externals) (cosmo : ccl_cosmology) (l : Int) (k : ℚ)
    (clt : CCL_ClTracer) (ret : ℚ) (i : Nat) :
    StatusPure (transfer_nc_term E cosmo l k clt ret i) := by
  unfold transfer_nc_term
  refine statusPure_ite ?_ (statusPure_pure _)
  refine statusPure_bind (statusPure_call _) (fun a => ?_)
  refine statusPure_bind (statusPure_call _) (fun pk => ?_)
  refine statusPure_bind (statusPure_f_dens E cosmo a clt) (fun d => ?_)
  refine statusPure_bind ?_ (fun _ => statusPure_pure _)
  refine statusPure_ite ?_ (statusPure_pure _)
  exact statusPure_bind (statusPure_f_rsd E cosmo a clt) (fun _ => statusPure_pure _)

theorem statusPure_transfer_nc (E : Externals) (cosmo : ccl_cosmology) (l : Int) (k : ℚ)
    (clt : CCL_ClTracer) : StatusPure (transfer_nc E cosmo l k clt) := by
  unfold transfer_nc
  refine statusPure_ite (statusPure_ite ?_ (statusPure_pure _)) ?_
  · refine statusPure_bind (statusPure_call _) (fun a => ?_)
    refine statusPure_bind (statusPure_call _) (fun pk => ?_)
    refine statusPure_bind (statusPure_f_dens E cosmo a clt) (fun d => ?_)
    refine statusPure_bind ?_ (fun _ => statusPure_pure _)
    refine statusPure_ite ?_ (statusPure_pure _)
    refine statusPure_bind (statusPure_call _) (fun a1 => ?_)
    refine statusPure_bind (statusPure_call _) (fun pk1 => ?_)
    refine statusPure_bind (statusPure_f_rsd E cosmo _ clt) (fun fg0 => ?_)
    exact statusPure_bind (statusPure_f_rsd E cosmo _ clt) (fun fg1 => statusPure_pure _)
  · exact statusPure_bind
      (statusPure_foldlM _ (statusPure_transfer_nc_term E cosmo l k clt) _ _)
      (fun _ => statusPure_pure _)

theorem statusPure_transfer_wl_term (E : Externals) (cosmo : ccl_cosmology) (l : Int) (k : ℚ)
    (clt : CCL_ClTracer) (ret : ℚ) (i : Nat) :
    StatusPure (transfer_wl_term E cosmo l k clt ret i) := by
  unfold transfer_wl_term
  refine statusPure_ite ?_ (statusPure_pure _)
  refine statusPure_bind (statusPure_call _) (fun a => ?_)
  refine statusPure_bind (statusPure_call _) (fun pk => ?_)
  refine statusPure_bind ?_ (fun _ => statusPure_pure _)
  refine statusPure_ite ?_ (statusPure_pure _)
  exact statusPure_bind (statusPure_f_IA_NLA E cosmo _ clt) (fun _ => statusPure_pure _)

theorem statusPure_transfer_wl (E : Externals) (cosmo : ccl_cosmology) (l : Int) (k : ℚ)
    (clt : CCL_ClTracer) : StatusPure (transfer_wl E cosmo l k clt) := by
  unfold transfer_wl
  refine statusPure_bind ?_ (fun _ => statusPure_pure _)
  refine statusPure_ite (statusPure_ite ?_ (statusPure_pure _)) ?_
  · refine statusPure_bind (statusPure_call _) (fun a => ?_)
    refine statusPure_bind (statusPure_call _) (fun pk => ?_)
    refine statusPure_bind ?_ (fun _ => statusPure_pure _)
    refine statusPure_ite ?_ (statusPure_pure _)
    exact statusPure_bind (statusPure_f_IA_NLA E cosmo _ clt) (fun _ => statusPure_pure _)
  · exact statusPure_bind
      (statusPure_foldlM _ (statusPure_transfer_wl_term E cosmo l k clt) _ _)
      (fun _ => statusPure_pure _)

theorem statusPure_transfer_wrap (E : Externals) (cosmo : ccl_cosmology) (l : Int) (k : ℚ)
    (clt : CCL_ClTracer) : StatusPure (transfer_wrap E cosmo l k clt) := by
  unfold transfer_wrap
  exact statusPure_ite (statusPure_transfer_nc E cosmo l k clt)
    (statusPure_ite (statusPure_transfer_wl E cosmo l k clt) (statusPure_pure _))

/-- Two integrands that agree in value and in whether the slot is zero drive
a quadrature to the same status and result. -/
theorem quad_run_congr (q : Quad) (f g : ℚ → StatusM ℚ)
    (hfg : ∀ x s t, SameZero s t → (f x s).1 = (g x t).1 ∧ SameZero (f x s).2 (g x t).2)
    (s t : Int) (hst : SameZero s t) :
    (q.run f s).1 = (q.run g t).1 ∧ SameZero (q.run f s).2 (q.run g t).2 := by
  induction q generalizing s t with
  | done gslstatus result => exact ⟨rfl, hst⟩
  | eval x next ih =>
    obtain ⟨hv, hz⟩ := hfg x s t hst
    simp only [Quad.run]
    rw [hv]
    exact ih _ _ _ hz

theorem fmax_comm (x y : ℚ) : fmax x y = fmax y x := by
  unfold fmax
  split_ifs with h1 h2 h2
  · exact absurd h1 (not_lt.mpr h2.le)
  · rfl
  · rfl
  · exact le_antisymm (not_lt.mp h2) (not_lt.mp h1)

theorem fmin_comm (x y : ℚ) : fmin x y = fmin y x := by
  unfold fmin
  split_ifs with h1 h2 h2
  · exact absurd h1 (not_lt.mpr h2.le)
  · rfl
  · rfl
  · exact le_antisymm (not_lt.mp h1) (not_lt.mp h2)

theorem get_k_interval_swap (E : Externals) (clt1 clt2 : CCL_ClTracer) (l : Int) :
    get_k_interval E clt1 clt2 l = get_k_interval E clt2 clt1 l := by
  unfold get_k_interval
  by_cases h1 : clt1.tracer_type = E.CL_TRACER_NC <;>
    by_cases h2 : clt2.tracer_type = E.CL_TRACER_NC <;>
    simp [h1, h2, fmax_comm clt1.chimin clt2.chimin, fmin_comm clt1.chimax clt2.chimax]

/-! ## C1: symmetry of the angular power spectrum -/

/-- With the exact product, `cl_integrand_rounded` is `cl_integrand`. -/
theorem cl_integrand_rounded_exact (E : Externals) (cosmo : ccl_cosmology) (l : Int)
    (clt1 clt2 : CCL_ClTracer) :
    cl_integrand_rounded (fun x y => x * y) E cosmo l clt1 clt2
      = cl_integrand E cosmo l clt1 clt2 := rfl

/-- With the exact product, `ccl_angular_cl_rounded` is `ccl_angular_cl`. -/
theorem ccl_angular_cl_rounded_exact (E : Externals) (cosmo : ccl_cosmology) (l : Int)
    (clt1 clt2 : CCL_ClTracer) :
    ccl_angular_cl_rounded (fun x y => x * y) E cosmo l clt1 clt2
      = ccl_angular_cl E cosmo l clt1 clt2 := rfl

theorem cl_integrand_rounded_swap (mul : ℚ → ℚ → ℚ) (E : Externals) (cosmo : ccl_cosmology)
    (l : Int) (clt1 clt2 : CCL_ClTracer) (lk : ℚ)
    (hmul :
      mul (mul (mul (mul (E.pow 10 lk) (E.pow 10 lk)) (E.pow 10 lk))
          (transfer_wrap E cosmo l (E.pow 10 lk) clt1 0).1)
          (transfer_wrap E cosmo l (E.pow 10 lk) clt2 0).1
        = mul (mul (mul (mul (E.pow 10 lk) (E.pow 10 lk)) (E.pow 10 lk))
          (transfer_wrap E cosmo l (E.pow 10 lk) clt2 0).1)
          (transfer_wrap E cosmo l (E.pow 10 lk) clt1 0).1)
    (s t : Int) (hst : SameZero s t) :
    (cl_integrand_rounded mul E cosmo l clt1 clt2 lk s).1
      = (cl_integrand_rounded mul E cosmo l clt2 clt1 lk t).1 ∧
    SameZero (cl_integrand_rounded mul E cosmo l clt1 clt2 lk s).2
      (cl_integrand_rounded mul E cosmo l clt2 clt1 lk t).2 := by
  obtain ⟨v1, e1, h1⟩ := statusPure_transfer_wrap E cosmo l (E.pow 10 lk) clt1
  obtain ⟨v2, e2, h2⟩ := statusPure_transfer_wrap E cosmo l (E.pow 10 lk) clt2
  simp only [h1, h2] at hmul
  unfold SameZero at hst ⊢
  simp only [cl_integrand_rounded, bind_apply, pure_apply, h1, h2]
  refine ⟨hmul, ?_⟩
  by_cases he1 : e1 = 0 <;> by_cases he2 : e2 = 0 <;> simp [he1, he2, hst]

/-- C1 (as amended). For every cosmology, multipole `l`, pair of tracers `A`,
`B` and incoming status, `get_k_interval` yields the same `[lkmin, lkmax]` for
both orders.  The integrand of the pair `(A, B)` at `log10 k` is the product
`(((k*k)*k)*T_A)*T_B` and that of `(B, A)` is `(((k*k)*k)*T_B)*T_A`, each
multiplication rounding its result.  Whenever these two products agree at
every `log10 k` (as they do in exact arithmetic), `cl_integrand` takes the same
value for both orders and `ccl_angular_cl(l, A, B)` returns the same value and
leaves the same status as `ccl_angular_cl(l, B, A)`. -/
theorem ccl_angular_cl_symm (mul : ℚ → ℚ → ℚ) (E : Externals) (cosmo : ccl_cosmology)
    (l : Int) (A B : CCL_ClTracer) (status : Int)
    (hmul : ∀ lk,
      mul (mul (mul (mul (E.pow 10 lk) (E.pow 10 lk)) (E.pow 10 lk))
          (transfer_wrap E cosmo l (E.pow 10 lk) A 0).1)
          (transfer_wrap E cosmo l (E.pow 10 lk) B 0).1
        = mul (mul (mul (mul (E.pow 10 lk) (E.pow 10 lk)) (E.pow 10 lk))
          (transfer_wrap E cosmo l (E.pow 10 lk) B 0).1)
          (transfer_wrap E cosmo l (E.pow 10 lk) A 0).1) :
    get_k_interval E A B l = get_k_interval E B A l ∧
    (∀ lk s, (cl_integrand_rounded mul E cosmo l A B lk s).1
      = (cl_integrand_rounded mul E cosmo l B A lk s).1) ∧
    ccl_angular_cl_rounded mul E cosmo l A B status
      = ccl_angular_cl_rounded mul E cosmo l B A status := by
  refine ⟨get_k_interval_swap E A B l,
    fun lk s => (cl_integrand_rounded_swap mul E cosmo l A B lk (hmul lk) s s Iff.rfl).1, ?_⟩
  have hq := quad_run_congr
    (E.gsl_integration_qag (get_k_interval E A B l).1 (get_k_interval E A B l).2)
    (cl_integrand_rounded mul E cosmo l A B) (cl_integrand_rounded mul E cosmo l B A)
    (fun x s t hst => cl_integrand_rounded_swap mul E cosmo l A B x (hmul x) s t hst)
    0 0 Iff.rfl
  obtain ⟨hv, hz⟩ := hq
  unfold SameZero at hz
  unfold ccl_angular_cl_rounded
  simp only [← get_k_interval_swap E A B l]
  simp only [← hv, ne_eq, hz]

/-- In exact arithmetic the two orders of the product agree. -/
theorem cl_integrand_products_exact (k dA dB : ℚ) :
    k * k * k * dA * dB = k * k * k * dB * dA := by
  ring

/-! ## Facts about `Build` computations -/

@[simp] theorem build_pure_apply {α : Type} (a : α) (s : Int) :
    (pure a : Build α) s = (some a, s) := rfl

@[simp] theorem build_fail_apply {α : Type} (code s : Int) :
    (fail code : Build α) s = (none, code) := rfl

@[simp] theorem build_callB_apply (r : ℚ × Int) (s : Int) :
    callB r s = (some r.1, if r.2 = 0 then s else r.2) := rfl

@[simp] theorem build_orFail_some {α : Type} (a : α) (code s : Int) :
    orFail (some a) code s = (some a, s) := rfl

@[simp] theorem build_orFail_none {α : Type} (code s : Int) :
    orFail (none : Option α) code s = (none, code) := rfl

theorem build_failIf_pos {c : Prop} [Decidable c] (hc : c) (code s : Int) :
    failIf c code s = (none, code) := by
  simp [failIf, hc]

theorem build_failIf_neg {c : Prop} [Decidable c] (hc : ¬c) (code s : Int) :
    failIf c code s = (some (), s) := by
  simp [failIf, hc]

theorem build_bind_of_some {α β : Type} {m : Build α} {f : α → Build β} {s s1 : Int} {a : α}
    (h : m s = (some a, s1)) : (m >>= f) s = f a s1 := by
  show (match (m s).1 with
    | none => (none, (m s).2)
    | some a => f a (m s).2) = f a s1
  rw [h]

theorem build_bind_of_none {α β : Type} {m : Build α} {f : α → Build β} {s s1 : Int}
    (h : m s = (none, s1)) : (m >>= f) s = (none, s1) := by
  show (match (m s).1 with
    | none => (none, (m s).2)
    | some a => f a (m s).2) = (none, s1)
  rw [h]

theorem build_bind_eq_some {α β : Type} {m : Build α} {f : α → Build β} {s s' : Int} {b : β} :
    (m >>= f) s = (some b, s') ↔ ∃ a s1, m s = (some a, s1) ∧ f a s1 = (some b, s') := by
  rcases hm : m s with ⟨o, s1⟩
  cases o with
  | none => simp [build_bind_of_none hm]
  | some a =>
    rw [build_bind_of_some hm]
    constructor
    · intro h
      exact ⟨a, s1, rfl, h⟩
    · rintro ⟨a2, s2, h1, h2⟩
      simp only [Prod.mk.injEq, Option.some.injEq] at h1
      rw [h1.1, h1.2]
      exact h2

theorem build_callB_eq_some {r : ℚ × Int} {s s1 : Int} {a : ℚ} :
    callB r s = (some a, s1) ↔ a = r.1 ∧ s1 = (if r.2 = 0 then s else r.2) := by
  simp only [build_callB_apply, Prod.mk.injEq, Option.some.injEq]
  constructor
  · rintro ⟨h1, h2⟩
    exact ⟨h1.symm, h2.symm⟩
  · rintro ⟨h1, h2⟩
    exact ⟨h1.symm, h2.symm⟩

theorem build_orFail_eq_some {α : Type} {o : Option α} {code s s1 : Int} {a : α} :
    orFail o code s = (some a, s1) ↔ o = some a ∧ s1 = s := by
  cases o with
  | none => simp
  | some v =>
    simp only [build_orFail_some, Prod.mk.injEq, Option.some.injEq]
    constructor
    · rintro ⟨h1, h2⟩
      exact ⟨h1, h2.symm⟩
    · rintro ⟨h1, h2⟩
      exact ⟨h1, h2.symm⟩

theorem build_failIf_eq_some {c : Prop} [Decidable c] {code s s1 : Int} {u : Unit} :
    failIf c code s = (some u, s1) ↔ ¬c ∧ s1 = s := by
  by_cases hc : c
  · simp [build_failIf_pos hc, hc]
  · simp only [build_failIf_neg hc, Prod.mk.injEq, hc, not_false_eq_true, true_and]
    exact ⟨fun h => h.symm, fun h => h.symm⟩

/-! ## C2 and C3: value and error exit of `ccl_angular_cl` -/

theorem cl_integrand_eq_spec (E : Externals) (cosmo : ccl_cosmology) (l : Int)
    (t1 t2 : CCL_ClTracer) : cl_integrand E cosmo l t1 t2 = spec_integrand E cosmo l t1 t2 := by
  funext lk s
  simp only [cl_integrand, spec_integrand, bind_apply, pure_apply]
  congr 1
  ring

/-- For an integrand whose evaluations are status-pure, the slot is non-zero
after a quadrature exactly when it was non-zero before or one of the
evaluations made reports a non-zero code. -/
theorem quad_run_slot_ne_zero (q : Quad) (f : ℚ → StatusM ℚ) (hf : ∀ x, StatusPure (f x))
    (s : Int) :
    (q.run f s).2 ≠ 0 ↔ (s ≠ 0 ∨ ∃ x ∈ q.visited f s, (f x 0).2 ≠ 0) := by
  induction q generalizing s with
  | done gslstatus result => simp [Quad.run, Quad.visited]
  | eval x next ih =>
    obtain ⟨v, e, hv⟩ := hf x
    simp only [Quad.run, Quad.visited, List.mem_cons, exists_eq_or_imp]
    rw [ih]
    simp only [hv]
    by_cases he : e = 0 <;> simp [he]

theorem spec_integrand_statusPure (E : Externals) (cosmo : ccl_cosmology) (l : Int)
    (t1 t2 : CCL_ClTracer) (x : ℚ) : StatusPure (spec_integrand E cosmo l t1 t2 x) := by
  rw [← cl_integrand_eq_spec]
  unfold cl_integrand
  exact statusPure_bind (statusPure_transfer_wrap E cosmo l _ t1)
    (fun _ => statusPure_bind (statusPure_transfer_wrap E cosmo l _ t2)
      (fun _ => statusPure_pure _))

theorem spec_integrand_slot (E : Externals) (cosmo : ccl_cosmology) (l : Int)
    (t1 t2 : CCL_ClTracer) (x : ℚ) :
    (spec_integrand E cosmo l t1 t2 x 0).2 ≠ 0 ↔
      ((transfer_wrap E cosmo l (E.pow 10 x) t1 0).2 ≠ 0 ∨
       (transfer_wrap E cosmo l (E.pow 10 x) t2 0).2 ≠ 0) := by
  obtain ⟨v1, e1, h1⟩ := statusPure_transfer_wrap E cosmo l (E.pow 10 x) t1
  obtain ⟨v2, e2, h2⟩ := statusPure_transfer_wrap E cosmo l (E.pow 10 x) t2
  simp only [spec_integrand, h1, h2]
  by_cases he1 : e1 = 0 <;> by_cases he2 : e2 = 0 <;> simp [he1, he2]

/-- C2. Whenever the quadrature reports success and the status slot of the
integrand is still `0` afterwards, `ccl_angular_cl(l, t1, t2)` returns
`Q * ln(10) * 2 / pi`, where `Q` is the quadrature over `[lkmin, lkmax]` (from
`get_k_interval`) of `k^3 * T1(l,k) * T2(l,k)` with `k = 10^(log10 k)`. -/
theorem ccl_angular_cl_value (E : Externals) (cosmo : ccl_cosmology) (l : Int)
    (t1 t2 : CCL_ClTracer) (status : Int)
    (hq : (spec_quadrature E cosmo l t1 t2).1.1 = GSL_SUCCESS)
    (hs : (spec_quadrature E cosmo l t1 t2).2 = 0) :
    (ccl_angular_cl E cosmo l t1 t2 status).1
      = (spec_quadrature E cosmo l t1 t2).1.2 * E.M_LN10 * 2 / E.M_PI := by
  unfold spec_quadrature at hq hs ⊢
  unfold ccl_angular_cl
  simp only [cl_integrand_eq_spec, hq, hs, ne_eq, not_true_eq_false, or_self, if_false]

/-- C3. `ccl_angular_cl` returns `-1` with status `CCL_ERROR_INTEG` if the
quadrature reports non-success or one of the transfer-function evaluations made
during the quadrature leaves a non-zero status; in every other case it returns
the scaled quadrature result and does not assign the status itself (the slot
holds what `ccl_check_status` leaves in it). -/
theorem ccl_angular_cl_error_iff (E : Externals) (cosmo : ccl_cosmology) (l : Int)
    (t1 t2 : CCL_ClTracer) (status : Int) :
    ccl_angular_cl E cosmo l t1 t2 status =
      if (spec_quadrature E cosmo l t1 t2).1.1 ≠ GSL_SUCCESS ∨
          ∃ x ∈ (E.gsl_integration_qag (get_k_interval E t1 t2 l).1
                  (get_k_interval E t1 t2 l).2).visited (spec_integrand E cosmo l t1 t2) 0,
            (transfer_wrap E cosmo l (E.pow 10 x) t1 0).2 ≠ 0 ∨
            (transfer_wrap E cosmo l (E.pow 10 x) t2 0).2 ≠ 0
      then (-1, E.CCL_ERROR_INTEG)
      else ((spec_quadrature E cosmo l t1 t2).1.2 * E.M_LN10 * 2 / E.M_PI,
            cosmo.ccl_check_status status) := by
  have hslot := quad_run_slot_ne_zero
    (E.gsl_integration_qag (get_k_interval E t1 t2 l).1 (get_k_interval E t1 t2 l).2)
    (spec_integrand E cosmo l t1 t2) (spec_integrand_statusPure E cosmo l t1 t2) 0
  simp only [ne_eq, not_true_eq_false, false_or, spec_integrand_slot] at hslot
  unfold ccl_angular_cl spec_quadrature
  simp only [cl_integrand_eq_spec, ne_eq, hslot]

/-! ## What a tracer returned by `cl_tracer_new` looks like -/

theorem cl_tracer_new_some (E : Externals) (cosmo : ccl_cosmology) (tracer_type : Int)
    (has_rsd has_magnification has_intrinsic_alignment : Int)
    (z_n n z_b b z_s s z_ba ba z_rf rf : List ℚ) (st st' : Int) (clt : CCL_ClTracer)
    (h : cl_tracer_new E cosmo tracer_type has_rsd has_magnification has_intrinsic_alignment
      z_n n z_b b z_s s z_ba ba z_rf rf st = (some clt, st')) :
    ∃ spl_nz_raw spl_nz,
      spline_init E z_n.length z_n n 0 0 = some spl_nz_raw ∧
      ((E.gsl_integration_qag (idx z_n 0) (idx z_n (z_n.length - 1))).integrate
        (fun x => speval_bis E x spl_nz_raw)).1 = GSL_SUCCESS ∧
      spline_init E z_n.length z_n
        (n.map (fun v => v / ((E.gsl_integration_qag (idx z_n 0)
          (idx z_n (z_n.length - 1))).integrate (fun x => speval_bis E x spl_nz_raw)).2)) 0 0
        = some spl_nz ∧
      clt.spl_nz = some spl_nz ∧
      clt.tracer_type = tracer_type ∧
      clt.chimax = (cosmo.ccl_comoving_radial_distance (1 / (1 + idx z_n (z_n.length - 1)))).1 ∧
      ((tracer_type = E.CL_TRACER_NC ∧
          clt.chimin = (cosmo.ccl_comoving_radial_distance (1 / (1 + idx z_n 0))).1 ∧
          clt.spl_bz.isSome ∧ clt.has_rsd = some has_rsd ∧
          clt.has_magnification = some has_magnification ∧
          (has_magnification ≠ 0 → clt.spl_sz.isSome ∧ clt.spl_wM.isSome)) ∨
       (tracer_type ≠ E.CL_TRACER_NC ∧ tracer_type = E.CL_TRACER_WL ∧
          clt.chimin = 0 ∧ clt.spl_wL.isSome ∧
          clt.has_intrinsic_alignment = some has_intrinsic_alignment ∧
          (has_intrinsic_alignment ≠ 0 → clt.spl_rf.isSome ∧ clt.spl_ba.isSome))) := by
  unfold cl_tracer_new at h
  obtain ⟨hub, s1, -, h⟩ := build_bind_eq_some.mp h
  by_cases hty : tracer_type = E.CL_TRACER_NC ∨ tracer_type = E.CL_TRACER_WL
  swap
  · simp [hty] at h
  rw [if_pos hty] at h
  obtain ⟨chimax, s2, hchimax, h⟩ := build_bind_eq_some.mp h
  obtain ⟨spl_nz_raw, s3, hraw, h⟩ := build_bind_eq_some.mp h
  obtain ⟨u, s4, hq, h⟩ := build_bind_eq_some.mp h
  obtain ⟨spl_nz, s5, hnz, h⟩ := build_bind_eq_some.mp h
  obtain ⟨hchimax, -⟩ := build_callB_eq_some.mp hchimax
  obtain ⟨hraw, -⟩ := build_orFail_eq_some.mp hraw
  obtain ⟨hq, -⟩ := build_failIf_eq_some.mp hq
  obtain ⟨hnz, -⟩ := build_orFail_eq_some.mp hnz
  refine ⟨spl_nz_raw, spl_nz, hraw, not_not.mp hq, hnz, ?_⟩
  by_cases hnc : tracer_type = E.CL_TRACER_NC
  · rw [if_pos hnc] at h
    obtain ⟨spl_bz, s6, -, h⟩ := build_bind_eq_some.mp h
    obtain ⟨mag, s7, hmag, h⟩ := build_bind_eq_some.mp h
    obtain ⟨chimin, s8, hchimin, h⟩ := build_bind_eq_some.mp h
    obtain ⟨hchimin, -⟩ := build_callB_eq_some.mp hchimin
    simp only [build_pure_apply, Prod.mk.injEq, Option.some.injEq] at h
    obtain ⟨hclt, -⟩ := h
    subst hclt
    refine ⟨rfl, rfl, hchimax, Or.inl ⟨hnc, hchimin, rfl, rfl, rfl, fun hm => ?_⟩⟩
    rw [if_pos hm] at hmag
    obtain ⟨c2, t1, -, hmag⟩ := build_bind_eq_some.mp hmag
    obtain ⟨spl_sz, t2, -, hmag⟩ := build_bind_eq_some.mp hmag
    obtain ⟨u1, t3, -, hmag⟩ := build_bind_eq_some.mp hmag
    obtain ⟨u2, t4, -, hmag⟩ := build_bind_eq_some.mp hmag
    obtain ⟨spl_wM, t5, -, hmag⟩ := build_bind_eq_some.mp hmag
    simp only [build_pure_apply, Prod.mk.injEq, Option.some.injEq] at hmag
    obtain ⟨hmag, -⟩ := hmag
    subst hmag
    exact ⟨rfl, rfl⟩
  · rw [if_neg hnc] at h
    have hwl : tracer_type = E.CL_TRACER_WL := hty.resolve_left hnc
    rw [if_pos hwl] at h
    obtain ⟨c2, t1, -, h⟩ := build_bind_eq_some.mp h
    obtain ⟨u1, t2, -, h⟩ := build_bind_eq_some.mp h
    obtain ⟨u2, t3, -, h⟩ := build_bind_eq_some.mp h
    obtain ⟨spl_wL, t4, -, h⟩ := build_bind_eq_some.mp h
    obtain ⟨ia, t5, hia, h⟩ := build_bind_eq_some.mp h
    simp only [build_pure_apply, Prod.mk.injEq, Option.some.injEq] at h
    obtain ⟨hclt, -⟩ := h
    subst hclt
    refine ⟨rfl, rfl, hchimax, Or.inr ⟨hnc, hwl, rfl, rfl, rfl, fun hm => ?_⟩⟩
    rw [if_pos hm] at hia
    obtain ⟨spl_rf, r1, -, hia⟩ := build_bind_eq_some.mp hia
    obtain ⟨spl_ba, r2, -, hia⟩ := build_bind_eq_some.mp hia
    simp only [build_pure_apply, Prod.mk.injEq, Option.some.injEq] at hia
    obtain ⟨hia, -⟩ := hia
    subst hia
    exact ⟨rfl, rfl⟩

theorem idx_first_le (a : ℚ) (t : List ℚ) (hz : (a :: t).Sorted (fun x y => x < y))
    (i : Nat) (hi : i < (a :: t).length) : a ≤ (a :: t).getD i 0 := by
  cases i with
  | zero => simp
  | succ j =>
    have hj : j < t.length := by simpa using hi
    have hmem : t.getD j 0 ∈ t := by
      rw [List.getD_eq_getElem t 0 hj]
      exact List.getElem_mem _
    have := List.rel_of_sorted_cons hz _ hmem
    simpa using this.le

theorem idx_first_le_last (z : List ℚ) (hz : z.Sorted (fun x y => x < y)) :
    idx z 0 ≤ idx z (z.length - 1) := by
  cases z with
  | nil => simp [idx]
  | cons a t =>
    have h1 : idx (a :: t) 0 = a := by simp [idx]
    have h2 : idx (a :: t) (((a :: t).length : Int) - 1) = (a :: t).getD t.length 0 := by
      have : (((a :: t).length : Int) - 1) = (t.length : Int) := by simp
      rw [this]
      simp [idx]
    rw [h1, h2]
    exact idx_first_le a t hz t.length (by simp)

theorem idx_zero_nonneg (z : List ℚ) (hz : ∀ v ∈ z, 0 ≤ v) : 0 ≤ idx z 0 := by
  cases z with
  | nil => simp [idx]
  | cons a t =>
    have h1 : idx (a :: t) 0 = a := by simp [idx]
    rw [h1]
    exact hz a (by simp)

/-! ## C9 and C10: distance range and interpolants of a returned tracer -/

/-- C9. For every tracer returned by `cl_tracer_new`, `chimax` is the
comoving distance to the last N(z) redshift; `chimin` is the comoving distance
to the first N(z) redshift for a number-counts tracer, whatever the
magnification flag, and `0` for a weak-lensing tracer. -/
theorem cl_tracer_new_chi_range (E : Externals) (cosmo : ccl_cosmology) (tracer_type : Int)
    (has_rsd has_magnification has_intrinsic_alignment : Int)
    (z_n n z_b b z_s s z_ba ba z_rf rf : List ℚ) (st st' : Int) (clt : CCL_ClTracer)
    (hNW : E.CL_TRACER_NC ≠ E.CL_TRACER_WL)
    (h : cl_tracer_new E cosmo tracer_type has_rsd has_magnification has_intrinsic_alignment
      z_n n z_b b z_s s z_ba ba z_rf rf st = (some clt, st')) :
    clt.chimax = (cosmo.ccl_comoving_radial_distance (1 / (1 + idx z_n (z_n.length - 1)))).1 ∧
    (tracer_type = E.CL_TRACER_NC →
      clt.chimin = (cosmo.ccl_comoving_radial_distance (1 / (1 + idx z_n 0))).1) ∧
    (tracer_type = E.CL_TRACER_WL → clt.chimin = 0) := by
  obtain ⟨raw, spl, -, -, -, -, -, hmax, hcase⟩ :=
    cl_tracer_new_some E cosmo tracer_type has_rsd has_magnification has_intrinsic_alignment
      z_n n z_b b z_s s z_ba ba z_rf rf st st' clt h
  refine ⟨hmax, fun hnc => ?_, fun hwl => ?_⟩
  · rcases hcase with ⟨-, hmin, -⟩ | ⟨hne, -⟩
    · exact hmin
    · exact absurd hnc hne
  · rcases hcase with ⟨hnc, -⟩ | ⟨-, -, hmin, -⟩
    · exact absurd (hnc.symm.trans hwl) hNW
    · exact hmin

/-- C10. Every tracer returned by `cl_tracer_new` from a strictly increasing,
non-negative redshift grid satisfies `chimin <= chimax` when the comoving
distance is non-negative and non-decreasing in redshift, and every interpolant
its variant and its flags refer to is present: N(z); bias, and slope and
magnification kernel if magnification is on, for number counts; lensing kernel,
and alignment amplitude and alignment bias if intrinsic alignment is on, for
weak lensing. -/
theorem cl_tracer_new_invariant (E : Externals) (cosmo : ccl_cosmology) (tracer_type : Int)
    (has_rsd has_magnification has_intrinsic_alignment : Int)
    (z_n n z_b b z_s s z_ba ba z_rf rf : List ℚ) (st st' : Int) (clt : CCL_ClTracer)
    (hNW : E.CL_TRACER_NC ≠ E.CL_TRACER_WL)
    (hz : z_n.Sorted (fun x y => x < y)) (hz0 : ∀ v ∈ z_n, 0 ≤ v)
    (hD0 : ∀ a, 0 ≤ (cosmo.ccl_comoving_radial_distance a).1)
    (hDmono : ∀ z z', 0 ≤ z → z ≤ z' →
      (cosmo.ccl_comoving_radial_distance (1 / (1 + z))).1
        ≤ (cosmo.ccl_comoving_radial_distance (1 / (1 + z'))).1)
    (h : cl_tracer_new E cosmo tracer_type has_rsd has_magnification has_intrinsic_alignment
      z_n n z_b b z_s s z_ba ba z_rf rf st = (some clt, st')) :
    clt.chimin ≤ clt.chimax ∧ clt.spl_nz.isSome ∧
    (clt.tracer_type = E.CL_TRACER_NC →
      clt.spl_bz.isSome ∧ (isSet clt.has_magnification → clt.spl_sz.isSome ∧ clt.spl_wM.isSome)) ∧
    (clt.tracer_type = E.CL_TRACER_WL →
      clt.spl_wL.isSome ∧
      (isSet clt.has_intrinsic_alignment → clt.spl_rf.isSome ∧ clt.spl_ba.isSome)) := by
  obtain ⟨raw, spl, -, -, -, hnz, hty, hmax, hcase⟩ :=
    cl_tracer_new_some E cosmo tracer_type has_rsd has_magnification has_intrinsic_alignment
      z_n n z_b b z_s s z_ba ba z_rf rf st st' clt h
  rw [hty]
  rcases hcase with ⟨hnc, hmin, hbz, -, hmag, hsp⟩ | ⟨hne, hwl, hmin, hwL, hia, hsp⟩
  · refine ⟨?_, by simp [hnz], fun _ => ⟨hbz, fun hset => ?_⟩, fun hwl => ?_⟩
    · rw [hmin, hmax]
      exact hDmono _ _ (idx_zero_nonneg z_n hz0) (idx_first_le_last z_n hz)
    · apply hsp
      simpa [isSet, hmag] using hset
    · exact absurd (hnc.symm.trans hwl) hNW
  · refine ⟨?_, by simp [hnz], fun hnc => absurd hnc hne, fun _ => ⟨hwL, fun hset => ?_⟩⟩
    · rw [hmin, hmax]
      exact hD0 _
    · apply hsp
      simpa [isSet, hia] using hset

/-! ## C5 and C6: rejected inputs -/

theorem cl_tracer_new_unsupported (E : Externals) (cosmo : ccl_cosmology) (tracer_type : Int)
    (has_rsd has_magnification has_intrinsic_alignment : Int)
    (z_n n z_b b z_s s z_ba ba z_rf rf : List ℚ) (st : Int)
    (hty : ¬(tracer_type = E.CL_TRACER_NC ∨ tracer_type = E.CL_TRACER_WL)) :
    cl_tracer_new E cosmo tracer_type has_rsd has_magnification has_intrinsic_alignment
      z_n n z_b b z_s s z_ba ba z_rf rf st = (none, E.CCL_ERROR_INCONSISTENT) := by
  unfold cl_tracer_new
  rw [build_bind_of_some (build_callB_apply _ _), if_neg hty]
  rfl

theorem cl_tracer_new_raw_spline_fails (E : Externals) (cosmo : ccl_cosmology)
    (tracer_type : Int) (has_rsd has_magnification has_intrinsic_alignment : Int)
    (z_n n z_b b z_s s z_ba ba z_rf rf : List ℚ) (st : Int)
    (hty : tracer_type = E.CL_TRACER_NC ∨ tracer_type = E.CL_TRACER_WL)
    (hraw : spline_init E z_n.length z_n n 0 0 = none) :
    cl_tracer_new E cosmo tracer_type has_rsd has_magnification has_intrinsic_alignment
      z_n n z_b b z_s s z_ba ba z_rf rf st = (none, E.CCL_ERROR_SPLINE) := by
  unfold cl_tracer_new
  rw [build_bind_of_some (build_callB_apply _ _), if_pos hty,
    build_bind_of_some (build_callB_apply _ _)]
  apply build_bind_of_none
  rw [hraw]
  rfl

theorem buildU_bind_of_some {α β : Type} {m : BuildU α} {f : α → BuildU β} {s s1 : Int}
    {a : α} (h : m s = Outcome.returns (some a, s1)) : (m >>= f) s = f a s1 := by
  show (match m s with
    | Outcome.undefined => Outcome.undefined
    | Outcome.returns (none, s1) => Outcome.returns (none, s1)
    | Outcome.returns (some a, s1) => f a s1) = f a s1
  rw [h]

theorem buildU_bind_of_none {α β : Type} {m : BuildU α} {f : α → BuildU β} {s s1 : Int}
    (h : m s = Outcome.returns (none, s1)) : (m >>= f) s = Outcome.returns (none, s1) := by
  show (match m s with
    | Outcome.undefined => Outcome.undefined
    | Outcome.returns (none, s1) => Outcome.returns (none, s1)
    | Outcome.returns (some a, s1) => f a s1) = Outcome.returns (none, s1)
  rw [h]

theorem buildU_bind_of_undefined {α β : Type} {m : BuildU α} {f : α → BuildU β} {s : Int}
    (h : m s = Outcome.undefined) : (m >>= f) s = Outcome.undefined := by
  show (match m s with
    | Outcome.undefined => Outcome.undefined
    | Outcome.returns (none, s1) => Outcome.returns (none, s1)
    | Outcome.returns (some a, s1) => f a s1) = Outcome.undefined
  rw [h]

theorem liftB_callB_apply (r : ℚ × Int) (s : Int) :
    liftB (callB r) s = Outcome.returns (some (call r s).1, (call r s).2) := rfl

theorem liftB_bind {α β : Type} (m : Build α) (f : α → Build β) :
    liftB (m >>= f) = liftB m >>= fun a => liftB (f a) := by
  funext s
  show Outcome.returns (match (m s).1 with
      | none => (none, (m s).2)
      | some a => f a (m s).2)
    = (match liftB m s with
      | Outcome.undefined => Outcome.undefined
      | Outcome.returns (none, s1) => Outcome.returns (none, s1)
      | Outcome.returns (some a, s1) => liftB (f a) s1)
  unfold liftB
  rcases m s with ⟨o, s1⟩
  cases o <;> rfl

theorem liftB_pure {α : Type} (a : α) : liftB (pure a : Build α) = pure a := rfl

theorem orFailU_alloc_total (E : Externals) (gsl_spline_alloc : Int → Bool)
    (h : ∀ m, gsl_spline_alloc m = true) (n : Int) (x y : List ℚ) (y0 yf : ℚ) (code : Int) :
    orFailU (spline_init_alloc E gsl_spline_alloc n x y y0 yf) code
      = liftB (orFail (spline_init E n x y y0 yf) code) := by
  funext s
  simp [orFailU, spline_init_alloc, h, liftB]

/-- With an allocation that always yields a spline, `cl_tracer_new_alloc`
returns what `cl_tracer_new` returns. -/
theorem cl_tracer_new_alloc_total (E : Externals) (gsl_spline_alloc : Int → Bool)
    (h : ∀ m, gsl_spline_alloc m = true)
    (cosmo : ccl_cosmology) (tracer_type : Int)
    (has_rsd has_magnification has_intrinsic_alignment : Int)
    (z_n n z_b b z_s s z_ba ba z_rf rf : List ℚ) :
    cl_tracer_new_alloc E gsl_spline_alloc cosmo tracer_type has_rsd has_magnification
      has_intrinsic_alignment z_n n z_b b z_s s z_ba ba z_rf rf
      = liftB (cl_tracer_new E cosmo tracer_type has_rsd has_magnification
          has_intrinsic_alignment z_n n z_b b z_s s z_ba ba z_rf rf) := by
  unfold cl_tracer_new_alloc cl_tracer_new
  simp only [liftB_bind, liftB_pure, apply_ite liftB, orFailU_alloc_total E gsl_spline_alloc h]

/-- The steps of `cl_tracer_new_alloc` up to the first call of `spline_init`:
for the two supported types the outcome is that of the rest of the function
after this call. -/
theorem cl_tracer_new_alloc_first_spline (E : Externals) (gsl_spline_alloc : Int → Bool)
    (cosmo : ccl_cosmology) (tracer_type : Int)
    (has_rsd has_magnification has_intrinsic_alignment : Int)
    (z_n n z_b b z_s s z_ba ba z_rf rf : List ℚ) (st : Int)
    (hty : tracer_type = E.CL_TRACER_NC ∨ tracer_type = E.CL_TRACER_WL)
    (r : Outcome (Option CCL_ClTracer × Int))
    (h : ∀ s1, orFailU (spline_init_alloc E gsl_spline_alloc z_n.length z_n n 0 0)
        E.CCL_ERROR_SPLINE s1
      = match r with
        | Outcome.undefined => Outcome.undefined
        | Outcome.returns v => Outcome.returns (none, v.2)) :
    cl_tracer_new_alloc E gsl_spline_alloc cosmo tracer_type has_rsd has_magnification
      has_intrinsic_alignment z_n n z_b b z_s s z_ba ba z_rf rf st
      = match r with
        | Outcome.undefined => Outcome.undefined
        | Outcome.returns v => Outcome.returns (none, v.2) := by
  unfold cl_tracer_new_alloc
  rw [buildU_bind_of_some (liftB_callB_apply _ _), if_pos hty,
    buildU_bind_of_some (liftB_callB_apply _ _)]
  cases r with
  | undefined => exact buildU_bind_of_undefined (h _)
  | returns v => exact buildU_bind_of_none (h _)

/-- C5 (the code diverges from the claim). `cl_tracer_new` has no test of the
N(z) grid of its own: for the two supported tracer types it hands the table to
`spline_init`, which allocates a cubic spline for the number of points of the
table and passes the pointer it receives, untested, to `gsl_spline_init`.
When `gsl_spline_alloc` yields `NULL` for this number of points, as it does
for a single point, the constructor does not return `NULL` with a status: it
reads through the null pointer and its behaviour is undefined.  When the
allocation yields a spline and `gsl_spline_init` reports a non-zero status,
the constructor returns `NULL` with the status `CCL_ERROR_SPLINE`. -/
theorem cl_tracer_new_bad_grid (E : Externals) (gsl_spline_alloc : Int → Bool)
    (cosmo : ccl_cosmology) (tracer_type : Int)
    (has_rsd has_magnification has_intrinsic_alignment : Int)
    (z_n n z_b b z_s s z_ba ba z_rf rf : List ℚ) (st : Int)
    (hty : tracer_type = E.CL_TRACER_NC ∨ tracer_type = E.CL_TRACER_WL) :
    (gsl_spline_alloc z_n.length = false →
      cl_tracer_new_alloc E gsl_spline_alloc cosmo tracer_type has_rsd has_magnification
        has_intrinsic_alignment z_n n z_b b z_s s z_ba ba z_rf rf st = Outcome.undefined) ∧
    (gsl_spline_alloc z_n.length = true → E.gsl_spline_init z_n.length z_n n ≠ 0 →
      cl_tracer_new_alloc E gsl_spline_alloc cosmo tracer_type has_rsd has_magnification
        has_intrinsic_alignment z_n n z_b b z_s s z_ba ba z_rf rf st
        = Outcome.returns (none, E.CCL_ERROR_SPLINE)) := by
  constructor
  · intro ha
    refine cl_tracer_new_alloc_first_spline E gsl_spline_alloc cosmo tracer_type has_rsd
      has_magnification has_intrinsic_alignment z_n n z_b b z_s s z_ba ba z_rf rf st hty
      Outcome.undefined (fun s1 => ?_)
    simp [orFailU, spline_init_alloc, ha]
  · intro ha hne
    refine cl_tracer_new_alloc_first_spline E gsl_spline_alloc cosmo tracer_type has_rsd
      has_magnification has_intrinsic_alignment z_n n z_b b z_s s z_ba ba z_rf rf st hty
      (Outcome.returns (none, E.CCL_ERROR_SPLINE)) (fun s1 => ?_)
    simp [orFailU, spline_init_alloc, ha, spline_init, hne, orFail]

/-- C6. For every `tracer_type` other than `CL_TRACER_NC` and `CL_TRACER_WL`
and all other arguments, `cl_tracer_new` returns `NULL` and sets the status to
`CCL_ERROR_INCONSISTENT`; no interpolant is built: the outcome is the same for
whatever spline, quadrature and grid routines are supplied. -/
theorem cl_tracer_new_unknown_type (E : Externals) (cosmo : ccl_cosmology) (tracer_type : Int)
    (has_rsd has_magnification has_intrinsic_alignment : Int)
    (z_n n z_b b z_s s z_ba ba z_rf rf : List ℚ) (st : Int)
    (hnc : tracer_type ≠ E.CL_TRACER_NC) (hwl : tracer_type ≠ E.CL_TRACER_WL) :
    cl_tracer_new E cosmo tracer_type has_rsd has_magnification has_intrinsic_alignment
      z_n n z_b b z_s s z_ba ba z_rf rf st = (none, E.CCL_ERROR_INCONSISTENT) ∧
    ∀ E' : Externals, E'.CL_TRACER_NC = E.CL_TRACER_NC → E'.CL_TRACER_WL = E.CL_TRACER_WL →
      E'.CCL_ERROR_INCONSISTENT = E.CCL_ERROR_INCONSISTENT →
      cl_tracer_new E' cosmo tracer_type has_rsd has_magnification has_intrinsic_alignment
        z_n n z_b b z_s s z_ba ba z_rf rf st
      = cl_tracer_new E cosmo tracer_type has_rsd has_magnification has_intrinsic_alignment
        z_n n z_b b z_s s z_ba ba z_rf rf st := by
  have hty : ¬(tracer_type = E.CL_TRACER_NC ∨ tracer_type = E.CL_TRACER_WL) := by
    rintro (h | h)
    · exact hnc h
    · exact hwl h
  refine ⟨cl_tracer_new_unsupported E cosmo tracer_type has_rsd has_magnification
    has_intrinsic_alignment z_n n z_b b z_s s z_ba ba z_rf rf st hty, fun E' h1 h2 h3 => ?_⟩
  rw [cl_tracer_new_unsupported E cosmo tracer_type has_rsd has_magnification
    has_intrinsic_alignment z_n n z_b b z_s s z_ba ba z_rf rf st hty,
    cl_tracer_new_unsupported E' cosmo tracer_type has_rsd has_magnification
    has_intrinsic_alignment z_n n z_b b z_s s z_ba ba z_rf rf st (by rw [h1, h2]; exact hty),
    h3]

/-! ## C7 and C8: normalisation of N(z) -/

/-- C7 (as amended). For every N(z) table whose normalisation quadrature
reports a status other than `GSL_SUCCESS`, `cl_tracer_new` returns no tracer
and sets the status to `CCL_ERROR_INTEG`. -/
theorem cl_tracer_new_norm_fails (E : Externals) (cosmo : ccl_cosmology) (tracer_type : Int)
    (has_rsd has_magnification has_intrinsic_alignment : Int)
    (z_n n z_b b z_s s z_ba ba z_rf rf : List ℚ) (st : Int) (gslstatus : Int) (norm : ℚ)
    (hty : tracer_type = E.CL_TRACER_NC ∨ tracer_type = E.CL_TRACER_WL)
    (hnorm : nz_normalisation E z_n n = some (gslstatus, norm))
    (hfail : gslstatus ≠ GSL_SUCCESS) :
    cl_tracer_new E cosmo tracer_type has_rsd has_magnification has_intrinsic_alignment
      z_n n z_b b z_s s z_ba ba z_rf rf st = (none, E.CCL_ERROR_INTEG) := by
  unfold nz_normalisation at hnorm
  cases hraw : spline_init E z_n.length z_n n 0 0 with
  | none => simp [hraw] at hnorm
  | some raw =>
    simp only [hraw, Option.map_some', Option.some.injEq] at hnorm
    unfold cl_tracer_new
    rw [build_bind_of_some (build_callB_apply _ _), if_pos hty,
      build_bind_of_some (build_callB_apply _ _), hraw,
      build_bind_of_some (build_orFail_some _ _ _)]
    apply build_bind_of_none
    apply build_failIf_pos
    have : (E.gsl_integration_qag (idx z_n 0) (idx z_n (z_n.length - 1))).integrate
        (fun x => speval_bis E x raw) = (gslstatus, norm) := hnorm
    rw [this]
    exact hfail

theorem spline_init_eq_some (E : Externals) (m : Int) (x y : List ℚ) (y0 yf : ℚ)
    (spl : SplPar) (h : spline_init E m x y y0 yf = some spl) :
    E.gsl_spline_init m x y = 0 ∧
    spl = { spline := { size := m, x := x, y := y },
            x0 := idx x 0, xf := idx x (m - 1), y0 := y0, yf := yf } := by
  by_cases h0 : E.gsl_spline_init m x y = 0
  · simp only [spline_init, h0, ne_eq, not_true_eq_false, if_false, Option.some.injEq] at h
    exact ⟨h0, h.symm⟩
  · simp [spline_init, h0] at h

theorem spline_eval_scaled (E : Externals) (m : Int) (x y : List ℚ) (c t : ℚ)
    (raw spl : SplPar)
    (hlin : ∀ (m : Int) (x y : List ℚ) (c t : ℚ),
      E.gsl_spline_eval { size := m, x := x, y := y.map (fun v => v / c) } t
        = E.gsl_spline_eval { size := m, x := x, y := y } t / c)
    (hraw : spline_init E m x y 0 0 = some raw)
    (hspl : spline_init E m x (y.map (fun v => v / c)) 0 0 = some spl) :
    spline_eval E t spl = spline_eval E t raw / c := by
  obtain ⟨-, hraw⟩ := spline_init_eq_some E m x y 0 0 raw hraw
  obtain ⟨-, hspl⟩ := spline_init_eq_some E m x _ 0 0 spl hspl
  subst hraw
  subst hspl
  unfold spline_eval
  simp only
  split_ifs
  · simp
  · simp
  · exact hlin m x y c t

/-- C8. For every N(z) table with non-zero normalisation `norm` (the integral
of the raw interpolant over `[z_first, z_last]`), the N(z) interpolant stored in
a returned tracer is the one built on the same abscissas from the ordinates
`n[i]/norm`; when spline evaluation and quadrature are linear in the ordinates,
its integral over `[z_first, z_last]` equals `1`. -/
theorem cl_tracer_new_nz_normalised (E : Externals) (cosmo : ccl_cosmology) (tracer_type : Int)
    (has_rsd has_magnification has_intrinsic_alignment : Int)
    (z_n n z_b b z_s s z_ba ba z_rf rf : List ℚ) (st st' : Int) (clt : CCL_ClTracer)
    (gslstatus : Int) (norm : ℚ)
    (hlin : ∀ (m : Int) (x y : List ℚ) (c t : ℚ),
      E.gsl_spline_eval { size := m, x := x, y := y.map (fun v => v / c) } t
        = E.gsl_spline_eval { size := m, x := x, y := y } t / c)
    (hquad : ∀ (a b : ℚ) (f : ℚ → ℚ) (c : ℚ),
      ((E.gsl_integration_qag a b).integrate (fun t => f t / c)).2
        = ((E.gsl_integration_qag a b).integrate f).2 / c)
    (hnorm : nz_normalisation E z_n n = some (gslstatus, norm)) (hne : norm ≠ 0)
    (h : cl_tracer_new E cosmo tracer_type has_rsd has_magnification has_intrinsic_alignment
      z_n n z_b b z_s s z_ba ba z_rf rf st = (some clt, st')) :
    clt.spl_nz = spline_init E z_n.length z_n (n.map (fun v => v / norm)) 0 0 ∧
    ((E.gsl_integration_qag (idx z_n 0) (idx z_n (z_n.length - 1))).integrate
      (fun x => spline_eval E x (deref clt.spl_nz))).2 = 1 := by
  obtain ⟨raw, spl, hraw, -, hspl, hnz, -⟩ :=
    cl_tracer_new_some E cosmo tracer_type has_rsd has_magnification has_intrinsic_alignment
      z_n n z_b b z_s s z_ba ba z_rf rf st st' clt h
  unfold nz_normalisation at hnorm
  simp only [hraw, Option.map_some', Option.some.injEq] at hnorm
  have hq : (E.gsl_integration_qag (idx z_n 0) (idx z_n (z_n.length - 1))).integrate
      (fun x => speval_bis E x raw) = (gslstatus, norm) := hnorm
  rw [hq] at hspl
  simp only at hspl
  refine ⟨by rw [hnz, hspl], ?_⟩
  have hev : (fun x => spline_eval E x (deref clt.spl_nz))
      = (fun x => spline_eval E x raw / norm) := by
    funext t
    rw [hnz]
    exact spline_eval_scaled E z_n.length z_n n norm t raw spl hlin hraw hspl
  rw [hev, hquad, hnorm]
  exact div_self hne

/-! ## C4: the simple constructors on well-behaved input -/

theorem build_callB_ok (r : ℚ × Int) (s : Int) (h : r.2 = 0) : callB r s = (some r.1, s) := by
  simp [h]

theorem spline_init_ok (E : Externals) (m : Int) (x y : List ℚ) (y0 yf : ℚ)
    (h : E.gsl_spline_init m x y = 0) :
    spline_init E m x y y0 yf
      = some { spline := { size := m, x := x, y := y },
               x0 := idx x 0, xf := idx x (m - 1), y0 := y0, yf := yf } := by
  simp [spline_init, h]

theorem quad_integrate_succeeds (q : Quad) (hq : q.Succeeds) (f : ℚ → ℚ) :
    (q.integrate f).1 = GSL_SUCCESS := by
  induction q with
  | done gslstatus result => exact hq
  | eval x next ih => exact ih _ (hq _)

theorem quad_run_succeeds (q : Quad) (hq : q.Succeeds) (f : ℚ → StatusM ℚ)
    (hf : ∀ x s, (f x s).2 = s) (s : Int) :
    (q.run f s).1.1 = GSL_SUCCESS ∧ (q.run f s).2 = s := by
  induction q generalizing s with
  | done gslstatus result => exact ⟨hq, rfl⟩
  | eval x next ih =>
    simp only [Quad.run]
    rw [hf x s]
    exact ih _ (hq _) s

theorem integrand_wl_silent (E : Externals) (cosmo : ccl_cosmology) (hbg : cosmo.AllSucceed)
    (chi : ℚ) (spl_pz : SplPar) (chip : ℚ) (s : Int) :
    (integrand_wl E cosmo chi spl_pz chip s).2 = s := by
  obtain ⟨h1, -, h3, h4, -⟩ := hbg
  unfold integrand_wl
  simp only [bind_apply, call_apply, h1, h3, if_true]
  split_ifs
  · rfl
  · simp [h4]

theorem window_lensing_ok (E : Externals) (cosmo : ccl_cosmology) (hbg : cosmo.AllSucceed)
    (hquad : ∀ a b, (E.gsl_integration_qag a b).Succeeds)
    (chi : ℚ) (spl_pz : SplPar) (chi_max : ℚ) :
    (window_lensing E cosmo chi spl_pz chi_max).1 = 0 := by
  obtain ⟨h1, h2⟩ := quad_run_succeeds (E.gsl_integration_qag chi chi_max) (hquad _ _)
    (integrand_wl E cosmo chi spl_pz) (integrand_wl_silent E cosmo hbg chi spl_pz) 0
  unfold window_lensing
  simp [h1, h2]

theorem foldl_lor_zero (w : List (Int × ℚ)) (h : ∀ r ∈ w, r.1 = 0) :
    w.foldl (fun c r => Int.lor c r.1) 0 = 0 := by
  induction w with
  | nil => rfl
  | cons r t ih =>
    have hr : r.1 = 0 := h r (by simp)
    simp only [List.foldl_cons, hr]
    have h00 : Int.lor 0 0 = 0 := by decide
    rw [h00]
    exact ih (fun r hr => h r (by simp [hr]))

theorem cl_tracer_new_nc_ok (E : Externals) (cosmo : ccl_cosmology)
    (has_rsd : Int) (z_n n z_b b z_s s z_ba ba z_rf rf : List ℚ) (st : Int)
    (h1 : ∀ a, (cosmo.ccl_h_over_h0 a).2 = 0)
    (h2 : ∀ a, (cosmo.ccl_comoving_radial_distance a).2 = 0)
    (hq : (E.gsl_integration_qag (idx z_n 0) (idx z_n (z_n.length - 1))).Succeeds)
    (hzn : ∀ y, E.gsl_spline_init z_n.length z_n y = 0)
    (hzb : E.gsl_spline_init z_b.length z_b b = 0) :
    ∃ clt, cl_tracer_new E cosmo E.CL_TRACER_NC has_rsd 0 0
      z_n n z_b b z_s s z_ba ba z_rf rf st = (some clt, st) := by
  have hq := quad_integrate_succeeds _ hq
  unfold cl_tracer_new
  rw [build_bind_of_some (build_callB_ok _ _ (h1 _)), if_pos (Or.inl rfl),
    build_bind_of_some (build_callB_ok _ _ (h2 _)),
    spline_init_ok E _ _ _ _ _ (hzn _),
    build_bind_of_some (build_orFail_some _ _ _),
    build_bind_of_some (build_failIf_neg (not_not.mpr (hq _)) _ _),
    spline_init_ok E _ _ _ _ _ (hzn _),
    build_bind_of_some (build_orFail_some _ _ _), if_pos rfl,
    spline_init_ok E _ _ _ _ _ hzb,
    build_bind_of_some (build_orFail_some _ _ _),
    if_neg (by simp), build_bind_of_some (build_pure_apply _ _),
    build_bind_of_some (build_callB_ok _ _ (h2 _))]
  exact ⟨_, rfl⟩

theorem cl_tracer_new_wl_ok (E : Externals) (cosmo : ccl_cosmology)
    (z_n n z_b b z_s s z_ba ba z_rf rf : List ℚ) (st : Int)
    (hNW : E.CL_TRACER_NC ≠ E.CL_TRACER_WL) (hbg : cosmo.AllSucceed)
    (hquad : ∀ a b, (E.gsl_integration_qag a b).Succeeds)
    (hspl : ∀ (m : Int) (x y : List ℚ), E.gsl_spline_init m x y = 0)
    (hgrid : kernel_grid_ok E cosmo z_n) :
    ∃ clt, cl_tracer_new E cosmo E.CL_TRACER_WL 0 0 0
      z_n n z_b b z_s s z_ba ba z_rf rf st = (some clt, st) := by
  have hbg' := hbg
  obtain ⟨h1, h2, -, -, -, -, hck⟩ := hbg
  have hq := quad_integrate_succeeds _ (hquad (idx z_n 0) (idx z_n (z_n.length - 1)))
  obtain ⟨x, hx, hx0, hxn⟩ := hgrid
  unfold cl_tracer_new
  rw [build_bind_of_some (build_callB_ok _ _ (h1 _)), if_pos (Or.inr rfl),
    build_bind_of_some (build_callB_ok _ _ (h2 _)),
    spline_init_ok E _ _ _ _ _ (hspl _ _ _),
    build_bind_of_some (build_orFail_some _ _ _),
    build_bind_of_some (build_failIf_neg (not_not.mpr (hq _)) _ _),
    spline_init_ok E _ _ _ _ _ (hspl _ _ _),
    build_bind_of_some (build_orFail_some _ _ _), if_neg (Ne.symm hNW), if_pos rfl,
    build_bind_of_some (build_callB_ok _ _ (h2 _))]
  simp only
  rw [hx]
  have hgood : ¬(some x = none ∨ fabs (idx ((some x).getD []) 0 - 0) > 1 / 100000
      ∨ fabs (idx ((some x).getD []) (c_int ((cosmo.ccl_comoving_radial_distance
          (1 / (1 + idx z_n (z_n.length - 1)))).1 / 5) + 1 - 1)
        - (cosmo.ccl_comoving_radial_distance (1 / (1 + idx z_n (z_n.length - 1)))).1)
        > 1 / 100000) := by
    simp only [Option.getD_some, reduceCtorEq, false_or, not_or, not_lt]
    exact ⟨hx0, hxn⟩
  rw [build_bind_of_some (build_failIf_neg hgood _ _)]
  rw [build_bind_of_some (build_failIf_neg ?_ _ _)]
  · rw [spline_init_ok E _ _ _ _ _ (hspl _ _ _),
      build_bind_of_some (build_orFail_some _ _ _),
      if_neg (by simp), build_bind_of_some (build_pure_apply _ _)]
    exact ⟨_, rfl⟩
  · rw [hq, not_not]
    apply foldl_lor_zero
    intro r hr
    simp only [List.mem_map] at hr
    obtain ⟨j, -, rfl⟩ := hr
    exact window_lensing_ok E cosmo hbg' hquad _ _ _

theorem exCosmo_allSucceed : exCosmo.AllSucceed := by
  simp [ccl_cosmology.AllSucceed, exCosmo]

theorem exE_quad_succeeds (a b : ℚ) : (exE.gsl_integration_qag a b).Succeeds := by
  simp [exE, Quad.Succeeds, GSL_SUCCESS]

theorem exOk_quad_succeeds (a b : ℚ) : (exOk.gsl_integration_qag a b).Succeeds := by
  simp [exOk, exE, Quad.Succeeds, GSL_SUCCESS]

theorem exOk_spline (m : Int) (x y : List ℚ) : exOk.gsl_spline_init m x y = 0 := rfl

theorem exCosmo_distance (z : ℚ) (hz : 0 ≤ z) :
    (exCosmo.ccl_comoving_radial_distance (1 / (1 + z))).1 = 3000 * z := by
  have h1 : (1 : ℚ) / (1 / (1 + z)) - 1 = z := by
    have : (1 + z) ≠ 0 := by positivity
    field_simp
  simp only [exCosmo, h1]
  rw [if_neg (not_lt.mpr hz)]

theorem exZ_last : idx exZ (exZ.length - 1) = 1 / 600 := by
  simp [idx, exZ]

theorem exOk_grid : kernel_grid_ok exOk exCosmo exZ := by
  unfold kernel_grid_ok
  rw [exZ_last, exCosmo_distance _ (by norm_num)]
  have hc : c_int (3000 * (1 / 600) / 5) + 1 = 2 := by
    norm_num [c_int]
  simp only [hc]
  refine ⟨[0, 5], ?_, ?_, ?_⟩
  · simp [exOk, exE, List.range_succ]
    norm_num
  · norm_num [idx, fabs]
  · norm_num [idx, fabs]

/-! ## Computations that leave the status slot alone -/

theorem silent_pure {α : Type} (a : α) (s : Int) : ((pure a : StatusM α) s).2 = s := rfl

theorem silent_call (r : ℚ × Int) (h : r.2 = 0) (s : Int) : (call r s).2 = s := by
  simp [h]

theorem silent_bind {α β : Type} {m : StatusM α} {f : α → StatusM β}
    (hm : ∀ s, (m s).2 = s) (hf : ∀ a s, (f a s).2 = s) (s : Int) : ((m >>= f) s).2 = s := by
  rw [bind_apply, hf, hm]

theorem silent_ite {α : Type} {c : Prop} [Decidable c] {m1 m2 : StatusM α}
    (h1 : ∀ s, (m1 s).2 = s) (h2 : ∀ s, (m2 s).2 = s) (s : Int) :
    ((if c then m1 else m2) s).2 = s := by
  split
  · exact h1 s
  · exact h2 s

theorem silent_foldlM {α : Type} (f : ℚ → α → StatusM ℚ)
    (hf : ∀ r a s, (f r a s).2 = s) (xs : List α) (init : ℚ) (s : Int) :
    ((xs.foldlM f init) s).2 = s := by
  induction xs generalizing init s with
  | nil => rfl
  | cons a xs ih =>
    rw [List.foldlM_cons]
    exact silent_bind (hf init a) (fun r s => ih r s) s

theorem silent_f_dens (E : Externals) (cosmo : ccl_cosmology) (hbg : cosmo.AllSucceed)
    (a : ℚ) (clt : CCL_ClTracer) (s : Int) : (f_dens E cosmo a clt s).2 = s := by
  unfold f_dens
  exact silent_bind (silent_call _ (hbg.1 _)) (fun _ => silent_pure _) s

theorem silent_f_rsd (E : Externals) (cosmo : ccl_cosmology) (hbg : cosmo.AllSucceed)
    (a : ℚ) (clt : CCL_ClTracer) (s : Int) : (f_rsd E cosmo a clt s).2 = s := by
  unfold f_rsd
  exact silent_bind (silent_call _ (hbg.2.2.2.2.1 _))
    (fun _ => silent_bind (silent_call _ (hbg.1 _)) (fun _ => silent_pure _)) s

theorem silent_f_IA_NLA (E : Externals) (cosmo : ccl_cosmology) (hbg : cosmo.AllSucceed)
    (chi : ℚ) (clt : CCL_ClTracer) (s : Int) : (f_IA_NLA E cosmo chi clt s).2 = s := by
  unfold f_IA_NLA
  exact silent_ite (silent_pure _)
    (silent_bind (silent_call _ (hbg.2.2.1 _))
      (fun _ => silent_bind (silent_call _ (hbg.1 _)) (fun _ => silent_pure _))) s

theorem silent_transfer_nc_term (E : Externals) (cosmo : ccl_cosmology)
    (hbg : cosmo.AllSucceed) (l : Int) (k : ℚ) (clt : CCL_ClTracer) (ret : ℚ) (i : Nat)
    (s : Int) : (transfer_nc_term E cosmo l k clt ret i s).2 = s := by
  unfold transfer_nc_term
  refine silent_ite ?_ (silent_pure _) s
  refine silent_bind (silent_call _ (hbg.2.2.1 _)) (fun a => ?_)
  refine silent_bind (silent_call _ (hbg.2.2.2.2.2.1 _ _)) (fun pk => ?_)
  refine silent_bind (silent_f_dens E cosmo hbg a clt) (fun d => ?_)
  refine silent_bind ?_ (fun _ => silent_pure _)
  refine silent_ite ?_ (silent_pure _)
  exact silent_bind (silent_f_rsd E cosmo hbg a clt) (fun _ => silent_pure _)

theorem silent_transfer_nc (E : Externals) (cosmo : ccl_cosmology) (hbg : cosmo.AllSucceed)
    (l : Int) (k : ℚ) (clt : CCL_ClTracer) (s : Int) :
    (transfer_nc E cosmo l k clt s).2 = s := by
  unfold transfer_nc
  refine silent_ite (silent_ite ?_ (silent_pure _)) ?_ s
  · refine silent_bind (silent_call _ (hbg.2.2.1 _)) (fun a => ?_)
    refine silent_bind (silent_call _ (hbg.2.2.2.2.2.1 _ _)) (fun pk => ?_)
    refine silent_bind (silent_f_dens E cosmo hbg a clt) (fun d => ?_)
    refine silent_bind ?_ (fun _ => silent_pure _)
    refine silent_ite ?_ (silent_pure _)
    refine silent_bind (silent_call _ (hbg.2.2.1 _)) (fun a1 => ?_)
    refine silent_bind (silent_call _ (hbg.2.2.2.2.2.1 _ _)) (fun pk1 => ?_)
    refine silent_bind (silent_f_rsd E cosmo hbg _ clt) (fun fg0 => ?_)
    exact silent_bind (silent_f_rsd E cosmo hbg _ clt) (fun fg1 => silent_pure _)
  · exact silent_bind
      (silent_foldlM _ (silent_transfer_nc_term E cosmo hbg l k clt) _ _)
      (fun _ => silent_pure _)

theorem silent_transfer_wl_term (E : Externals) (cosmo : ccl_cosmology)
    (hbg : cosmo.AllSucceed) (l : Int) (k : ℚ) (clt : CCL_ClTracer) (ret : ℚ) (i : Nat)
    (s : Int) : (transfer_wl_term E cosmo l k clt ret i s).2 = s := by
  unfold transfer_wl_term
  refine silent_ite ?_ (silent_pure _) s
  refine silent_bind (silent_call _ (hbg.2.2.1 _)) (fun a => ?_)
  refine silent_bind (silent_call _ (hbg.2.2.2.2.2.1 _ _)) (fun pk => ?_)
  refine silent_bind ?_ (fun _ => silent_pure _)
  refine silent_ite ?_ (silent_pure _)
  exact silent_bind (silent_f_IA_NLA E cosmo hbg _ clt) (fun _ => silent_pure _)

theorem silent_transfer_wl (E : Externals) (cosmo : ccl_cosmology) (hbg : cosmo.AllSucceed)
    (l : Int) (k : ℚ) (clt : CCL_ClTracer) (s : Int) :
    (transfer_wl E cosmo l k clt s).2 = s := by
  unfold transfer_wl
  refine silent_bind ?_ (fun _ => silent_pure _) s
  refine silent_ite (silent_ite ?_ (silent_pure _)) ?_
  · refine silent_bind (silent_call _ (hbg.2.2.1 _)) (fun a => ?_)
    refine silent_bind (silent_call _ (hbg.2.2.2.2.2.1 _ _)) (fun pk => ?_)
    refine silent_bind ?_ (fun _ => silent_pure _)
    refine silent_ite ?_ (silent_pure _)
    exact silent_bind (silent_f_IA_NLA E cosmo hbg _ clt) (fun _ => silent_pure _)
  · exact silent_bind
      (silent_foldlM _ (silent_transfer_wl_term E cosmo hbg l k clt) _ _)
      (fun _ => silent_pure _)

theorem silent_transfer_wrap (E : Externals) (cosmo : ccl_cosmology) (hbg : cosmo.AllSucceed)
    (l : Int) (k : ℚ) (clt : CCL_ClTracer) (s : Int) :
    (transfer_wrap E cosmo l k clt s).2 = s := by
  unfold transfer_wrap
  exact silent_ite (silent_transfer_nc E cosmo hbg l k clt)
    (silent_ite (silent_transfer_wl E cosmo hbg l k clt) (silent_pure _)) s

theorem silent_spec_integrand (E : Externals) (cosmo : ccl_cosmology) (hbg : cosmo.AllSucceed)
    (l : Int) (t1 t2 : CCL_ClTracer) (x : ℚ) (s : Int) :
    (spec_integrand E cosmo l t1 t2 x s).2 = s := by
  simp only [spec_integrand, silent_transfer_wrap E cosmo hbg]

/-- Witness of C2: the example world with the example number-counts tracer
paired with itself at `l = 100`. -/
theorem ccl_angular_cl_value_witness :
    (spec_quadrature exE exCosmo 100 exNC exNC).1.1 = GSL_SUCCESS ∧
    (spec_quadrature exE exCosmo 100 exNC exNC).2 = 0 ∧
    (ccl_angular_cl exE exCosmo 100 exNC exNC 0).1
      = (spec_quadrature exE exCosmo 100 exNC exNC).1.2 * exE.M_LN10 * 2 / exE.M_PI :=
  have h := quad_run_succeeds
    (exE.gsl_integration_qag (get_k_interval exE exNC exNC 100).1
      (get_k_interval exE exNC exNC 100).2) (exE_quad_succeeds _ _)
    (spec_integrand exE exCosmo 100 exNC exNC)
    (silent_spec_integrand exE exCosmo exCosmo_allSucceed 100 exNC exNC) 0
  ⟨h.1, h.2, ccl_angular_cl_value exE exCosmo 100 exNC exNC 0 h.1 h.2⟩

/-! ## Evaluations in the example world -/

theorem exE_sorted_exZ : exZ.Sorted (fun a b => a < b) := by
  simp [exZ, List.Sorted]
  norm_num

theorem exE_spline_exZ (y : List ℚ) : exE.gsl_spline_init exZ.length exZ y = 0 := by
  have h := exE_sorted_exZ
  simp only [exE]
  rw [if_pos ⟨by simp [exZ], h⟩]

/-- Failing input of C5: a number-counts tracer with the single-point table
`z = [1]`, `N = [2]`, with an allocation that yields `NULL` below three
points; the constructor does not return. -/
theorem cl_tracer_new_bad_grid_witness :
    exAlloc (([1] : List ℚ).length : Int) = false ∧
    cl_tracer_new_alloc exE exAlloc exCosmo 1 0 0 0 [1] [2] [] [] [] [] [] [] [] [] 0
      = Outcome.undefined :=
  ⟨by decide,
    (cl_tracer_new_bad_grid exE exAlloc exCosmo 1 0 0 0 [1] [2] [] [] [] [] [] [] [] [] 0
      (Or.inl (by decide))).1 (by decide)⟩

/-- Witness of C6: the tracer type `3` in the example world. -/
theorem cl_tracer_new_unknown_type_witness :
    cl_tracer_new exE exCosmo 3 0 0 0 exZ exOnes exZ exOnes [] [] [] [] [] [] 0
      = (none, 1027) :=
  (cl_tracer_new_unknown_type exE exCosmo 3 0 0 0 exZ exOnes exZ exOnes [] [] [] [] [] [] 0
    (by decide) (by decide)).1

theorem exZ_first : idx exZ 0 = 0 := by
  simp [idx, exZ]

theorem exE_norm (n : List ℚ) :
    nz_normalisation exE exZ n = some (GSL_SUCCESS, 1 / 600 * idx n 0) := by
  unfold nz_normalisation
  rw [spline_init_ok exE _ _ _ _ _ (exE_spline_exZ n)]
  simp only [Option.map_some', exZ_first, exZ_last]
  simp only [exE, Quad.integrate, spline_eval, GSL_SUCCESS]
  norm_num [idx, exZ]

theorem exFailE_norm :
    nz_normalisation exFailE exZ exOnes = some (1, 0) := by
  unfold nz_normalisation
  have h : exFailE.gsl_spline_init exZ.length exZ exOnes = 0 := exE_spline_exZ exOnes
  rw [spline_init_ok exFailE _ _ _ _ _ h]
  rfl

/-- Witness of the amended C7: a quadrature that reports an error. -/
theorem cl_tracer_new_norm_fails_witness :
    cl_tracer_new exFailE exCosmo 1 0 0 0 exZ exOnes exZ exOnes [] [] [] [] [] [] 0
      = (none, 1030) :=
  cl_tracer_new_norm_fails exFailE exCosmo 1 0 0 0 exZ exOnes exZ exOnes [] [] [] [] [] [] 0
    1 0 (Or.inl rfl) exFailE_norm (by decide)

theorem exE_nc (n : List ℚ) :
    ∃ clt, cl_tracer_new exE exCosmo 1 0 0 0 exZ n exZ exOnes [] [] [] [] [] [] 0
      = (some clt, 0) :=
  cl_tracer_new_nc_ok exE exCosmo 0 exZ n exZ exOnes [] [] [] [] [] [] 0
    exCosmo_allSucceed.1 exCosmo_allSucceed.2.1 (exE_quad_succeeds _ _)
    exE_spline_exZ (exE_spline_exZ _)

/-- Counterexample to C7: N(z) samples `-1` have the normalisation `-1/600`,
the quadrature succeeds, and `cl_tracer_new` returns a tracer with status `0`
whose N(z) interpolant is built from the samples divided by `-1/600`. -/
theorem cl_tracer_new_negative_norm_cex :
    nz_normalisation exE exZ exNeg = some (GSL_SUCCESS, -1 / 600) ∧
    ∃ clt, cl_tracer_new exE exCosmo 1 0 0 0 exZ exNeg exZ exOnes [] [] [] [] [] [] 0
        = (some clt, 0) ∧
      clt.spl_nz = spline_init exE 3 exZ [600, 600, 600] 0 0 := by
  have hn : nz_normalisation exE exZ exNeg = some (GSL_SUCCESS, -1 / 600) := by
    rw [exE_norm]
    norm_num [idx, exNeg]
  refine ⟨hn, ?_⟩
  obtain ⟨clt, hclt⟩ := exE_nc exNeg
  refine ⟨clt, hclt, ?_⟩
  obtain ⟨raw, spl, hraw, -, hspl, hnz, -⟩ :=
    cl_tracer_new_some exE exCosmo 1 0 0 0 exZ exNeg exZ exOnes [] [] [] [] [] [] 0 0 clt hclt
  unfold nz_normalisation at hn
  simp only [hraw, Option.map_some', Option.some.injEq] at hn
  have hq : (exE.gsl_integration_qag (idx exZ 0) (idx exZ (exZ.length - 1))).integrate
      (fun x => speval_bis exE x raw) = (GSL_SUCCESS, -1 / 600) := hn
  rw [hq] at hspl
  rw [hnz, ← hspl]
  norm_num [exNeg, exZ]

theorem exE_spline_linear (m : Int) (x y : List ℚ) (c t : ℚ) :
    exE.gsl_spline_eval { size := m, x := x, y := y.map (fun v => v / c) } t
      = exE.gsl_spline_eval { size := m, x := x, y := y } t / c := by
  cases y with
  | nil => simp [exE, idx]
  | cons a r => simp [exE, idx]

theorem exE_quad_linear (a b : ℚ) (f : ℚ → ℚ) (c : ℚ) :
    ((exE.gsl_integration_qag a b).integrate (fun t => f t / c)).2
      = ((exE.gsl_integration_qag a b).integrate f).2 / c := by
  simp only [exE, Quad.integrate]
  ring

/-- Witness of C8: unit samples on three redshifts up to `1/600` have the
normalisation `1/600`. -/
theorem cl_tracer_new_nz_normalised_witness :
    ∃ clt, cl_tracer_new exE exCosmo 1 0 0 0 exZ exOnes exZ exOnes [] [] [] [] [] [] 0
        = (some clt, 0) ∧
      clt.spl_nz = spline_init exE exZ.length exZ (exOnes.map (fun v => v / (1 / 600))) 0 0 ∧
      ((exE.gsl_integration_qag (idx exZ 0) (idx exZ (exZ.length - 1))).integrate
        (fun x => spline_eval exE x (deref clt.spl_nz))).2 = 1 := by
  obtain ⟨clt, hclt⟩ := exE_nc exOnes
  have hn : nz_normalisation exE exZ exOnes = some (GSL_SUCCESS, 1 / 600) := by
    rw [exE_norm]
    norm_num [idx, exOnes]
  exact ⟨clt, hclt, cl_tracer_new_nz_normalised exE exCosmo 1 0 0 0 exZ exOnes exZ exOnes
    [] [] [] [] [] [] 0 0 clt GSL_SUCCESS (1 / 600) exE_spline_linear exE_quad_linear hn
    (by norm_num) hclt⟩

/-- Witness of C9: a number-counts tracer of the example world. -/
theorem cl_tracer_new_chi_range_witness :
    ∃ clt, cl_tracer_new exE exCosmo 1 0 0 0 exZ exOnes exZ exOnes [] [] [] [] [] [] 0
        = (some clt, 0) ∧
      clt.chimax = (exCosmo.ccl_comoving_radial_distance
        (1 / (1 + idx exZ (exZ.length - 1)))).1 ∧
      ((1 : Int) = exE.CL_TRACER_NC →
        clt.chimin = (exCosmo.ccl_comoving_radial_distance (1 / (1 + idx exZ 0))).1) ∧
      ((1 : Int) = exE.CL_TRACER_WL → clt.chimin = 0) := by
  obtain ⟨clt, hclt⟩ := exE_nc exOnes
  exact ⟨clt, hclt, cl_tracer_new_chi_range exE exCosmo 1 0 0 0 exZ exOnes exZ exOnes
    [] [] [] [] [] [] 0 0 clt (by decide) hclt⟩

theorem exCosmo_distance_nonneg (a : ℚ) : 0 ≤ (exCosmo.ccl_comoving_radial_distance a).1 := by
  simp only [exCosmo]
  split_ifs with h
  · exact le_refl _
  · have := not_lt.mp h
    positivity

theorem exCosmo_distance_mono (z z' : ℚ) (hz : 0 ≤ z) (hzz : z ≤ z') :
    (exCosmo.ccl_comoving_radial_distance (1 / (1 + z))).1
      ≤ (exCosmo.ccl_comoving_radial_distance (1 / (1 + z'))).1 := by
  rw [exCosmo_distance z hz, exCosmo_distance z' (hz.trans hzz)]
  linarith

/-- Witness of C10: a number-counts tracer of the example world. -/
theorem cl_tracer_new_invariant_witness :
    ∃ clt, cl_tracer_new exE exCosmo 1 0 0 0 exZ exOnes exZ exOnes [] [] [] [] [] [] 0
        = (some clt, 0) ∧
      clt.chimin ≤ clt.chimax ∧ clt.spl_nz.isSome ∧
      (clt.tracer_type = exE.CL_TRACER_NC →
        clt.spl_bz.isSome ∧
        (isSet clt.has_magnification → clt.spl_sz.isSome ∧ clt.spl_wM.isSome)) ∧
      (clt.tracer_type = exE.CL_TRACER_WL →
        clt.spl_wL.isSome ∧
        (isSet clt.has_intrinsic_alignment → clt.spl_rf.isSome ∧ clt.spl_ba.isSome)) := by
  obtain ⟨clt, hclt⟩ := exE_nc exOnes
  exact ⟨clt, hclt, cl_tracer_new_invariant exE exCosmo 1 0 0 0 exZ exOnes exZ exOnes
    [] [] [] [] [] [] 0 0 clt (by decide) exE_sorted_exZ
    (by intro v hv; simp only [exZ, List.mem_cons, List.mem_singleton, List.not_mem_nil,
          or_false] at hv; rcases hv with rfl | rfl | rfl <;> norm_num)
    exCosmo_distance_nonneg exCosmo_distance_mono hclt⟩

/-! ## The counterexample to C4 -/

theorem exZshort_last : idx exZshort (exZshort.length - 1) = 1 / 1000 := by
  simp [idx, exZshort]

theorem exOk_short_grid : ¬kernel_grid_ok exOk exCosmo exZshort := by
  unfold kernel_grid_ok
  rw [exZshort_last, exCosmo_distance _ (by norm_num)]
  have hc : c_int (3000 * (1 / 1000) / 5) + 1 = 1 := by
    norm_num [c_int]
  simp only [hc]
  rintro ⟨x, hx, hx0, hxn⟩
  have h0 : fabs (idx x 0) ≤ 1 / 100000 := by simpa using hx0
  have hn : fabs (idx x 0 - 3) ≤ 1 / 100000 := by
    have h3 : (3000 : ℚ) * (1 / 1000) = 3 := by norm_num
    rw [h3] at hxn
    simpa using hxn
  unfold fabs at h0 hn
  split_ifs at h0 hn <;> linarith

theorem mem_bind_apply {α β : Type} (c : MemM α) (f : α → MemM β) (m : Mem) :
    (c >>= f) m = match (c m).1 with
      | none => (none, (c m).2)
      | some a => f a (c m).2 := rfl

theorem mem_pure_apply {α : Type} (a : α) (m : Mem) :
    (pure a : MemM α) m = (some a, m) := rfl

theorem mem_bind_of_some {α β : Type} {c : MemM α} {f : α → MemM β} {m m1 : Mem} {a : α}
    (h : c m = (some a, m1)) : (c >>= f) m = f a m1 := by
  rw [mem_bind_apply, h]

theorem mem_bind_of_none {α β : Type} {c : MemM α} {f : α → MemM β} {m m1 : Mem}
    (h : c m = (none, m1)) : (c >>= f) m = (none, m1) := by
  rw [mem_bind_apply, h]

theorem mem_bind_eq_some {α β : Type} {c : MemM α} {f : α → MemM β} {m m2 : Mem} {b : β}
    (h : (c >>= f) m = (some b, m2)) :
    ∃ a m1, c m = (some a, m1) ∧ f a m1 = (some b, m2) := by
  rw [mem_bind_apply] at h
  cases hc : (c m).1 with
  | none => rw [hc] at h; simp at h
  | some a =>
    rw [hc] at h
    exact ⟨a, (c m).2, Prod.ext hc rfl, h⟩

theorem alloc_apply (o : Obj) (m : Mem) :
    alloc o m = (some (), { m with live := o :: m.live }) := rfl

theorem release_apply (o : Obj) (m : Mem) :
    release o m = (some (), if o ∈ m.live then { m with live := m.live.erase o }
      else { m with faults := o :: m.faults }) := rfl

theorem callM_apply (r : ℚ × Int) (m : Mem) :
    callM r m = (some r.1, { m with status := if r.2 = 0 then m.status else r.2 }) := rfl

theorem releaseAll_fst (os : List Obj) (m : Mem) : (releaseAll os m).1 = some () := by
  induction os generalizing m with
  | nil => rfl
  | cons o os ih =>
    show ((release o >>= fun _ => releaseAll os) m).1 = some ()
    rw [mem_bind_of_some (release_apply o m)]
    exact ih _

theorem releaseAll_status (os : List Obj) (m : Mem) :
    (releaseAll os m).2.status = m.status := by
  induction os generalizing m with
  | nil => rfl
  | cons o os ih =>
    show ((release o >>= fun _ => releaseAll os) m).2.status = m.status
    rw [mem_bind_of_some (release_apply o m), ih]
    split_ifs <;> rfl

theorem bail_apply {α : Type} (cleanup : List Obj) (code : Int) (m : Mem) :
    (bail cleanup code : MemM α) m
      = (none, { (releaseAll cleanup m).2 with status := code }) := rfl

theorem bailIf_eq_some {c : Prop} [Decidable c] {cleanup : List Obj} {code : Int}
    {m m1 : Mem} {u : Unit} (h : bailIf c cleanup code m = (some u, m1)) : ¬c ∧ m1 = m := by
  unfold bailIf at h
  split_ifs at h with hc
  · simp [bail_apply] at h
  · simp only [mem_pure_apply, Prod.mk.injEq] at h
    exact ⟨hc, h.2.symm⟩

theorem orBail_eq_some {α : Type} {o : Option α} {cleanup : List Obj} {code : Int}
    {m m1 : Mem} {a : α} (h : orBail o cleanup code m = (some a, m1)) :
    o = some a ∧ m1 = m := by
  cases o with
  | none => simp [orBail, bail_apply] at h
  | some v =>
    simp only [orBail, mem_pure_apply, Prod.mk.injEq, Option.some.injEq] at h
    exact ⟨by rw [h.1], h.2.symm⟩

theorem spline_init_mem_apply (E : Externals) (site : SplSite) (n : Int) (x y : List ℚ)
    (y0 yf : ℚ) (m : Mem) :
    spline_init_mem E site n x y y0 yf m
      = (some (spline_init E n x y y0 yf),
          { m with live :=
              if spline_init E n x y y0 yf = none then .splpar site :: m.live
              else .gslspline site :: .accel site :: .splpar site :: m.live }) := by
  unfold spline_init_mem
  cases h : spline_init E n x y y0 yf with
  | none =>
    simp only [bind, alloc, release, pure]
    simp
  | some spl =>
    simp only [bind, alloc, release, pure]
    simp

theorem quiet_alloc (o : Obj) : Quiet (alloc o) () := fun _ => ⟨rfl, rfl⟩

theorem quiet_release (o : Obj) : Quiet (release o) () := fun m => by
  rw [release_apply]
  refine ⟨rfl, ?_⟩
  dsimp only
  split_ifs <;> rfl

theorem quiet_releaseAll (os : List Obj) : Quiet (releaseAll os) () := fun m =>
  ⟨releaseAll_fst os m, releaseAll_status os m⟩

theorem quiet_allocIf (c : Prop) [Decidable c] (o : Obj) : Quiet (allocIf c o) () := fun m => by
  unfold allocIf
  split_ifs
  · exact quiet_alloc o m
  · exact ⟨rfl, rfl⟩

theorem quiet_spline_init_mem (E : Externals) (site : SplSite) (n : Int) (x y : List ℚ)
    (y0 yf : ℚ) : Quiet (spline_init_mem E site n x y y0 yf) (spline_init E n x y y0 yf) :=
  fun m => by rw [spline_init_mem_apply]; exact ⟨rfl, rfl⟩

theorem sim_quiet {α β : Type} {c : MemM α} {a : α} {f : α → MemM β} {b : Build β}
    (hc : Quiet c a) (h : Sim (f a) b) : Sim (c >>= f) b := fun m => by
  have h1 := hc m
  rw [mem_bind_of_some (Prod.ext h1.1 rfl : c m = (some a, (c m).2))]
  have h2 := h (c m).2
  rw [h1.2] at h2
  exact h2

theorem sim_bind {α β : Type} {c : MemM α} {b : Build α} {f : α → MemM β} {g : α → Build β}
    (hc : Sim c b) (h : ∀ a, Sim (f a) (g a)) : Sim (c >>= f) (b >>= g) := fun m => by
  have h1 := hc m
  cases hv : (c m).1 with
  | none =>
    rw [hv] at h1
    rw [mem_bind_of_none (Prod.ext hv rfl : c m = (none, (c m).2)),
      build_bind_of_none (Prod.ext h1.1.symm rfl : b m.status = (none, (b m.status).2))]
    exact ⟨rfl, h1.2⟩
  | some a =>
    rw [hv] at h1
    rw [mem_bind_of_some (Prod.ext hv rfl : c m = (some a, (c m).2)),
      build_bind_of_some (Prod.ext h1.1.symm rfl : b m.status = (some a, (b m.status).2))]
    have h2 := h a (c m).2
    rw [h1.2] at h2
    exact h2

theorem sim_pure {α : Type} (a : α) : Sim (pure a : MemM α) (pure a : Build α) :=
  fun _ => ⟨rfl, rfl⟩

theorem sim_bail {α : Type} (cleanup : List Obj) (code : Int) :
    Sim (bail cleanup code : MemM α) (fail code) := fun _ => ⟨rfl, rfl⟩

theorem sim_bailIf (c : Prop) [Decidable c] (cleanup : List Obj) (code : Int) :
    Sim (bailIf c cleanup code) (failIf c code) := fun m => by
  unfold bailIf failIf
  split_ifs
  · exact ⟨rfl, rfl⟩
  · exact ⟨rfl, rfl⟩

theorem sim_orBail {α : Type} (o : Option α) (cleanup : List Obj) (code : Int) :
    Sim (orBail o cleanup code) (orFail o code) := fun m => by
  cases o <;> exact ⟨rfl, rfl⟩

theorem sim_callM (r : ℚ × Int) : Sim (callM r) (callB r) := fun m => by
  simp only [callM, callB, call, and_self]

theorem sim_ite {α : Type} (c : Prop) [Decidable c] {a a1 : MemM α} {b b1 : Build α}
    (h : c → Sim a b) (h1 : ¬c → Sim a1 b1) :
    Sim (if c then a else a1) (if c then b else b1) := by
  split_ifs with hc
  · exact h hc
  · exact h1 hc

/-- The allocation-tracking model computes the result and the status of
`cl_tracer_new`. -/
theorem cl_tracer_new_mem_sim (E : Externals) (cosmo : ccl_cosmology) (tracer_type : Int)
    (has_rsd has_magnification has_intrinsic_alignment : Int)
    (z_n n z_b b z_s s z_ba ba z_rf rf : List ℚ) :
    Sim (cl_tracer_new_mem E cosmo tracer_type has_rsd has_magnification
          has_intrinsic_alignment z_n n z_b b z_s s z_ba ba z_rf rf)
        (cl_tracer_new E cosmo tracer_type has_rsd has_magnification
          has_intrinsic_alignment z_n n z_b b z_s s z_ba ba z_rf rf) := by
  unfold cl_tracer_new_mem cl_tracer_new
  dsimp only
  refine sim_quiet (quiet_alloc _) ?_
  refine sim_bind (sim_callM _) (fun hub => ?_)
  refine sim_ite _ (fun _ => ?_) (fun _ => sim_bail _ _)
  refine sim_bind (sim_callM _) (fun clt_chimax => ?_)
  refine sim_quiet (quiet_spline_init_mem _ _ _ _ _ _ _) ?_
  refine sim_bind (sim_orBail _ _ _) (fun spl_nz_raw => ?_)
  refine sim_quiet (quiet_alloc _) ?_
  refine sim_quiet (quiet_alloc _) ?_
  refine sim_quiet (quiet_release _) ?_
  refine sim_bind (sim_bailIf _ _ _) (fun _ => ?_)
  refine sim_quiet (quiet_releaseAll _) ?_
  refine sim_quiet (quiet_spline_init_mem _ _ _ _ _ _ _) ?_
  refine sim_quiet (quiet_release _) ?_
  refine sim_bind (sim_orBail _ _ _) (fun spl_nz => ?_)
  refine sim_ite _ (fun _ => ?_) (fun _ => sim_ite _ (fun _ => ?_) (fun _ => sim_pure _))
  · refine sim_quiet (quiet_spline_init_mem _ _ _ _ _ _ _) ?_
    refine sim_bind (sim_orBail _ _ _) (fun spl_bz => ?_)
    refine sim_bind (sim_ite _ (fun _ => ?_) (fun _ => sim_pure _)) (fun mag => ?_)
    · refine sim_bind (sim_callM _) (fun chimax => ?_)
      refine sim_quiet (quiet_spline_init_mem _ _ _ _ _ _ _) ?_
      refine sim_bind (sim_orBail _ _ _) (fun spl_sz => ?_)
      refine sim_quiet (quiet_allocIf _ _) ?_
      refine sim_bind (sim_bailIf _ _ _) (fun _ => ?_)
      refine sim_quiet (quiet_alloc _) ?_
      refine sim_bind (sim_bailIf _ _ _) (fun _ => ?_)
      refine sim_quiet (quiet_spline_init_mem _ _ _ _ _ _ _) ?_
      refine sim_bind (sim_orBail _ _ _) (fun spl_wM => ?_)
      refine sim_quiet (quiet_release _) ?_
      refine sim_quiet (quiet_release _) ?_
      exact sim_pure _
    · refine sim_bind (sim_callM _) (fun chimin => ?_)
      exact sim_pure _
  · refine sim_bind (sim_callM _) (fun chimax => ?_)
    refine sim_quiet (quiet_allocIf _ _) ?_
    refine sim_bind (sim_bailIf _ _ _) (fun _ => ?_)
    refine sim_quiet (quiet_alloc _) ?_
    refine sim_bind (sim_bailIf _ _ _) (fun _ => ?_)
    refine sim_quiet (quiet_spline_init_mem _ _ _ _ _ _ _) ?_
    refine sim_bind (sim_orBail _ _ _) (fun spl_wL => ?_)
    refine sim_quiet (quiet_release _) ?_
    refine sim_quiet (quiet_release _) ?_
    refine sim_bind (sim_ite _ (fun _ => ?_) (fun _ => sim_pure _)) (fun ia => ?_)
    · refine sim_quiet (quiet_spline_init_mem _ _ _ _ _ _ _) ?_
      refine sim_bind (sim_orBail _ _ _) (fun spl_rf => ?_)
      refine sim_quiet (quiet_spline_init_mem _ _ _ _ _ _ _) ?_
      refine sim_bind (sim_orBail _ _ _) (fun spl_ba => ?_)
      exact sim_pure _
    · exact sim_pure _


/-! ## The heap of a tracer that was built -/

theorem orBail_bind_eq_some {α β : Type} {o : Option α} {cleanup : List Obj} {code : Int}
    {f : α → MemM β} {m m2 : Mem} {b : β}
    (h : (orBail o cleanup code >>= f) m = (some b, m2)) :
    ∃ a, o = some a ∧ f a m = (some b, m2) := by
  obtain ⟨a, m1, h1, h2⟩ := mem_bind_eq_some h
  obtain ⟨ho, rfl⟩ := orBail_eq_some h1
  exact ⟨a, ho, h2⟩

theorem bailIf_bind_eq_some {β : Type} {c : Prop} [Decidable c] {cleanup : List Obj}
    {code : Int} {f : Unit → MemM β} {m m2 : Mem} {b : β}
    (h : (bailIf c cleanup code >>= f) m = (some b, m2)) :
    ¬c ∧ f () m = (some b, m2) := by
  obtain ⟨a, m1, h1, h2⟩ := mem_bind_eq_some h
  obtain ⟨hc, rfl⟩ := bailIf_eq_some h1
  exact ⟨hc, h2⟩

theorem allocIf_pos {c : Prop} [Decidable c] (hc : c) (o : Obj) (m : Mem) :
    allocIf c o m = (some (), { m with live := o :: m.live }) := by
  unfold allocIf
  rw [if_pos hc]
  rfl

theorem release_head (o : Obj) (st : Int) (l f : List Obj) :
    release o ⟨st, o :: l, f⟩ = (some (), ⟨st, l, f⟩) := by
  simp [release_apply]

theorem release_second (o p : Obj) (st : Int) (l f : List Obj) (h : p ≠ o) :
    release o ⟨st, p :: o :: l, f⟩ = (some (), ⟨st, p :: l, f⟩) := by
  simp [release_apply, List.erase_cons, h]

theorem spline_free_head (site : SplSite) (st : Int) (l f : List Obj) :
    spline_free_mem site ⟨st, .gslspline site :: .accel site :: .splpar site :: l, f⟩
      = (some (), ⟨st, l, f⟩) := by
  unfold spline_free_mem splObjs
  simp only [releaseAll]
  rw [mem_bind_of_some (release_head _ _ _ _), mem_bind_of_some (release_head _ _ _ _),
    mem_bind_of_some (release_head _ _ _ _)]
  rfl

theorem spline_free_second (site : SplSite) (p : Obj) (st : Int) (l f : List Obj)
    (h : p ∉ splObjs site) :
    spline_free_mem site ⟨st, p :: .gslspline site :: .accel site :: .splpar site :: l, f⟩
      = (some (), ⟨st, p :: l, f⟩) := by
  unfold splObjs at h
  simp only [List.mem_cons, List.mem_singleton, not_or, List.not_mem_nil, or_false] at h
  unfold spline_free_mem splObjs
  simp only [releaseAll]
  rw [mem_bind_of_some (release_second _ _ _ _ _ h.1),
    mem_bind_of_some (release_second _ _ _ _ _ h.2.1),
    mem_bind_of_some (release_second _ _ _ _ _ h.2.2)]
  rfl

theorem spline_step_eq_some {β : Type} {E : Externals} {site : SplSite} {n : Int}
    {x y : List ℚ} {y0 yf : ℚ} {cleanup : List Obj} {code : Int} {f : SplPar → MemM β}
    {st : Int} {l fl : List Obj} {m2 : Mem} {b : β}
    (h : (spline_init_mem E site n x y y0 yf >>= fun o => orBail o cleanup code >>= f)
      ⟨st, l, fl⟩ = (some b, m2)) :
    ∃ spl, spline_init E n x y y0 yf = some spl ∧
      f spl ⟨st, .gslspline site :: .accel site :: .splpar site :: l, fl⟩ = (some b, m2) := by
  rw [mem_bind_of_some (spline_init_mem_apply _ _ _ _ _ _ _ _)] at h
  obtain ⟨spl, hspl, h⟩ := orBail_bind_eq_some h
  refine ⟨spl, hspl, ?_⟩
  rw [hspl] at h
  simpa using h

theorem spline_step_release_eq_some {β : Type} {E : Externals} {site : SplSite} {n : Int}
    {x y : List ℚ} {y0 yf : ℚ} {cleanup : List Obj} {code : Int} {f : SplPar → MemM β}
    {st : Int} {p : Obj} {l fl : List Obj} {m2 : Mem} {b : β} (hp : p ∉ splObjs site)
    (h : (spline_init_mem E site n x y y0 yf >>= fun o =>
        release p >>= fun _ => orBail o cleanup code >>= f)
      ⟨st, p :: l, fl⟩ = (some b, m2)) :
    ∃ spl, spline_init E n x y y0 yf = some spl ∧
      f spl ⟨st, .gslspline site :: .accel site :: .splpar site :: l, fl⟩ = (some b, m2) := by
  unfold splObjs at hp
  simp only [List.mem_cons, List.mem_singleton, not_or, List.not_mem_nil, or_false] at hp
  rw [mem_bind_of_some (spline_init_mem_apply _ _ _ _ _ _ _ _),
    mem_bind_of_some (release_apply _ _)] at h
  obtain ⟨spl, hspl, h⟩ := orBail_bind_eq_some h
  refine ⟨spl, hspl, ?_⟩
  rw [hspl] at h
  simpa [List.erase_cons, hp.1, hp.2.1, hp.2.2, Ne.symm hp.1, Ne.symm hp.2.1, Ne.symm hp.2.2]
    using h

theorem release_after3 (o a b c : Obj) (st : Int) (l f : List Obj)
    (ha : a ≠ o) (hb : b ≠ o) (hc : c ≠ o) :
    release o ⟨st, a :: b :: c :: o :: l, f⟩ = (some (), ⟨st, a :: b :: c :: l, f⟩) := by
  simp [release_apply, List.erase_cons, ha, hb, hc]

theorem release_after4 (o a b c d : Obj) (st : Int) (l f : List Obj)
    (ha : a ≠ o) (hb : b ≠ o) (hc : c ≠ o) (hd : d ≠ o) :
    release o ⟨st, a :: b :: c :: d :: o :: l, f⟩
      = (some (), ⟨st, a :: b :: c :: d :: l, f⟩) := by
  simp [release_apply, List.erase_cons, ha, hb, hc, hd]

theorem quiet_pair {α : Type} {c : MemM α} {a : α} (h : Quiet c a) (m : Mem) :
    c m = (some a, (c m).2) :=
  Prod.ext (h m).1 rfl

theorem cl_tracer_new_mem_some {E : Externals} {cosmo : ccl_cosmology} {tracer_type : Int}
    {has_rsd has_magnification has_intrinsic_alignment : Int}
    {z_n n z_b b z_s s z_ba ba z_rf rf : List ℚ} {st : Int} {clt : CCL_ClTracer} {m : Mem}
    (h : cl_tracer_new_mem E cosmo tracer_type has_rsd has_magnification
      has_intrinsic_alignment z_n n z_b b z_s s z_ba ba z_rf rf (Mem.start st) = (some clt, m)) :
    m.faults = [] ∧ clt.tracer_type = tracer_type ∧
    ((tracer_type = E.CL_TRACER_NC ∧ clt.has_magnification = some has_magnification ∧
        m.live = (if has_magnification ≠ 0 then splObjs .wM ++ splObjs .sz else [])
          ++ (splObjs .bz ++ (splObjs .nz ++ [.clt]))) ∨
     (tracer_type ≠ E.CL_TRACER_NC ∧ tracer_type = E.CL_TRACER_WL ∧
        clt.has_intrinsic_alignment = some has_intrinsic_alignment ∧
        m.live = (if has_intrinsic_alignment ≠ 0 then splObjs .ba ++ splObjs .rf else [])
          ++ (splObjs .wL ++ (splObjs .nz ++ [.clt])))) := by
  unfold cl_tracer_new_mem Mem.start at h
  dsimp only at h
  rw [mem_bind_of_some (alloc_apply _ _), mem_bind_of_some (callM_apply _ _)] at h
  by_cases ht : tracer_type = E.CL_TRACER_NC ∨ tracer_type = E.CL_TRACER_WL
  swap
  · rw [if_neg ht] at h
    simp [bail_apply] at h
  rw [if_pos ht, mem_bind_of_some (callM_apply _ _),
    mem_bind_of_some (spline_init_mem_apply _ _ _ _ _ _ _ _)] at h
  obtain ⟨spl_nz_raw, hraw, h⟩ := orBail_bind_eq_some h
  rw [hraw] at h
  simp only [reduceCtorEq, if_false] at h
  rw [mem_bind_of_some (alloc_apply _ _), mem_bind_of_some (alloc_apply _ _),
    mem_bind_of_some (release_head _ _ _ _)] at h
  obtain ⟨hq, h⟩ := bailIf_bind_eq_some h
  rw [mem_bind_of_some (spline_free_second .nz_raw .nz_normalized _ [.clt] _ (by simp [splObjs])),
    ] at h
  obtain ⟨spl_nz, hnz, h⟩ := spline_step_release_eq_some (by simp [splObjs]) h
  by_cases hNC : tracer_type = E.CL_TRACER_NC
  · rw [if_pos hNC] at h
    obtain ⟨spl_bz, hbz, h⟩ := spline_step_eq_some h
    obtain ⟨mag, m1, hmag, h⟩ := mem_bind_eq_some h
    rw [mem_bind_of_some (callM_apply _ _)] at h
    simp only [mem_pure_apply, Prod.mk.injEq, Option.some.injEq] at h
    obtain ⟨rfl, rfl⟩ := h
    by_cases hm : has_magnification ≠ 0
    · rw [if_pos hm, mem_bind_of_some (callM_apply _ _)] at hmag
      obtain ⟨spl_sz, hsz, hmag⟩ := spline_step_eq_some hmag
      by_cases hx : E.ccl_linear_spacing 0
          (cosmo.ccl_comoving_radial_distance (1 / (1 + spl_nz.xf))).1
          (c_int ((cosmo.ccl_comoving_radial_distance (1 / (1 + spl_nz.xf))).1 / 5) + 1) = none
      · rw [mem_bind_of_some (quiet_pair (quiet_allocIf _ _) _)] at hmag
        obtain ⟨hgrid, -⟩ := bailIf_bind_eq_some hmag
        exact absurd (Or.inl hx) hgrid
      · rw [mem_bind_of_some (allocIf_pos hx _ _)] at hmag
        obtain ⟨-, hmag⟩ := bailIf_bind_eq_some hmag
        rw [mem_bind_of_some (alloc_apply _ _)] at hmag
        obtain ⟨-, hmag⟩ := bailIf_bind_eq_some hmag
        obtain ⟨spl_wM, hwM, hmag⟩ := spline_step_eq_some hmag
        rw [mem_bind_of_some (release_after4 _ _ _ _ _ _ _ _ (by simp) (by simp) (by simp)
            (by simp)),
          mem_bind_of_some (release_after3 _ _ _ _ _ _ _ (by simp) (by simp) (by simp))] at hmag
        simp only [mem_pure_apply, Prod.mk.injEq, Option.some.injEq] at hmag
        obtain ⟨rfl, rfl⟩ := hmag
        refine ⟨rfl, rfl, Or.inl ⟨hNC, rfl, ?_⟩⟩
        simp [splObjs, hm]
    · rw [if_neg hm] at hmag
      simp only [mem_pure_apply, Prod.mk.injEq, Option.some.injEq] at hmag
      obtain ⟨rfl, rfl⟩ := hmag
      refine ⟨rfl, rfl, Or.inl ⟨hNC, rfl, ?_⟩⟩
      simp [splObjs, hm]
  · have hWL : tracer_type = E.CL_TRACER_WL := ht.resolve_left hNC
    rw [if_neg hNC, if_pos hWL, mem_bind_of_some (callM_apply _ _)] at h
    by_cases hx : E.ccl_linear_spacing 0
        (cosmo.ccl_comoving_radial_distance (1 / (1 + spl_nz.xf))).1
        (c_int ((cosmo.ccl_comoving_radial_distance (1 / (1 + spl_nz.xf))).1 / 5) + 1) = none
    · rw [mem_bind_of_some (quiet_pair (quiet_allocIf _ _) _)] at h
      obtain ⟨hgrid, -⟩ := bailIf_bind_eq_some h
      exact absurd (Or.inl hx) hgrid
    · rw [mem_bind_of_some (allocIf_pos hx _ _)] at h
      obtain ⟨-, h⟩ := bailIf_bind_eq_some h
      rw [mem_bind_of_some (alloc_apply _ _)] at h
      obtain ⟨-, h⟩ := bailIf_bind_eq_some h
      obtain ⟨spl_wL, hwL, h⟩ := spline_step_eq_some h
      rw [mem_bind_of_some (release_after4 _ _ _ _ _ _ _ _ (by simp) (by simp) (by simp)
          (by simp)),
        mem_bind_of_some (release_after3 _ _ _ _ _ _ _ (by simp) (by simp) (by simp))] at h
      obtain ⟨ia, m1, hia, h⟩ := mem_bind_eq_some h
      simp only [mem_pure_apply, Prod.mk.injEq, Option.some.injEq] at h
      obtain ⟨rfl, rfl⟩ := h
      by_cases hi : has_intrinsic_alignment ≠ 0
      · rw [if_pos hi] at hia
        obtain ⟨spl_rf, hrf, hia⟩ := spline_step_eq_some hia
        obtain ⟨spl_ba, hba, hia⟩ := spline_step_eq_some hia
        simp only [mem_pure_apply, Prod.mk.injEq, Option.some.injEq] at hia
        obtain ⟨rfl, rfl⟩ := hia
        refine ⟨rfl, rfl, Or.inr ⟨hNC, hWL, rfl, ?_⟩⟩
        simp [splObjs, hi]
      · rw [if_neg hi] at hia
        simp only [mem_pure_apply, Prod.mk.injEq, Option.some.injEq] at hia
        obtain ⟨rfl, rfl⟩ := hia
        refine ⟨rfl, rfl, Or.inr ⟨hNC, hWL, rfl, ?_⟩⟩
        simp [splObjs, hi]

theorem readFlag_apply (flag : Option Int) (m : Mem) : readFlag flag m = (flag, m) := rfl

theorem release_append (o : Obj) (st : Int) (pre post f : List Obj) (h : o ∉ pre) :
    release o ⟨st, pre ++ o :: post, f⟩ = (some (), ⟨st, pre ++ post, f⟩) := by
  rw [release_apply]
  simp [List.erase_append_right _ h]

theorem spline_free_append (site : SplSite) (st : Int) (pre post f : List Obj)
    (h : ∀ o ∈ splObjs site, o ∉ pre) :
    spline_free_mem site
        ⟨st, pre ++ (.gslspline site :: .accel site :: .splpar site :: post), f⟩
      = (some (), ⟨st, pre ++ post, f⟩) := by
  unfold spline_free_mem splObjs
  simp only [releaseAll]
  rw [mem_bind_of_some (release_append _ _ _ _ _ (h _ (by simp [splObjs]))),
    mem_bind_of_some (release_append _ _ _ _ _ (h _ (by simp [splObjs]))),
    mem_bind_of_some (release_append _ _ _ _ _ (h _ (by simp [splObjs])))]
  rfl

theorem ccl_cl_tracer_free_nc (E : Externals) (clt : CCL_ClTracer) (st v : Int)
    (hty : clt.tracer_type = E.CL_TRACER_NC) (hflag : clt.has_magnification = some v) :
    ccl_cl_tracer_free E clt
        ⟨st, (if v ≠ 0 then splObjs .wM ++ splObjs .sz else [])
          ++ (splObjs .bz ++ (splObjs .nz ++ [.clt])), []⟩
      = (some (), ⟨st, [], []⟩) := by
  unfold ccl_cl_tracer_free
  rw [if_pos hty, hflag]
  by_cases hm : v ≠ 0
  · have e1 := spline_free_append .nz st (splObjs .wM ++ splObjs .sz ++ splObjs .bz)
      [.clt] [] (by simp [splObjs])
    have e2 := spline_free_append .bz st (splObjs .wM ++ splObjs .sz) [.clt] []
      (by simp [splObjs])
    have e3 := spline_free_append .sz st (splObjs .wM) [.clt] [] (by simp [splObjs])
    have e4 := spline_free_append .wM st [] [.clt] [] (by simp [splObjs])
    rw [if_pos hm]
    simp only [splObjs, List.cons_append, List.nil_append, List.append_assoc] at e1 e2 e3 e4 ⊢
    rw [mem_bind_of_some e1, mem_bind_of_some e2, mem_bind_of_some (readFlag_apply _ _),
      if_pos hm, mem_bind_of_some e3, mem_bind_of_some e4]
    exact release_head _ _ _ _
  · have e1 := spline_free_append .nz st (splObjs .bz) [.clt] [] (by simp [splObjs])
    have e2 := spline_free_append .bz st [] [.clt] [] (by simp [splObjs])
    rw [if_neg hm]
    simp only [splObjs, List.cons_append, List.nil_append, List.append_assoc] at e1 e2 ⊢
    rw [mem_bind_of_some e1, mem_bind_of_some e2, mem_bind_of_some (readFlag_apply _ _),
      if_neg hm]
    exact release_head _ _ _ _

theorem ccl_cl_tracer_free_wl (E : Externals) (clt : CCL_ClTracer) (st v : Int)
    (hty : clt.tracer_type ≠ E.CL_TRACER_NC) (hty2 : clt.tracer_type = E.CL_TRACER_WL)
    (hflag : clt.has_intrinsic_alignment = some v) :
    ccl_cl_tracer_free E clt
        ⟨st, (if v ≠ 0 then splObjs .ba ++ splObjs .rf else [])
          ++ (splObjs .wL ++ (splObjs .nz ++ [.clt])), []⟩
      = (some (), ⟨st, [], []⟩) := by
  unfold ccl_cl_tracer_free
  rw [if_neg hty, if_pos hty2, hflag]
  by_cases hi : v ≠ 0
  · have e1 := spline_free_append .nz st (splObjs .ba ++ splObjs .rf ++ splObjs .wL)
      [.clt] [] (by simp [splObjs])
    have e2 := spline_free_append .wL st (splObjs .ba ++ splObjs .rf) [.clt] []
      (by simp [splObjs])
    have e3 := spline_free_append .ba st [] (splObjs .rf ++ [.clt]) [] (by simp [splObjs])
    have e4 := spline_free_append .rf st [] [.clt] [] (by simp [splObjs])
    rw [if_pos hi]
    simp only [splObjs, List.cons_append, List.nil_append, List.append_assoc] at e1 e2 e3 e4 ⊢
    rw [mem_bind_of_some e1, mem_bind_of_some e2, mem_bind_of_some (readFlag_apply _ _),
      if_pos hi, mem_bind_of_some e3, mem_bind_of_some e4]
    exact release_head _ _ _ _
  · have e1 := spline_free_append .nz st (splObjs .wL) [.clt] [] (by simp [splObjs])
    have e2 := spline_free_append .wL st [] [.clt] [] (by simp [splObjs])
    rw [if_neg hi]
    simp only [splObjs, List.cons_append, List.nil_append, List.append_assoc] at e1 e2 ⊢
    rw [mem_bind_of_some e1, mem_bind_of_some e2, mem_bind_of_some (readFlag_apply _ _),
      if_neg hi]
    exact release_head _ _ _ _

theorem heap_nc_mem (E : Externals) (clt : CCL_ClTracer) (v : Int)
    (hty : clt.tracer_type = E.CL_TRACER_NC) (hflag : clt.has_magnification = some v)
    (o : Obj) :
    o ∈ (if v ≠ 0 then splObjs .wM ++ splObjs .sz else [])
          ++ (splObjs .bz ++ (splObjs .nz ++ [.clt]))
      ↔ o = Obj.clt ∨ ∃ site ∈ spec_interpolants E clt, o ∈ splObjs site := by
  unfold spec_interpolants
  rw [if_pos hty]
  by_cases hm : v ≠ 0
  · have hs : isSet clt.has_magnification := by rw [hflag]; exact hm
    simp only [if_true, hs, splObjs, if_pos hm]
    simp
    tauto
  · have hs : ¬isSet clt.has_magnification := by rw [hflag]; exact hm
    simp only [if_false, hs, splObjs, if_neg hm]
    simp
    tauto

theorem heap_wl_mem (E : Externals) (clt : CCL_ClTracer) (v : Int)
    (hty : clt.tracer_type ≠ E.CL_TRACER_NC) (hty2 : clt.tracer_type = E.CL_TRACER_WL)
    (hflag : clt.has_intrinsic_alignment = some v) (o : Obj) :
    o ∈ (if v ≠ 0 then splObjs .ba ++ splObjs .rf else [])
          ++ (splObjs .wL ++ (splObjs .nz ++ [.clt]))
      ↔ o = Obj.clt ∨ ∃ site ∈ spec_interpolants E clt, o ∈ splObjs site := by
  unfold spec_interpolants
  rw [if_neg hty, if_pos hty2]
  by_cases hi : v ≠ 0
  · have hs : isSet clt.has_intrinsic_alignment := by rw [hflag]; exact hi
    simp only [if_true, hs, splObjs, if_pos hi]
    simp
    tauto
  · have hs : ¬isSet clt.has_intrinsic_alignment := by rw [hflag]; exact hi
    simp only [if_false, hs, splObjs, if_neg hi]
    simp
    tauto

theorem heap_nc_nodup (v : Int) :
    ((if v ≠ 0 then splObjs .wM ++ splObjs .sz else [])
          ++ (splObjs .bz ++ (splObjs .nz ++ [Obj.clt]))).Nodup := by
  split_ifs <;> simp [splObjs]

theorem heap_wl_nodup (v : Int) :
    ((if v ≠ 0 then splObjs .ba ++ splObjs .rf else [])
          ++ (splObjs .wL ++ (splObjs .nz ++ [Obj.clt]))).Nodup := by
  split_ifs <;> simp [splObjs]

/-- C12. For every tracer `clt` that `cl_tracer_new` returns from an empty
heap: the heap then holds, each once, the tracer record and the three objects
of every interpolant the specification lists for the variant and flags of `clt`
(N(z) always; bias, plus slope and magnification kernel iff magnification, for
number counts; lensing kernel, plus alignment-bias and alignment-amplitude iff
intrinsic alignment, for weak lensing), nothing was released twice, and
`ccl_cl_tracer_free` runs to its end (every flag it reads was assigned by the
factory), releases no object that is not allocated and leaves the heap empty
and the status as it was. -/
theorem ccl_cl_tracer_free_exact (E : Externals) (cosmo : ccl_cosmology) (tracer_type : Int)
    (has_rsd has_magnification has_intrinsic_alignment : Int)
    (z_n n z_b b z_s s z_ba ba z_rf rf : List ℚ) (st : Int) (clt : CCL_ClTracer) (m : Mem)
    (h : cl_tracer_new_mem E cosmo tracer_type has_rsd has_magnification
      has_intrinsic_alignment z_n n z_b b z_s s z_ba ba z_rf rf (Mem.start st) = (some clt, m)) :
    (∀ o, o ∈ m.live ↔ o = Obj.clt ∨ ∃ site ∈ spec_interpolants E clt, o ∈ splObjs site) ∧
    m.live.Nodup ∧ m.faults = [] ∧
    ccl_cl_tracer_free E clt m = (some (), { m with live := [] }) := by
  obtain ⟨hf, htt, hcase⟩ := cl_tracer_new_mem_some h
  obtain ⟨st1, live, faults⟩ := m
  dsimp only at hf hcase ⊢
  subst hf
  rcases hcase with ⟨hNC, hflag, hlive⟩ | ⟨hNC, hWL, hflag, hlive⟩
  · have hty : clt.tracer_type = E.CL_TRACER_NC := htt.trans hNC
    subst hlive
    exact ⟨heap_nc_mem E clt _ hty hflag, heap_nc_nodup _, rfl,
      ccl_cl_tracer_free_nc E clt st1 _ hty hflag⟩
  · have hty : clt.tracer_type ≠ E.CL_TRACER_NC := fun hc => hNC (htt.symm.trans hc)
    have hty2 : clt.tracer_type = E.CL_TRACER_WL := htt.trans hWL
    subst hlive
    exact ⟨heap_wl_mem E clt _ hty hty2 hflag, heap_wl_nodup _, rfl,
      ccl_cl_tracer_free_wl E clt st1 _ hty hty2 hflag⟩

theorem cl_tracer_new_mem_of_some {E : Externals} {cosmo : ccl_cosmology} {tracer_type : Int}
    {has_rsd has_magnification has_intrinsic_alignment : Int}
    {z_n n z_b b z_s s z_ba ba z_rf rf : List ℚ} {st st1 : Int} {clt : CCL_ClTracer}
    (h : cl_tracer_new E cosmo tracer_type has_rsd has_magnification
      has_intrinsic_alignment z_n n z_b b z_s s z_ba ba z_rf rf st = (some clt, st1)) :
    ∃ m, cl_tracer_new_mem E cosmo tracer_type has_rsd has_magnification
      has_intrinsic_alignment z_n n z_b b z_s s z_ba ba z_rf rf (Mem.start st)
        = (some clt, m) := by
  have hs := (cl_tracer_new_mem_sim E cosmo tracer_type has_rsd has_magnification
    has_intrinsic_alignment z_n n z_b b z_s s z_ba ba z_rf rf (Mem.start st)).1
  rw [show (Mem.start st).status = st from rfl, h] at hs
  exact ⟨_, Prod.ext hs rfl⟩

/-- Witness of C12: the number-counts tracer of the example world. -/
theorem ccl_cl_tracer_free_exact_witness :
    ∃ clt m, cl_tracer_new_mem exE exCosmo 1 0 0 0 exZ exOnes exZ exOnes [] [] [] [] [] []
        (Mem.start 0) = (some clt, m) ∧
      (∀ o, o ∈ m.live ↔
        o = Obj.clt ∨ ∃ site ∈ spec_interpolants exE clt, o ∈ splObjs site) ∧
      m.live.Nodup ∧ m.faults = [] ∧
      ccl_cl_tracer_free exE clt m = (some (), { m with live := [] }) := by
  obtain ⟨clt, hclt⟩ := exE_nc exOnes
  obtain ⟨m, hm⟩ := cl_tracer_new_mem_of_some hclt
  exact ⟨clt, m, hm, ccl_cl_tracer_free_exact exE exCosmo 1 0 0 0 exZ exOnes exZ exOnes
    [] [] [] [] [] [] 0 clt m hm⟩


/-! ## The heap at the error exits of `cl_tracer_new` -/

theorem orBail_some {α : Type} (a : α) (cleanup : List Obj) (code : Int) (m : Mem) :
    orBail (some a) cleanup code m = (some a, m) := rfl

theorem orBail_none {α : Type} (cleanup : List Obj) (code : Int) (m : Mem) :
    (orBail none cleanup code : MemM α) m
      = (none, { (releaseAll cleanup m).2 with status := code }) := rfl

theorem bailIf_pos {c : Prop} [Decidable c] (hc : c) (cleanup : List Obj) (code : Int)
    (m : Mem) :
    bailIf c cleanup code m = (none, { (releaseAll cleanup m).2 with status := code }) := by
  unfold bailIf
  rw [if_pos hc]
  rfl

theorem bailIf_neg {c : Prop} [Decidable c] (hc : ¬c) (cleanup : List Obj) (code : Int)
    (m : Mem) : bailIf c cleanup code m = (some (), m) := by
  unfold bailIf
  rw [if_neg hc]
  rfl

theorem releaseAll_mid (os : List Obj) (st : Int) (pre post f : List Obj)
    (h : ∀ o ∈ os, o ∉ pre) :
    releaseAll os ⟨st, pre ++ (os ++ post), f⟩ = (some (), ⟨st, pre ++ post, f⟩) := by
  induction os with
  | nil => rfl
  | cons o os ih =>
    show (release o >>= fun _ => releaseAll os) _ = _
    rw [List.cons_append, mem_bind_of_some (release_append o st pre (os ++ post) f
      (h o (List.mem_cons_self _ _)))]
    exact ih (fun p hp => h p (List.mem_cons_of_mem _ hp))

theorem cl_tracer_new_mem_unknown_type (E : Externals) (cosmo : ccl_cosmology)
    (tracer_type has_rsd has_magnification has_intrinsic_alignment : Int)
    (z_n n z_b b z_s s z_ba ba z_rf rf : List ℚ) (st : Int)
    (h1 : tracer_type ≠ E.CL_TRACER_NC) (h2 : tracer_type ≠ E.CL_TRACER_WL) :
    cl_tracer_new_mem E cosmo tracer_type has_rsd has_magnification
        has_intrinsic_alignment z_n n z_b b z_s s z_ba ba z_rf rf (Mem.start st)
      = (none, ⟨E.CCL_ERROR_INCONSISTENT, [.clt], []⟩) := by
  unfold cl_tracer_new_mem Mem.start
  dsimp only
  rw [mem_bind_of_some (alloc_apply _ _), mem_bind_of_some (callM_apply _ _),
    if_neg (not_or.mpr ⟨h1, h2⟩)]
  rfl

theorem orBail_none_mid (α : Type) (os pre post f : List Obj) (code st : Int)
    (h : ∀ o ∈ os, o ∉ pre) :
    (orBail none os code : MemM α) ⟨st, pre ++ (os ++ post), f⟩
      = (none, ⟨code, pre ++ post, f⟩) := by
  rw [orBail_none, releaseAll_mid os st pre post f h]

theorem bailIf_pos_mid {c : Prop} [Decidable c] (hc : c) (os pre post f : List Obj)
    (code st : Int) (h : ∀ o ∈ os, o ∉ pre) :
    bailIf c os code ⟨st, pre ++ (os ++ post), f⟩ = (none, ⟨code, pre ++ post, f⟩) := by
  rw [bailIf_pos hc, releaseAll_mid os st pre post f h]

theorem cl_tracer_new_mem_raw_spline_fails (E : Externals) (cosmo : ccl_cosmology)
    (tracer_type has_rsd has_magnification has_intrinsic_alignment : Int)
    (z_n n z_b b z_s s z_ba ba z_rf rf : List ℚ) (st : Int)
    (ht : tracer_type = E.CL_TRACER_NC ∨ tracer_type = E.CL_TRACER_WL)
    (hraw : spline_init E z_n.length z_n n 0 0 = none) :
    cl_tracer_new_mem E cosmo tracer_type has_rsd has_magnification
        has_intrinsic_alignment z_n n z_b b z_s s z_ba ba z_rf rf (Mem.start st)
      = (none, ⟨E.CCL_ERROR_SPLINE, [.splpar .nz_raw], []⟩) := by
  have e := fun st1 => orBail_none_mid SplPar [.clt] [.splpar .nz_raw] [] []
    E.CCL_ERROR_SPLINE st1 (by simp)
  simp only [List.cons_append, List.nil_append] at e
  unfold cl_tracer_new_mem Mem.start
  dsimp only
  rw [mem_bind_of_some (alloc_apply _ _), mem_bind_of_some (callM_apply _ _), if_pos ht,
    mem_bind_of_some (callM_apply _ _),
    mem_bind_of_some (spline_init_mem_apply _ _ _ _ _ _ _ _), hraw]
  simp only [if_true]
  rw [mem_bind_of_none (e _)]

theorem cl_tracer_new_mem_norm_fails (E : Externals) (cosmo : ccl_cosmology)
    (tracer_type has_rsd has_magnification has_intrinsic_alignment : Int)
    (z_n n z_b b z_s s z_ba ba z_rf rf : List ℚ) (st : Int) (spl : SplPar)
    (ht : tracer_type = E.CL_TRACER_NC ∨ tracer_type = E.CL_TRACER_WL)
    (hraw : spline_init E z_n.length z_n n 0 0 = some spl)
    (hq : ((E.gsl_integration_qag (idx z_n 0) (idx z_n (z_n.length - 1))).integrate
      (fun x => speval_bis E x spl)).1 ≠ GSL_SUCCESS) :
    cl_tracer_new_mem E cosmo tracer_type has_rsd has_magnification
        has_intrinsic_alignment z_n n z_b b z_s s z_ba ba z_rf rf (Mem.start st)
      = (none, ⟨E.CCL_ERROR_INTEG, [.nz_normalized], []⟩) := by
  have e := fun st1 => bailIf_pos_mid hq (splObjs .nz_raw ++ [.clt]) [.nz_normalized] [] []
    E.CCL_ERROR_INTEG st1 (by simp [splObjs])
  simp only [splObjs, List.cons_append, List.nil_append] at e
  unfold cl_tracer_new_mem Mem.start
  dsimp only
  rw [mem_bind_of_some (alloc_apply _ _), mem_bind_of_some (callM_apply _ _), if_pos ht,
    mem_bind_of_some (callM_apply _ _),
    mem_bind_of_some (spline_init_mem_apply _ _ _ _ _ _ _ _), hraw]
  simp only [reduceCtorEq, if_false]
  rw [mem_bind_of_some (orBail_some _ _ _ _), mem_bind_of_some (alloc_apply _ _),
    mem_bind_of_some (alloc_apply _ _), mem_bind_of_some (release_head _ _ _ _)]
  simp only [splObjs, List.cons_append, List.nil_append]
  rw [mem_bind_of_none (e _)]

theorem cl_tracer_new_mem_alignment_fails (E : Externals) (cosmo : ccl_cosmology)
    (has_rsd has_magnification has_intrinsic_alignment : Int)
    (z_n n z_b b z_s s z_ba ba z_rf rf : List ℚ) (st : Int)
    (hNW : E.CL_TRACER_NC ≠ E.CL_TRACER_WL) (hbg : cosmo.AllSucceed)
    (hquad : ∀ a b, (E.gsl_integration_qag a b).Succeeds)
    (hzn : ∀ y, E.gsl_spline_init z_n.length z_n y = 0)
    (hgrid : kernel_grid_ok E cosmo z_n)
    (hker : ∀ x y, E.ccl_linear_spacing 0
        (cosmo.ccl_comoving_radial_distance (1 / (1 + idx z_n (z_n.length - 1)))).1
        (c_int ((cosmo.ccl_comoving_radial_distance
          (1 / (1 + idx z_n (z_n.length - 1)))).1 / 5) + 1) = some x →
      E.gsl_spline_init (c_int ((cosmo.ccl_comoving_radial_distance
          (1 / (1 + idx z_n (z_n.length - 1)))).1 / 5) + 1) x y = 0)
    (hia : has_intrinsic_alignment ≠ 0)
    (hrf : spline_init E z_rf.length z_rf rf (idx rf 0) (idx rf (z_rf.length - 1)) = none) :
    cl_tracer_new_mem E cosmo E.CL_TRACER_WL has_rsd has_magnification
        has_intrinsic_alignment z_n n z_b b z_s s z_ba ba z_rf rf (Mem.start st)
      = (none, ⟨E.CCL_ERROR_SPLINE,
          [.splpar .rf, .gslspline .wL, .accel .wL, .splpar .wL], []⟩) := by
  have e := fun st1 => orBail_none_mid SplPar (splObjs .nz ++ [.clt])
    [.splpar .rf, .gslspline .wL, .accel .wL, .splpar .wL] [] []
    E.CCL_ERROR_SPLINE st1 (by simp [splObjs])
  simp only [splObjs, List.cons_append, List.nil_append] at e
  have hbg' := hbg
  obtain ⟨h1, h2, -, -, -, -, hck⟩ := hbg
  have hq := quad_integrate_succeeds _ (hquad (idx z_n 0) (idx z_n (z_n.length - 1)))
  obtain ⟨x, hx, hx0, hxn⟩ := hgrid
  unfold cl_tracer_new_mem Mem.start
  dsimp only
  rw [mem_bind_of_some (alloc_apply _ _), mem_bind_of_some (callM_apply _ _),
    if_pos (Or.inr rfl), mem_bind_of_some (callM_apply _ _),
    mem_bind_of_some (spline_init_mem_apply _ _ _ _ _ _ _ _),
    spline_init_ok E _ _ _ _ _ (hzn _)]
  simp only [reduceCtorEq, if_false]
  rw [mem_bind_of_some (orBail_some _ _ _ _), mem_bind_of_some (alloc_apply _ _),
    mem_bind_of_some (alloc_apply _ _), mem_bind_of_some (release_head _ _ _ _),
    mem_bind_of_some (bailIf_neg (not_not.mpr (hq _)) _ _ _)]
  rw [mem_bind_of_some (spline_free_second .nz_raw .nz_normalized _ [.clt] _
      (by simp [splObjs])),
    mem_bind_of_some (spline_init_mem_apply _ _ _ _ _ _ _ _),
    spline_init_ok E _ _ _ _ _ (hzn _)]
  simp only [reduceCtorEq, if_false]
  rw [mem_bind_of_some (release_after3 _ _ _ _ _ _ _ (by simp) (by simp) (by simp)),
    mem_bind_of_some (orBail_some _ _ _ _), if_neg (Ne.symm hNW), if_pos trivial,
    mem_bind_of_some (callM_apply _ _)]
  simp only
  rw [hx]
  have hgood : ¬(some x = none ∨ fabs (idx ((some x).getD []) 0 - 0) > 1 / 100000
      ∨ fabs (idx ((some x).getD []) (c_int ((cosmo.ccl_comoving_radial_distance
          (1 / (1 + idx z_n (z_n.length - 1)))).1 / 5) + 1 - 1)
        - (cosmo.ccl_comoving_radial_distance (1 / (1 + idx z_n (z_n.length - 1)))).1)
        > 1 / 100000) := by
    simp only [Option.getD_some, reduceCtorEq, false_or, not_or, not_lt]
    exact ⟨hx0, hxn⟩
  rw [mem_bind_of_some (allocIf_pos (by simp) _ _),
    mem_bind_of_some (bailIf_neg hgood _ _ _), mem_bind_of_some (alloc_apply _ _)]
  rw [mem_bind_of_some (bailIf_neg ?_ _ _ _)]
  · rw [mem_bind_of_some (spline_init_mem_apply _ _ _ _ _ _ _ _)]
    simp only [Option.getD_some]
    rw [spline_init_ok E _ _ _ _ _ (hker _ _ hx)]
    simp only [reduceCtorEq, if_false]
    rw [mem_bind_of_some (orBail_some _ _ _ _),
      mem_bind_of_some (release_after4 _ _ _ _ _ _ _ _ (by simp) (by simp) (by simp)
        (by simp)),
      mem_bind_of_some (release_after3 _ _ _ _ _ _ _ (by simp) (by simp) (by simp)),
      if_pos hia]
    apply mem_bind_of_none
    rw [mem_bind_of_some (spline_init_mem_apply _ _ _ _ _ _ _ _), hrf]
    simp only [if_true, splObjs, List.cons_append, List.nil_append]
    rw [mem_bind_of_none (e _)]
  · rw [hq, not_not]
    apply foldl_lor_zero
    intro r hr
    simp only [List.mem_map] at hr
    obtain ⟨j, -, rfl⟩ := hr
    exact window_lensing_ok E cosmo hbg' hquad _ _ _

theorem exE_grid : kernel_grid_ok exE exCosmo exZ := by
  unfold kernel_grid_ok
  rw [exZ_last, exCosmo_distance _ (by norm_num)]
  have hc : c_int (3000 * (1 / 600) / 5) + 1 = 2 := by
    norm_num [c_int]
  simp only [hc]
  refine ⟨[0, 5], ?_, ?_, ?_⟩
  · simp [exE, List.range_succ]
    norm_num
  · norm_num [idx, fabs]
  · norm_num [idx, fabs]

theorem exE_kernel_spline (x y : List ℚ)
    (h : exE.ccl_linear_spacing 0
        (exCosmo.ccl_comoving_radial_distance (1 / (1 + idx exZ (exZ.length - 1)))).1
        (c_int ((exCosmo.ccl_comoving_radial_distance
          (1 / (1 + idx exZ (exZ.length - 1)))).1 / 5) + 1) = some x) :
    exE.gsl_spline_init (c_int ((exCosmo.ccl_comoving_radial_distance
          (1 / (1 + idx exZ (exZ.length - 1)))).1 / 5) + 1) x y = 0 := by
  rw [exZ_last, exCosmo_distance _ (by norm_num)] at h ⊢
  have hc : c_int (3000 * (1 / 600) / 5) + 1 = 2 := by
    norm_num [c_int]
  rw [hc] at h ⊢
  have hx : x = [0, 5] := by
    simp [exE, List.range_succ] at h
    rw [← h]
    norm_num
  subst hx
  simp [exE, List.Sorted]

/-- C11 (the claim fails). The heap of `cl_tracer_new`, started from the empty
heap, at four of its error exits: with a tracer type that is neither number
counts nor lensing the tracer record stays allocated; when `spline_init`
fails on the N(z) table the `SplPar` record allocated inside `spline_init`
stays allocated; when the normalisation integral fails the buffer
`nz_normalized` stays allocated; and when the lensing kernel has been built
and `spline_init` fails on the alignment table `rf`, the three objects of the
lensing kernel and the `SplPar` record of the failed spline stay allocated.
Nothing is released twice on these exits. -/
theorem cl_tracer_new_leaks (E : Externals) (cosmo : ccl_cosmology)
    (tracer_type has_rsd has_magnification has_intrinsic_alignment : Int)
    (z_n n z_b b z_s s z_ba ba z_rf rf : List ℚ) (st : Int) :
    (tracer_type ≠ E.CL_TRACER_NC → tracer_type ≠ E.CL_TRACER_WL →
      cl_tracer_new_mem E cosmo tracer_type has_rsd has_magnification
          has_intrinsic_alignment z_n n z_b b z_s s z_ba ba z_rf rf (Mem.start st)
        = (none, ⟨E.CCL_ERROR_INCONSISTENT, [.clt], []⟩)) ∧
    (tracer_type = E.CL_TRACER_NC ∨ tracer_type = E.CL_TRACER_WL →
      spline_init E z_n.length z_n n 0 0 = none →
      cl_tracer_new_mem E cosmo tracer_type has_rsd has_magnification
          has_intrinsic_alignment z_n n z_b b z_s s z_ba ba z_rf rf (Mem.start st)
        = (none, ⟨E.CCL_ERROR_SPLINE, [.splpar .nz_raw], []⟩)) ∧
    (tracer_type = E.CL_TRACER_NC ∨ tracer_type = E.CL_TRACER_WL →
      ∀ spl, spline_init E z_n.length z_n n 0 0 = some spl →
      ((E.gsl_integration_qag (idx z_n 0) (idx z_n (z_n.length - 1))).integrate
        (fun x => speval_bis E x spl)).1 ≠ GSL_SUCCESS →
      cl_tracer_new_mem E cosmo tracer_type has_rsd has_magnification
          has_intrinsic_alignment z_n n z_b b z_s s z_ba ba z_rf rf (Mem.start st)
        = (none, ⟨E.CCL_ERROR_INTEG, [.nz_normalized], []⟩)) ∧
    (E.CL_TRACER_NC ≠ E.CL_TRACER_WL → cosmo.AllSucceed →
      (∀ a b, (E.gsl_integration_qag a b).Succeeds) →
      (∀ y, E.gsl_spline_init z_n.length z_n y = 0) →
      kernel_grid_ok E cosmo z_n →
      (∀ x y, E.ccl_linear_spacing 0
          (cosmo.ccl_comoving_radial_distance (1 / (1 + idx z_n (z_n.length - 1)))).1
          (c_int ((cosmo.ccl_comoving_radial_distance
            (1 / (1 + idx z_n (z_n.length - 1)))).1 / 5) + 1) = some x →
        E.gsl_spline_init (c_int ((cosmo.ccl_comoving_radial_distance
            (1 / (1 + idx z_n (z_n.length - 1)))).1 / 5) + 1) x y = 0) →
      has_intrinsic_alignment ≠ 0 →
      spline_init E z_rf.length z_rf rf (idx rf 0) (idx rf (z_rf.length - 1)) = none →
      cl_tracer_new_mem E cosmo E.CL_TRACER_WL has_rsd has_magnification
          has_intrinsic_alignment z_n n z_b b z_s s z_ba ba z_rf rf (Mem.start st)
        = (none, ⟨E.CCL_ERROR_SPLINE,
            [.splpar .rf, .gslspline .wL, .accel .wL, .splpar .wL], []⟩)) :=
  ⟨cl_tracer_new_mem_unknown_type E cosmo tracer_type has_rsd has_magnification
      has_intrinsic_alignment z_n n z_b b z_s s z_ba ba z_rf rf st,
    cl_tracer_new_mem_raw_spline_fails E cosmo tracer_type has_rsd has_magnification
      has_intrinsic_alignment z_n n z_b b z_s s z_ba ba z_rf rf st,
    fun ht spl hraw hq => cl_tracer_new_mem_norm_fails E cosmo tracer_type has_rsd
      has_magnification has_intrinsic_alignment z_n n z_b b z_s s z_ba ba z_rf rf st spl
      ht hraw hq,
    cl_tracer_new_mem_alignment_fails E cosmo has_rsd has_magnification
      has_intrinsic_alignment z_n n z_b b z_s s z_ba ba z_rf rf st⟩

/-- Failing inputs of C11 in the example world: the tracer type `3`; the N(z)
grid `[1, 1]`; a quadrature that reports an error; and a lensing tracer with
intrinsic alignment whose table `rf` has the grid `[1, 1]`. -/
theorem cl_tracer_new_leaks_witness :
    cl_tracer_new_mem exE exCosmo 3 0 0 0 exZ exOnes exZ exOnes [] [] [] [] [] []
        (Mem.start 0) = (none, ⟨exE.CCL_ERROR_INCONSISTENT, [.clt], []⟩) ∧
    cl_tracer_new_mem exE exCosmo 1 0 0 0 [1, 1] [2, 2] exZ exOnes [] [] [] [] [] []
        (Mem.start 0) = (none, ⟨exE.CCL_ERROR_SPLINE, [.splpar .nz_raw], []⟩) ∧
    cl_tracer_new_mem exFailE exCosmo 1 0 0 0 exZ exOnes exZ exOnes [] [] [] [] [] []
        (Mem.start 0) = (none, ⟨exFailE.CCL_ERROR_INTEG, [.nz_normalized], []⟩) ∧
    cl_tracer_new_mem exE exCosmo 2 0 0 1 exZ exOnes [] [] [] [] exZ exOnes [1, 1] [2, 2]
        (Mem.start 0) = (none, ⟨exE.CCL_ERROR_SPLINE,
          [.splpar .rf, .gslspline .wL, .accel .wL, .splpar .wL], []⟩) := by
  refine ⟨?_, ?_, ?_, ?_⟩
  · exact (cl_tracer_new_leaks exE exCosmo 3 0 0 0 exZ exOnes exZ exOnes [] [] [] [] [] [] 0).1
      (by decide) (by decide)
  · exact (cl_tracer_new_leaks exE exCosmo 1 0 0 0 [1, 1] [2, 2] exZ exOnes
      [] [] [] [] [] [] 0).2.1 (Or.inl rfl) (by simp [spline_init, exE, List.Sorted])
  · exact (cl_tracer_new_leaks exFailE exCosmo 1 0 0 0 exZ exOnes exZ exOnes
      [] [] [] [] [] [] 0).2.2.1 (Or.inl rfl) _
      (spline_init_ok exFailE _ _ _ _ _ (exE_spline_exZ exOnes)) (by decide)
  · exact (cl_tracer_new_leaks exE exCosmo 2 0 0 1 exZ exOnes [] [] [] [] exZ exOnes
      [1, 1] [2, 2] 0).2.2.2 (by decide) exCosmo_allSucceed exE_quad_succeeds
      exE_spline_exZ exE_grid exE_kernel_spline (by decide)
      (by simp [spline_init, exE, List.Sorted])

/-! ## C13: the simple constructors and the unused channels -/

theorem cl_tracer_new_no_slope (E : Externals) (cosmo : ccl_cosmology) (tracer_type : Int)
    (has_rsd has_intrinsic_alignment : Int)
    (z_n n z_b b z_s s z_s' s' z_ba ba z_rf rf : List ℚ) :
    cl_tracer_new E cosmo tracer_type has_rsd 0 has_intrinsic_alignment
      z_n n z_b b z_s s z_ba ba z_rf rf
    = cl_tracer_new E cosmo tracer_type has_rsd 0 has_intrinsic_alignment
      z_n n z_b b z_s' s' z_ba ba z_rf rf := by
  unfold cl_tracer_new
  simp only [ne_eq, not_true_eq_false, if_false]

theorem cl_tracer_new_no_alignment (E : Externals) (cosmo : ccl_cosmology) (tracer_type : Int)
    (has_rsd has_magnification : Int)
    (z_n n z_b b z_s s z_ba ba z_rf rf z_ba' ba' z_rf' rf' : List ℚ) :
    cl_tracer_new E cosmo tracer_type has_rsd has_magnification 0
      z_n n z_b b z_s s z_ba ba z_rf rf
    = cl_tracer_new E cosmo tracer_type has_rsd has_magnification 0
      z_n n z_b b z_s s z_ba' ba' z_rf' rf' := by
  unfold cl_tracer_new
  simp only [ne_eq, not_true_eq_false, if_false]

theorem cl_tracer_new_nc_ignores_alignment (E : Externals) (cosmo : ccl_cosmology)
    (has_rsd has_magnification has_intrinsic_alignment has_intrinsic_alignment' : Int)
    (z_n n z_b b z_s s z_ba ba z_rf rf z_ba' ba' z_rf' rf' : List ℚ) :
    cl_tracer_new E cosmo E.CL_TRACER_NC has_rsd has_magnification has_intrinsic_alignment
      z_n n z_b b z_s s z_ba ba z_rf rf
    = cl_tracer_new E cosmo E.CL_TRACER_NC has_rsd has_magnification has_intrinsic_alignment'
      z_n n z_b b z_s s z_ba' ba' z_rf' rf' := by
  unfold cl_tracer_new
  simp only [if_true]

theorem cl_tracer_new_wl_ignores_bias (E : Externals) (cosmo : ccl_cosmology)
    (tracer_type : Int) (hty : tracer_type ≠ E.CL_TRACER_NC)
    (has_rsd has_magnification has_intrinsic_alignment has_rsd' has_magnification' : Int)
    (z_n n z_b b z_s s z_b' b' z_s' s' z_ba ba z_rf rf : List ℚ) :
    cl_tracer_new E cosmo tracer_type has_rsd has_magnification has_intrinsic_alignment
      z_n n z_b b z_s s z_ba ba z_rf rf
    = cl_tracer_new E cosmo tracer_type has_rsd' has_magnification' has_intrinsic_alignment
      z_n n z_b' b' z_s' s' z_ba ba z_rf rf := by
  unfold cl_tracer_new
  simp only [hty, if_false]

/-- C13. The simple constructors equal the full ones with the extra physics
switched off, whatever tables are passed in the unused channels: for every
slope table, `ccl_cl_tracer_number_counts_new` with `has_rsd = 0` and
`has_magnification = 0` returns the same tracer and status as
`ccl_cl_tracer_number_counts_simple_new`, and for all alignment tables
`ccl_cl_tracer_lensing_new` with `has_alignment = 0` returns the same as
`ccl_cl_tracer_lensing_simple_new`.  `cl_tracer_new` does not read a channel
whose flag or variant is off: its outcome is the same for every slope table
when magnification is off, for all alignment tables when intrinsic alignment is
off or the type is number counts, and for all bias and slope tables when the
type is not number counts. -/
theorem simple_constructors_refine (E : Externals) (cosmo : ccl_cosmology)
    (z_n n z_b b z_s s z_ba ba z_rf rf : List ℚ) (st : Int) :
    ccl_cl_tracer_number_counts_new E cosmo 0 0 z_n n z_b b z_s s st
      = ccl_cl_tracer_number_counts_simple_new E cosmo z_n n z_b b st ∧
    ccl_cl_tracer_lensing_new E cosmo 0 z_n n z_ba ba z_rf rf st
      = ccl_cl_tracer_lensing_simple_new E cosmo z_n n st ∧
    (∀ (tracer_type has_rsd has_ia : Int) (z_s' s' : List ℚ),
      cl_tracer_new E cosmo tracer_type has_rsd 0 has_ia z_n n z_b b z_s s z_ba ba z_rf rf
      = cl_tracer_new E cosmo tracer_type has_rsd 0 has_ia
          z_n n z_b b z_s' s' z_ba ba z_rf rf) ∧
    (∀ (tracer_type has_rsd has_mag : Int) (z_ba' ba' z_rf' rf' : List ℚ),
      cl_tracer_new E cosmo tracer_type has_rsd has_mag 0 z_n n z_b b z_s s z_ba ba z_rf rf
      = cl_tracer_new E cosmo tracer_type has_rsd has_mag 0
          z_n n z_b b z_s s z_ba' ba' z_rf' rf') ∧
    (∀ (has_rsd has_mag has_ia has_ia' : Int) (z_ba' ba' z_rf' rf' : List ℚ),
      cl_tracer_new E cosmo E.CL_TRACER_NC has_rsd has_mag has_ia
          z_n n z_b b z_s s z_ba ba z_rf rf
      = cl_tracer_new E cosmo E.CL_TRACER_NC has_rsd has_mag has_ia'
          z_n n z_b b z_s s z_ba' ba' z_rf' rf') ∧
    (∀ (tracer_type has_rsd has_mag has_ia has_rsd' has_mag' : Int) (z_b' b' z_s' s' : List ℚ),
      tracer_type ≠ E.CL_TRACER_NC →
      cl_tracer_new E cosmo tracer_type has_rsd has_mag has_ia
          z_n n z_b b z_s s z_ba ba z_rf rf
      = cl_tracer_new E cosmo tracer_type has_rsd' has_mag' has_ia
          z_n n z_b' b' z_s' s' z_ba ba z_rf rf) := by
  refine ⟨?_, ?_, ?_, ?_, ?_, ?_⟩
  · unfold ccl_cl_tracer_number_counts_new ccl_cl_tracer_number_counts_simple_new
      ccl_cl_tracer_new
    rw [cl_tracer_new_no_slope E cosmo E.CL_TRACER_NC 0 0 z_n n z_b b z_s s [] []]
  · unfold ccl_cl_tracer_lensing_new ccl_cl_tracer_lensing_simple_new ccl_cl_tracer_new
    rw [cl_tracer_new_no_alignment E cosmo E.CL_TRACER_WL 0 0 z_n n [] [] [] []
      z_ba ba z_rf rf [] [] [] []]
  · intro tracer_type has_rsd has_ia z_s' s'
    exact cl_tracer_new_no_slope E cosmo tracer_type has_rsd has_ia
      z_n n z_b b z_s s z_s' s' z_ba ba z_rf rf
  · intro tracer_type has_rsd has_mag z_ba' ba' z_rf' rf'
    exact cl_tracer_new_no_alignment E cosmo tracer_type has_rsd has_mag
      z_n n z_b b z_s s z_ba ba z_rf rf z_ba' ba' z_rf' rf'
  · intro has_rsd has_mag has_ia has_ia' z_ba' ba' z_rf' rf'
    exact cl_tracer_new_nc_ignores_alignment E cosmo has_rsd has_mag has_ia has_ia'
      z_n n z_b b z_s s z_ba ba z_rf rf z_ba' ba' z_rf' rf'
  · intro tracer_type has_rsd has_mag has_ia has_rsd' has_mag' z_b' b' z_s' s' hty
    exact cl_tracer_new_wl_ignores_bias E cosmo tracer_type hty has_rsd has_mag has_ia
      has_rsd' has_mag' z_n n z_b b z_s s z_b' b' z_s' s' z_ba ba z_rf rf

/-- Witness of C13: a lensing tracer of the example world is the same for two
different bias tables. -/
theorem simple_constructors_refine_witness :
    cl_tracer_new exE exCosmo 2 0 0 0 exZ exOnes exZ exOnes [] [] [] [] [] []
      = cl_tracer_new exE exCosmo 2 5 7 0 exZ exOnes [] [] exZ exNeg [] [] [] [] :=
  (simple_constructors_refine exE exCosmo exZ exOnes exZ exOnes [] [] [] [] [] [] 0).2.2.2.2.2
    2 0 0 0 5 7 [] [] exZ exNeg (by decide)

/-! ## C14: the three cases of `spline_eval` -/

/-- C14. For every interpolant and every `x`: `spline_eval` returns `y0` when
`x <= x0`, `yf` when `x > x0` and `x >= xf`, and the value of the underlying
spline when `x0 < x < xf`; the underlying spline is not evaluated outside the
open interval: the result is the same for any two underlying evaluators that
agree inside `(x0, xf)`. -/
theorem spline_eval_cases (E : Externals) (spl : SplPar) (x : ℚ) :
    (x ≤ spl.x0 → spline_eval E x spl = spl.y0) ∧
    (spl.x0 < x → spl.xf ≤ x → spline_eval E x spl = spl.yf) ∧
    (spl.x0 < x → x < spl.xf → spline_eval E x spl = E.gsl_spline_eval spl.spline x) ∧
    (∀ E' : Externals,
      (∀ t, spl.x0 < t → t < spl.xf →
        E'.gsl_spline_eval spl.spline t = E.gsl_spline_eval spl.spline t) →
      spline_eval E' x spl = spline_eval E x spl) := by
  refine ⟨fun h => ?_, fun h1 h2 => ?_, fun h1 h2 => ?_, fun E' hE => ?_⟩
  · simp [spline_eval, h]
  · simp [spline_eval, not_le.mpr h1, h2]
  · simp [spline_eval, not_le.mpr h1, not_le.mpr h2]
  · unfold spline_eval
    by_cases h1 : x ≤ spl.x0
    · simp [h1]
    · by_cases h2 : x ≥ spl.xf
      · simp [h1, h2]
      · simp only [h1, h2, if_false]
        exact hE x (not_le.mp h1) (not_le.mp h2)

/-- Witness of C14: the N(z) interpolant of the example tracer, on the domain
`[1/20, 1/5]`, at three points. -/
theorem spline_eval_cases_witness :
    spline_eval exE (1 / 20) (deref exNC.spl_nz) = 0 ∧
    spline_eval exE (1 / 5) (deref exNC.spl_nz) = 0 ∧
    spline_eval exE (1 / 10) (deref exNC.spl_nz)
      = exE.gsl_spline_eval (deref exNC.spl_nz).spline (1 / 10) :=
  ⟨(spline_eval_cases exE (deref exNC.spl_nz) (1 / 20)).1 (by norm_num [deref, exNC]),
   (spline_eval_cases exE (deref exNC.spl_nz) (1 / 5)).2.1
     (by norm_num [deref, exNC]) (by norm_num [deref, exNC]),
   (spline_eval_cases exE (deref exNC.spl_nz) (1 / 10)).2.2.1
     (by norm_num [deref, exNC]) (by norm_num [deref, exNC])⟩

/-! ## C15: evaluation at the ends of the domain -/

theorem tendsFromAbove_congr (f g : ℚ → ℚ) (a c L : ℚ) (hac : a < c)
    (hfg : ∀ x, a < x → x < c → f x = g x) (hf : TendsFromAbove f a L) :
    TendsFromAbove g a L := by
  intro ε hε
  obtain ⟨δ, hδ, h⟩ := hf ε hε
  refine ⟨min δ (c - a), lt_min hδ (sub_pos.mpr hac), fun x hx1 hx2 => ?_⟩
  have h1 : x < a + δ := lt_of_lt_of_le hx2 (add_le_add_left (min_le_left _ _) _)
  have h2 : x < c := by
    have := lt_of_lt_of_le hx2 (add_le_add_left (min_le_right δ (c - a)) a)
    linarith
  rw [← hfg x hx1 h2]
  exact h x hx1 h1

theorem tendsFromBelow_congr (f g : ℚ → ℚ) (a c L : ℚ) (hca : c < a)
    (hfg : ∀ x, c < x → x < a → f x = g x) (hf : TendsFromBelow f a L) :
    TendsFromBelow g a L := by
  intro ε hε
  obtain ⟨δ, hδ, h⟩ := hf ε hε
  refine ⟨min δ (a - c), lt_min hδ (sub_pos.mpr hca), fun x hx1 hx2 => ?_⟩
  have h1 : a - δ < x := lt_of_le_of_lt (sub_le_sub_left (min_le_left _ _) _) hx1
  have h2 : c < x := by
    have := lt_of_le_of_lt (sub_le_sub_left (min_le_right δ (a - c)) a) hx1
    linarith
  rw [← hfg x h2 hx2]
  exact h x h1 hx2

theorem spline_eval_inside (E : Externals) (spl : SplPar) (x : ℚ)
    (h1 : spl.x0 < x) (h2 : x < spl.xf) :
    spline_eval E x spl = E.gsl_spline_eval spl.spline x := by
  simp [spline_eval, not_le.mpr h1, not_le.mpr h2]

/-- C15 (as amended). For every interpolant built by `spline_init` on a domain
with `x0 < xf`: `evaluate(x0) = y_below` and `evaluate(xf) = y_above`, and
`evaluate(x)` tends to a value `L` as `x` decreases to `x0` (increases to `xf`)
exactly when the underlying GSL spline does; so evaluation is continuous at an
end of the domain exactly when the underlying spline tends to the boundary
constant there. -/
theorem spline_eval_boundary (E : Externals) (m : Int) (x y : List ℚ) (y0 yf : ℚ)
    (spl : SplPar) (hspl : spline_init E m x y y0 yf = some spl)
    (hdom : idx x 0 < idx x (m - 1)) :
    spl.x0 = idx x 0 ∧ spl.xf = idx x (m - 1) ∧
    spline_eval E spl.x0 spl = y0 ∧ spline_eval E spl.xf spl = yf ∧
    (∀ L, TendsFromAbove (fun t => spline_eval E t spl) spl.x0 L ↔
      TendsFromAbove (E.gsl_spline_eval spl.spline) spl.x0 L) ∧
    (∀ L, TendsFromBelow (fun t => spline_eval E t spl) spl.xf L ↔
      TendsFromBelow (E.gsl_spline_eval spl.spline) spl.xf L) := by
  obtain ⟨-, hs⟩ := spline_init_eq_some E m x y y0 yf spl hspl
  have hx0 : spl.x0 = idx x 0 := by rw [hs]
  have hxf : spl.xf = idx x (m - 1) := by rw [hs]
  have hy0 : spl.y0 = y0 := by rw [hs]
  have hyf : spl.yf = yf := by rw [hs]
  have hlt : spl.x0 < spl.xf := by rw [hx0, hxf]; exact hdom
  refine ⟨hx0, hxf, ?_, ?_, fun L => ⟨?_, ?_⟩, fun L => ⟨?_, ?_⟩⟩
  · simp [spline_eval, hy0]
  · simp [spline_eval, not_le.mpr hlt, hyf]
  · exact tendsFromAbove_congr _ _ spl.x0 spl.xf L hlt
      (fun t h1 h2 => spline_eval_inside E spl t h1 h2)
  · exact tendsFromAbove_congr _ _ spl.x0 spl.xf L hlt
      (fun t h1 h2 => (spline_eval_inside E spl t h1 h2).symm)
  · exact tendsFromBelow_congr _ _ spl.xf spl.x0 L hlt
      (fun t h1 h2 => spline_eval_inside E spl t h1 h2)
  · exact tendsFromBelow_congr _ _ spl.xf spl.x0 L hlt
      (fun t h1 h2 => (spline_eval_inside E spl t h1 h2).symm)

theorem exE_raw_spline :
    spline_init exE 3 exZ exOnes 0 0
      = some { spline := { size := 3, x := exZ, y := exOnes },
               x0 := 0, xf := 1 / 600, y0 := 0, yf := 0 } := by
  have h : exE.gsl_spline_init 3 exZ exOnes = 0 := exE_spline_exZ exOnes
  rw [spline_init_ok exE _ _ _ _ _ h]
  simp [idx, exZ]

/-- Witness of the amended C15: the raw N(z) interpolant of the example
world. -/
theorem spline_eval_boundary_witness :
    spline_eval exE 0 { spline := { size := 3, x := exZ, y := exOnes },
                        x0 := 0, xf := 1 / 600, y0 := 0, yf := 0 } = 0 ∧
    spline_eval exE (1 / 600) { spline := { size := 3, x := exZ, y := exOnes },
                                x0 := 0, xf := 1 / 600, y0 := 0, yf := 0 } = 0 :=
  have h := spline_eval_boundary exE 3 exZ exOnes 0 0 _ exE_raw_spline
    (by
      rw [show ((3 : Int) - 1) = ((exZ.length : Int) - 1) from by simp [exZ],
        exZ_first, exZ_last]
      norm_num)
  ⟨h.2.2.1, h.2.2.2.1⟩

/-- Counterexample to C15: the N(z) interpolant built by `spline_init` with
both boundary constants `0` from unit samples on the redshifts
`0, 1/1200, 1/600` evaluates to `0` at `x0 = 0` and to `1` at every point
inside the domain, so its values do not tend to `y_below = 0` as `x` decreases
to `x0`. -/
theorem spline_eval_jump_cex :
    spline_init exE 3 exZ exOnes 0 0
      = some { spline := { size := 3, x := exZ, y := exOnes },
               x0 := 0, xf := 1 / 600, y0 := 0, yf := 0 } ∧
    (∀ t : ℚ, 0 < t → t < 1 / 600 →
      spline_eval exE t { spline := { size := 3, x := exZ, y := exOnes },
                          x0 := 0, xf := 1 / 600, y0 := 0, yf := 0 } = 1) ∧
    ¬TendsFromAbove
      (fun t => spline_eval exE t { spline := { size := 3, x := exZ, y := exOnes },
                                    x0 := 0, xf := 1 / 600, y0 := 0, yf := 0 }) 0 0 := by
  have hin : ∀ t : ℚ, 0 < t → t < 1 / 600 →
      spline_eval exE t { spline := { size := 3, x := exZ, y := exOnes },
                          x0 := 0, xf := 1 / 600, y0 := 0, yf := 0 } = 1 := by
    intro t h1 h2
    rw [spline_eval_inside exE _ t h1 h2]
    simp [exE, idx, exOnes]
  refine ⟨exE_raw_spline, hin, fun h => ?_⟩
  obtain ⟨δ, hδ, hx⟩ := h (1 / 2) (by norm_num)
  have hpos : 0 < min δ (1 / 600) / 2 := by
    have : 0 < min δ (1 / 600) := lt_min hδ (by norm_num)
    linarith
  have hlt1 : min δ (1 / 600) / 2 < 0 + δ := by
    have := min_le_left δ (1 / 600)
    linarith
  have hlt2 : min δ (1 / 600) / 2 < 1 / 600 := by
    have := min_le_right δ (1 / 600)
    linarith
  have h1 := hx _ hpos hlt1
  simp only [hin _ hpos hlt2] at h1
  norm_num at h1

/-! ## C16: the Limber branch -/

theorem transfer_nc_limber (E : Externals) (cosmo : ccl_cosmology) (l : Int) (k : ℚ)
    (clt : CCL_ClTracer) (hl : LLIMBER < l) :
    transfer_nc E cosmo l k clt =
      (if ((l : ℚ) + 1 / 2) / k ≤ clt.chimax then do
        let a0 ← call (cosmo.ccl_scale_factor_of_chi (((l : ℚ) + 1 / 2) / k))
        let pk0 ← call (cosmo.ccl_nonlin_matter_power k a0)
        let f_all := (← f_dens E cosmo a0 clt) * j_bessel_limber E l k
        let f_all ← (if isSet clt.has_rsd then do
            let a1 ← call (cosmo.ccl_scale_factor_of_chi (((l : ℚ) + 3 / 2) / k))
            let pk1 ← call (cosmo.ccl_nonlin_matter_power k a1)
            let fg0 ← f_rsd E cosmo (((l : ℚ) + 1 / 2) / k) clt
            let fg1 ← f_rsd E cosmo (((l : ℚ) + 3 / 2) / k) clt
            pure (f_all + (fg0 * (1 - (l : ℚ) * ((l : ℚ) - 1)
                / (((l : ℚ) + 1 / 2) * ((l : ℚ) + 1 / 2))) * j_bessel_limber E l k
              - fg1 * 2 * j_bessel_limber E (wrap32 (l + 1)) k * E.sqrt (pk1 / pk0)
                / ((l : ℚ) + 3 / 2)))
          else pure f_all)
        pure ((if isSet clt.has_magnification then
            f_all + -2 * clt.prefac_lensing * (l : ℚ) * ((wrap32 (l + 1) : Int) : ℚ)
              * f_mag E a0 (((l : ℚ) + 1 / 2) / k) clt * j_bessel_limber E l k / (k * k)
          else f_all) * E.sqrt pk0)
      else pure 0) := by
  unfold transfer_nc
  rw [if_pos hl]

theorem transfer_wl_limber (E : Externals) (cosmo : ccl_cosmology) (l : Int) (k : ℚ)
    (clt : CCL_ClTracer) (hl : LLIMBER < l) :
    transfer_wl E cosmo l k clt = (do
      let ret ← (if ((l : ℚ) + 1 / 2) / k ≤ clt.chimax then do
          let a ← call (cosmo.ccl_scale_factor_of_chi (((l : ℚ) + 1 / 2) / k))
          let pk ← call (cosmo.ccl_nonlin_matter_power k a)
          let f_all := f_lensing E a (((l : ℚ) + 1 / 2) / k) clt * j_bessel_limber E l k
          let f_all ← (if isSet clt.has_intrinsic_alignment then do
              pure (f_all + (← f_IA_NLA E cosmo (((l : ℚ) + 1 / 2) / k) clt)
                * j_bessel_limber E l k)
            else pure f_all)
          pure (f_all * E.sqrt pk)
        else pure 0)
      pure (((l : ℚ) + 1) * (l : ℚ) * ret / (k * k))) := by
  unfold transfer_wl
  rw [if_pos hl]

theorem transfer_nc_no_bessel (E : Externals) (cosmo : ccl_cosmology) (l : Int) (k : ℚ)
    (clt : CCL_ClTracer) (hl : LLIMBER < l) (jb : Int → ℚ → ℚ) :
    transfer_nc { E with ccl_j_bessel := jb } cosmo l k clt = transfer_nc E cosmo l k clt := by
  rw [transfer_nc_limber _ cosmo l k clt hl, transfer_nc_limber E cosmo l k clt hl]
  rfl

theorem transfer_wl_no_bessel (E : Externals) (cosmo : ccl_cosmology) (l : Int) (k : ℚ)
    (clt : CCL_ClTracer) (hl : LLIMBER < l) (jb : Int → ℚ → ℚ) :
    transfer_wl { E with ccl_j_bessel := jb } cosmo l k clt = transfer_wl E cosmo l k clt := by
  rw [transfer_wl_limber _ cosmo l k clt hl, transfer_wl_limber E cosmo l k clt hl]
  rfl

theorem transfer_nc_distances (E : Externals) (cosmo : ccl_cosmology) (l : Int) (k : ℚ)
    (clt : CCL_ClTracer) (hl : LLIMBER < l) (sf : ℚ → ℚ × Int)
    (h0 : sf (((l : ℚ) + 1 / 2) / k) = cosmo.ccl_scale_factor_of_chi (((l : ℚ) + 1 / 2) / k))
    (h1 : sf (((l : ℚ) + 3 / 2) / k) = cosmo.ccl_scale_factor_of_chi (((l : ℚ) + 3 / 2) / k)) :
    transfer_nc E { cosmo with ccl_scale_factor_of_chi := sf } l k clt
      = transfer_nc E cosmo l k clt := by
  rw [transfer_nc_limber E _ l k clt hl, transfer_nc_limber E cosmo l k clt hl]
  simp only [h0, h1]
  rfl

theorem transfer_wl_distances (E : Externals) (cosmo : ccl_cosmology) (l : Int) (k : ℚ)
    (clt : CCL_ClTracer) (hl : LLIMBER < l) (sf : ℚ → ℚ × Int)
    (h0 : sf (((l : ℚ) + 1 / 2) / k) = cosmo.ccl_scale_factor_of_chi (((l : ℚ) + 1 / 2) / k)) :
    transfer_wl E { cosmo with ccl_scale_factor_of_chi := sf } l k clt
      = transfer_wl E cosmo l k clt := by
  rw [transfer_wl_limber E _ l k clt hl, transfer_wl_limber E cosmo l k clt hl]
  simp only [f_IA_NLA, h0]

/-- C16. For every multipole `l > -100`, hence for every non-negative `l`, and
every `k` and tracer, `transfer_nc` and `transfer_wl` take the Limber branch:
`ccl_j_bessel` is not called (the result is the same whatever that function
is), and the scale factor is looked up only at the distance `(l+0.5)/k`, and
at `(l+1.5)/k` for `transfer_nc` (the result is the same for every
`ccl_scale_factor_of_chi` with the same values there).  The fixed-step sum over
`chi_i = chimin + 3*(i+0.5)` is what is computed exactly when `l <= -100`. -/
theorem limber_regime (E : Externals) (cosmo : ccl_cosmology) (l : Int) (k : ℚ)
    (clt : CCL_ClTracer) :
    (0 ≤ l → -100 < l) ∧
    (-100 < l →
      (∀ jb : Int → ℚ → ℚ,
        transfer_nc { E with ccl_j_bessel := jb } cosmo l k clt = transfer_nc E cosmo l k clt ∧
        transfer_wl { E with ccl_j_bessel := jb } cosmo l k clt
          = transfer_wl E cosmo l k clt) ∧
      (∀ sf : ℚ → ℚ × Int,
        sf (((l : ℚ) + 1 / 2) / k) = cosmo.ccl_scale_factor_of_chi (((l : ℚ) + 1 / 2) / k) →
        (sf (((l : ℚ) + 3 / 2) / k) = cosmo.ccl_scale_factor_of_chi (((l : ℚ) + 3 / 2) / k) →
          transfer_nc E { cosmo with ccl_scale_factor_of_chi := sf } l k clt
            = transfer_nc E cosmo l k clt) ∧
        transfer_wl E { cosmo with ccl_scale_factor_of_chi := sf } l k clt
          = transfer_wl E cosmo l k clt)) ∧
    (l ≤ -100 →
      transfer_nc E cosmo l k clt = (do
        let ret ← (List.range (c_int ((clt.chimax - clt.chimin) / 3) + 1).toNat).foldlM
          (transfer_nc_term E cosmo l k clt) 0
        pure (ret * 3)) ∧
      transfer_wl E cosmo l k clt = (do
        let ret ← (List.range (c_int ((clt.chimax - clt.chimin) / 3) + 1).toNat).foldlM
          (transfer_wl_term E cosmo l k clt) 0
        pure (((l : ℚ) + 1) * (l : ℚ) * (ret * 3) / (k * k)))) := by
  refine ⟨fun h => by omega, fun hl => ⟨fun jb => ⟨?_, ?_⟩, fun sf h0 => ⟨fun h1 => ?_, ?_⟩⟩,
    fun hl => ⟨?_, ?_⟩⟩
  · exact transfer_nc_no_bessel E cosmo l k clt hl jb
  · exact transfer_wl_no_bessel E cosmo l k clt hl jb
  · exact transfer_nc_distances E cosmo l k clt hl sf h0 h1
  · exact transfer_wl_distances E cosmo l k clt hl sf h0
  · have hl' : ¬(l > LLIMBER) := not_lt.mpr hl
    unfold transfer_nc
    rw [if_neg hl']
    rfl
  · have hl' : ¬(l > LLIMBER) := not_lt.mpr hl
    unfold transfer_wl
    rw [if_neg hl']
    rfl

/-- Witness of C16: `l = 0` with the example tracer and a Bessel function
replaced by the constant `7`. -/
theorem limber_regime_witness :
    transfer_nc { exE with ccl_j_bessel := fun _ _ => 7 } exCosmo 0 (1 / 200) exNC
      = transfer_nc exE exCosmo 0 (1 / 200) exNC :=
  (((limber_regime exE exCosmo 0 (1 / 200) exNC).2.1
    ((limber_regime exE exCosmo 0 (1 / 200) exNC).1 (le_refl 0))).1 (fun _ _ => 7)).1

/-! ## C17 to C20: values of the transfer functions in the Limber branch -/

theorem f_dens_value (E : Externals) (cosmo : ccl_cosmology) (a : ℚ) (clt : CCL_ClTracer)
    (s : Int) :
    (f_dens E cosmo a clt s).1
      = spline_eval E (1 / a - 1) (deref clt.spl_nz)
        * spline_eval E (1 / a - 1) (deref clt.spl_bz) * spec_H cosmo a := by
  simp only [f_dens, bind_apply, call_apply, pure_apply, spec_H]

theorem f_rsd_value (E : Externals) (cosmo : ccl_cosmology) (a : ℚ) (clt : CCL_ClTracer)
    (s : Int) : (f_rsd E cosmo a clt s).1 = spec_fg E cosmo clt a := by
  simp only [f_rsd, bind_apply, call_apply, pure_apply, spec_fg, spec_H]

theorem wrap32_eq (n : Int) (h1 : -2147483648 ≤ n) (h2 : n < 2147483648) : wrap32 n = n := by
  unfold wrap32
  omega

/-- Inside the range where `2*l` does not overflow, `j_bessel_limber` is the
Limber surrogate of the specification. -/
theorem j_bessel_limber_eq (E : Externals) (l : Int) (k : ℚ) (h1 : -1073741824 ≤ l)
    (h2 : l < 1073741824) : j_bessel_limber E l k = spec_j E l k := by
  unfold j_bessel_limber spec_j
  rw [wrap32_eq (2 * l) (by omega) (by omega)]
  push_cast
  rfl

/-- Value of `transfer_nc` in the Limber branch inside the support, in the
terms the source computes. -/
theorem transfer_nc_limber_code (E : Externals) (cosmo : ccl_cosmology) (l : Int) (k : ℚ)
    (clt : CCL_ClTracer) (s : Int) (hl : LLIMBER < l)
    (hchi : ((l : ℚ) + 1 / 2) / k ≤ clt.chimax) :
    (transfer_nc E cosmo l k clt s).1 =
      (spline_eval E (1 / spec_a cosmo (((l : ℚ) + 1 / 2) / k) - 1) (deref clt.spl_nz)
          * spline_eval E (1 / spec_a cosmo (((l : ℚ) + 1 / 2) / k) - 1) (deref clt.spl_bz)
          * spec_H cosmo (spec_a cosmo (((l : ℚ) + 1 / 2) / k)) * j_bessel_limber E l k
        + (if isSet clt.has_rsd then
            spec_fg E cosmo clt (((l : ℚ) + 1 / 2) / k)
                * (1 - (l : ℚ) * ((l : ℚ) - 1) / ((l : ℚ) + 1 / 2) ^ 2) * j_bessel_limber E l k
              - spec_fg E cosmo clt (((l : ℚ) + 3 / 2) / k) * 2
                * j_bessel_limber E (wrap32 (l + 1)) k
                * E.sqrt (spec_P cosmo k (spec_a cosmo (((l : ℚ) + 3 / 2) / k))
                    / spec_P cosmo k (spec_a cosmo (((l : ℚ) + 1 / 2) / k)))
                / ((l : ℚ) + 3 / 2)
          else 0)
        + (if isSet clt.has_magnification then
            -2 * clt.prefac_lensing * (l : ℚ) * ((wrap32 (l + 1) : Int) : ℚ)
              * f_mag E (spec_a cosmo (((l : ℚ) + 1 / 2) / k)) (((l : ℚ) + 1 / 2) / k) clt
              * j_bessel_limber E l k / (k * k)
          else 0))
      * E.sqrt (spec_P cosmo k (spec_a cosmo (((l : ℚ) + 1 / 2) / k))) := by
  rw [transfer_nc_limber E cosmo l k clt hl, if_pos hchi]
  simp only [bind_apply, call_apply, pure_apply, f_dens_value]
  by_cases hr : isSet clt.has_rsd <;> by_cases hm : isSet clt.has_magnification <;>
    simp only [hr, hm, if_true, if_false, bind_apply, call_apply, pure_apply, f_rsd_value,
      spec_a, spec_P] <;>
    ring

/-- Value of `transfer_nc` in the Limber branch inside the support, for `l`
in the range where neither `2*l` nor `2*(l+1)` overflows. -/
theorem transfer_nc_limber_value (E : Externals) (cosmo : ccl_cosmology) (l : Int) (k : ℚ)
    (clt : CCL_ClTracer) (s : Int) (hl : LLIMBER < l) (hu : l < 1073741823)
    (hchi : ((l : ℚ) + 1 / 2) / k ≤ clt.chimax) :
    (transfer_nc E cosmo l k clt s).1 =
      (spline_eval E (1 / spec_a cosmo (((l : ℚ) + 1 / 2) / k) - 1) (deref clt.spl_nz)
          * spline_eval E (1 / spec_a cosmo (((l : ℚ) + 1 / 2) / k) - 1) (deref clt.spl_bz)
          * spec_H cosmo (spec_a cosmo (((l : ℚ) + 1 / 2) / k)) * spec_j E l k
        + (if isSet clt.has_rsd then rsd_term_at_distances E cosmo l k clt else 0)
        + (if isSet clt.has_magnification then
            -2 * clt.prefac_lensing * (l : ℚ) * ((l : ℚ) + 1)
              * f_mag E (spec_a cosmo (((l : ℚ) + 1 / 2) / k)) (((l : ℚ) + 1 / 2) / k) clt
              * spec_j E l k / (k * k)
          else 0))
      * E.sqrt (spec_P cosmo k (spec_a cosmo (((l : ℚ) + 1 / 2) / k))) := by
  have hl0 : -100 < l := hl
  rw [transfer_nc_limber_code E cosmo l k clt s hl hchi,
    wrap32_eq (l + 1) (by omega) (by omega),
    j_bessel_limber_eq E l k (by omega) (by omega),
    j_bessel_limber_eq E (l + 1) k (by omega) (by omega)]
  simp only [rsd_term_at_distances, spec_a]
  push_cast
  rfl

theorem exCosmo_spec_a (chi : ℚ) : spec_a exCosmo chi = 1 / (1 + chi / 3000) := rfl

theorem exCosmo_spec_P (k a : ℚ) : spec_P exCosmo k a = 1 := rfl

theorem exCosmo_spec_H (a : ℚ) : spec_H exCosmo a = 7 / 10 * 1 / CLIGHT_HMPC := rfl

/-- C17 (as amended). For every number-counts tracer with RSD and
magnification disabled and every `l` with `0 <= l < 2^30` (the range in which
the `int` product `2*l` of `j_bessel_limber` does not overflow), with
`chi0 = (l+0.5)/k`: `transfer_nc` returns `0` if
`chi0 > chimax` and otherwise
`N(z0) * b(z0) * (h*E(a0)/c_H) * sqrt(pi/(2l+1))/k * sqrt(P(k,a0))`. -/
theorem transfer_nc_density_only (E : Externals) (cosmo : ccl_cosmology) (l : Int) (k : ℚ)
    (clt : CCL_ClTracer) (s : Int) (hl : 0 ≤ l) (hu : l < 1073741824)
    (hrsd : ¬isSet clt.has_rsd) (hmag : ¬isSet clt.has_magnification) :
    (transfer_nc E cosmo l k clt s).1 = spec_transfer_density E cosmo l k clt := by
  have hl' : LLIMBER < l := by
    unfold LLIMBER
    omega
  unfold spec_transfer_density
  by_cases hchi : ((l : ℚ) + 1 / 2) / k ≤ clt.chimax
  · rw [transfer_nc_limber_code E cosmo l k clt s hl' hchi,
      j_bessel_limber_eq E l k (by omega) hu]
    simp only [hrsd, hmag, if_false, gt_iff_lt, not_lt.mpr hchi]
    ring
  · rw [transfer_nc_limber E cosmo l k clt hl', if_neg hchi]
    simp only [pure_apply, gt_iff_lt, not_le.mp hchi, if_true]

/-- Witness of the amended C17: the example tracer at `l = 1`, `k = 1/200`,
where `chi0 = 300` lies in the support. -/
theorem transfer_nc_density_only_witness :
    (transfer_nc exE exCosmo 1 (1 / 200) exNC 0).1
      = spec_transfer_density exE exCosmo 1 (1 / 200) exNC :=
  transfer_nc_density_only exE exCosmo 1 (1 / 200) exNC 0 (by decide) (by decide)
    (by simp [isSet, exNC]) (by simp [isSet, exNC])

/-- Counterexample to C17: for the example tracer (RSD and magnification
disabled) at `l = 2^30` and `k = (2^30 + 1/2)/300`, where `chi0 = 300` lies in
the support, the `int` product `2*l` of `j_bessel_limber` is reduced to
`-2^31`, so `transfer_nc` takes the root of `pi/(1 - 2^31)` where the claim
has `pi/(2^31 + 1)`, and the two values differ. -/
theorem transfer_nc_density_overflow_cex :
    (0 : Int) ≤ 1073741824 ∧ ¬isSet exNC.has_rsd ∧ ¬isSet exNC.has_magnification ∧
    (((1073741824 : Int) : ℚ) + 1 / 2) / ((1073741824 + 1 / 2) / 300) ≤ exNC.chimax ∧
    wrap32 (2 * 1073741824) = -2147483648 ∧
    (transfer_nc exE exCosmo 1073741824 ((1073741824 + 1 / 2) / 300) exNC 0).1
      ≠ spec_transfer_density exE exCosmo 1073741824 ((1073741824 + 1 / 2) / 300) exNC := by
  have hchi : (((1073741824 : Int) : ℚ) + 1 / 2) / ((1073741824 + 1 / 2) / 300)
      ≤ exNC.chimax := by
    norm_num [exNC]
  refine ⟨by decide, by simp [isSet, exNC], by simp [isSet, exNC], hchi, by decide, ?_⟩
  rw [transfer_nc_limber_code exE exCosmo 1073741824 ((1073741824 + 1 / 2) / 300) exNC 0
    (by decide) hchi]
  have hw : wrap32 (2 * 1073741824) = -2147483648 := by decide
  unfold spec_transfer_density j_bessel_limber
  rw [hw]
  have hr : ¬isSet exNC.has_rsd := by simp [isSet, exNC]
  have hm : ¬isSet exNC.has_magnification := by simp [isSet, exNC]
  simp only [hr, hm, if_false, gt_iff_lt, not_lt.mpr hchi, exCosmo_spec_a, exCosmo_spec_P,
    exCosmo_spec_H]
  norm_num [spec_j, exE, exNC, spline_eval, deref, idx, CLIGHT_HMPC]

theorem transfer_nc_mag_diff (E : Externals) (cosmo : ccl_cosmology) (l : Int) (k : ℚ)
    (clt : CCL_ClTracer) (s : Int) (hl : LLIMBER < l) (hu : l < 1073741824)
    (hchi : ((l : ℚ) + 1 / 2) / k ≤ clt.chimax) (hmag : isSet clt.has_magnification) :
    (transfer_nc E cosmo l k clt s).1
        - (transfer_nc E cosmo l k { clt with has_magnification := some 0 } s).1
      = if spline_eval E (((l : ℚ) + 1 / 2) / k) (deref clt.spl_wM) ≤ 0 then 0
        else spec_mag_term E cosmo l k clt := by
  have hoff : ¬isSet ({ clt with has_magnification := some 0 } : CCL_ClTracer).has_magnification := by
    simp [isSet]
  have hl0 : -100 < l := hl
  rw [transfer_nc_limber_code E cosmo l k clt s hl hchi,
    transfer_nc_limber_code E cosmo l k { clt with has_magnification := some 0 } s hl hchi,
    wrap32_eq (l + 1) (by omega) (by omega),
    j_bessel_limber_eq E l k (by omega) hu]
  simp only [hmag, hoff, if_true, if_false, spec_fg, f_mag, spec_mag_term]
  push_cast
  split_ifs <;> ring

/-- C18 (as amended). For every number-counts tracer with magnification
enabled, every `l` with `0 <= l < 2^30` (the range in which the `int` product
`2*l` of `j_bessel_limber` does not overflow) and `k` with
`chi0 = (l+0.5)/k <= chimax`, the Limber
`transfer_nc` differs from the same tracer's value without magnification by
exactly `-2 * prefac_lensing * l*(l+1) * (W_mag(chi0)/(a0*chi0)) *
(sqrt(pi/(2l+1))/k) / k^2 * sqrt(P(k,a0))` when `W_mag(chi0) > 0`, and by `0`
when `W_mag(chi0) <= 0`. -/
theorem transfer_nc_magnification (E : Externals) (cosmo : ccl_cosmology) (l : Int) (k : ℚ)
    (clt : CCL_ClTracer) (s : Int) (hl : 0 ≤ l) (hu : l < 1073741824)
    (hchi : ((l : ℚ) + 1 / 2) / k ≤ clt.chimax) (hmag : isSet clt.has_magnification) :
    (transfer_nc E cosmo l k clt s).1
        - (transfer_nc E cosmo l k { clt with has_magnification := some 0 } s).1
      = if spline_eval E (((l : ℚ) + 1 / 2) / k) (deref clt.spl_wM) ≤ 0 then 0
        else spec_mag_term E cosmo l k clt :=
  transfer_nc_mag_diff E cosmo l k clt s (by unfold LLIMBER; omega) hu hchi hmag

theorem exMagNeg_kernel :
    spline_eval exE ((((1 : Int) : ℚ) + 1 / 2) / (1 / 200)) (deref exMagNeg.spl_wM) = -1 := by
  norm_num [spline_eval, deref, exMagNeg, exNC, exE, idx]

/-- Witness of the amended C18: the example tracer with a negative
magnification kernel at `l = 1`, `k = 1/200`. -/
theorem transfer_nc_magnification_witness :
    (transfer_nc exE exCosmo 1 (1 / 200) exMagNeg 0).1
        - (transfer_nc exE exCosmo 1 (1 / 200)
            { exMagNeg with has_magnification := some 0 } 0).1 = 0 := by
  have h := transfer_nc_magnification exE exCosmo 1 (1 / 200) exMagNeg 0 (by decide)
    (by decide) (by norm_num [exMagNeg, exNC]) (by simp [isSet, exMagNeg])
  rw [h, exMagNeg_kernel]
  norm_num

/-- Counterexample to C18: for the example tracer with magnification enabled
and the kernel value `W_mag(chi0) = -1` at `chi0 = 300 <= chimax` (`l = 1`,
`k = 1/200`), the value of `transfer_nc` equals the value without
magnification, while the expression of the claim is not zero. -/
theorem transfer_nc_magnification_cex :
    isSet exMagNeg.has_magnification ∧
    (((1 : Int) : ℚ) + 1 / 2) / (1 / 200) ≤ exMagNeg.chimax ∧
    spline_eval exE ((((1 : Int) : ℚ) + 1 / 2) / (1 / 200)) (deref exMagNeg.spl_wM) = -1 ∧
    (transfer_nc exE exCosmo 1 (1 / 200) exMagNeg 0).1
        - (transfer_nc exE exCosmo 1 (1 / 200)
            { exMagNeg with has_magnification := some 0 } 0).1 = 0 ∧
    spec_mag_term exE exCosmo 1 (1 / 200) exMagNeg ≠ 0 := by
  refine ⟨by simp [isSet, exMagNeg], by norm_num [exMagNeg, exNC], exMagNeg_kernel, ?_, ?_⟩
  · rw [transfer_nc_mag_diff exE exCosmo 1 (1 / 200) exMagNeg 0 (by decide) (by decide)
      (by norm_num [exMagNeg, exNC]) (by simp [isSet, exMagNeg]), exMagNeg_kernel]
    norm_num
  · unfold spec_mag_term
    simp only [exMagNeg_kernel, exCosmo_spec_a, exCosmo_spec_P]
    norm_num [spec_j, exE, exMagNeg, exNC]

/-- The RSD correction `transfer_nc` adds in the Limber branch is the
expression of the specification with `fg` taken at the distances `chi0`, `chi1`
in place of the scale factors. -/
theorem transfer_nc_rsd_diff (E : Externals) (cosmo : ccl_cosmology) (l : Int) (k : ℚ)
    (clt : CCL_ClTracer) (s : Int) (hl : LLIMBER < l) (hu : l < 1073741823)
    (hchi : ((l : ℚ) + 1 / 2) / k ≤ clt.chimax) (hrsd : isSet clt.has_rsd) :
    (transfer_nc E cosmo l k clt s).1
        - (transfer_nc E cosmo l k { clt with has_rsd := some 0 } s).1
      = rsd_term_at_distances E cosmo l k clt
        * E.sqrt (spec_P cosmo k (spec_a cosmo (((l : ℚ) + 1 / 2) / k))) := by
  have hoff : ¬isSet ({ clt with has_rsd := some 0 } : CCL_ClTracer).has_rsd := by
    simp [isSet]
  rw [transfer_nc_limber_value E cosmo l k clt s hl hu hchi,
    transfer_nc_limber_value E cosmo l k { clt with has_rsd := some 0 } s hl hu hchi]
  simp only [hrsd, hoff, if_true, if_false, f_mag]
  split_ifs <;> ring

theorem exRSD_nz (z : ℚ) :
    spline_eval exE z (deref exRSD.spl_nz)
      = if z ≤ 1 / 20 then 0 else if z ≥ 1 / 5 then 0 else 10 := by
  simp [spline_eval, deref, exRSD, exNC, exE, idx]

/-- C19 at a failing input: for the example tracer with RSD enabled, `l = 1`
and `k = 1/200` (so `chi0 = 300 <= chimax = 600`, `chi1 = 500`, `a0 = 10/11`,
`a1 = 6/7`), the correction `transfer_nc` adds is the expression with `fg`
taken at `300` and `500`, which is `0`, while the correction of the
specification, with `fg` taken at `a0` and `a1`, is not `0`. -/
theorem transfer_nc_rsd_wrong_argument :
    isSet exRSD.has_rsd ∧
    (((1 : Int) : ℚ) + 1 / 2) / (1 / 200) ≤ exRSD.chimax ∧
    (transfer_nc exE exCosmo 1 (1 / 200) exRSD 0).1
        - (transfer_nc exE exCosmo 1 (1 / 200) { exRSD with has_rsd := some 0 } 0).1
      = rsd_term_at_distances exE exCosmo 1 (1 / 200) exRSD
        * exE.sqrt (spec_P exCosmo (1 / 200)
            (spec_a exCosmo ((((1 : Int) : ℚ) + 1 / 2) / (1 / 200)))) ∧
    rsd_term_at_distances exE exCosmo 1 (1 / 200) exRSD = 0 ∧
    spec_rsd_term exE exCosmo 1 (1 / 200) exRSD ≠ 0 := by
  refine ⟨by simp [isSet, exRSD], by norm_num [exRSD, exNC], ?_, ?_, ?_⟩
  · exact transfer_nc_rsd_diff exE exCosmo 1 (1 / 200) exRSD 0 (by decide) (by decide)
      (by norm_num [exRSD, exNC]) (by simp [isSet, exRSD])
  · unfold rsd_term_at_distances
    simp only [spec_fg, exRSD_nz]
    norm_num
  · unfold spec_rsd_term
    simp only [spec_fg, exRSD_nz, exCosmo_spec_a, exCosmo_spec_P, exCosmo_spec_H]
    norm_num [spec_j, exE, exCosmo, CLIGHT_HMPC]

theorem quad_run_pure_integrand (q : Quad) (f : ℚ → StatusM ℚ) (g : ℚ → ℚ)
    (hf : ∀ x s, f x s = (g x, s)) (s : Int) : q.run f s = (q.integrate g, s) := by
  induction q generalizing s with
  | done gslstatus result => rfl
  | eval x next ih =>
    simp only [Quad.run, Quad.integrate, hf]
    exact ih _ s

theorem transfer_wrap_unknown (E : Externals) (cosmo : ccl_cosmology) (l : Int) (k : ℚ)
    (clt : CCL_ClTracer) (s : Int) (h1 : clt.tracer_type ≠ E.CL_TRACER_NC)
    (h2 : clt.tracer_type ≠ E.CL_TRACER_WL) :
    transfer_wrap E cosmo l k clt s = (-1, s) := by
  unfold transfer_wrap
  rw [if_neg h1, if_neg h2]
  rfl

theorem ccl_angular_cl_unknown (E : Externals) (cosmo : ccl_cosmology) (l : Int)
    (clt1 clt2 : CCL_ClTracer)
    (h11 : clt1.tracer_type ≠ E.CL_TRACER_NC) (h12 : clt1.tracer_type ≠ E.CL_TRACER_WL)
    (h21 : clt2.tracer_type ≠ E.CL_TRACER_NC) (h22 : clt2.tracer_type ≠ E.CL_TRACER_WL)
    (st : Int)
    (hq : ((E.gsl_integration_qag (get_k_interval E clt1 clt2 l).1
          (get_k_interval E clt1 clt2 l).2).integrate
        (fun lk => E.pow 10 lk * E.pow 10 lk * E.pow 10 lk * (-1) * (-1))).1 = GSL_SUCCESS) :
    ccl_angular_cl E cosmo l clt1 clt2 st
      = (((E.gsl_integration_qag (get_k_interval E clt1 clt2 l).1
            (get_k_interval E clt1 clt2 l).2).integrate
          (fun lk => E.pow 10 lk * E.pow 10 lk * E.pow 10 lk * (-1) * (-1))).2
          * E.M_LN10 * 2 / E.M_PI,
         cosmo.ccl_check_status st) := by
  have hf : ∀ x s, cl_integrand E cosmo l clt1 clt2 x s
      = (E.pow 10 x * E.pow 10 x * E.pow 10 x * (-1) * (-1), s) := by
    intro x s
    simp only [cl_integrand, bind_apply, pure_apply,
      transfer_wrap_unknown E cosmo l _ clt1 _ h11 h12,
      transfer_wrap_unknown E cosmo l _ clt2 _ h21 h22]
  unfold ccl_angular_cl
  simp only [quad_run_pure_integrand _ _ _ hf, hq, ne_eq, not_true_eq_false, or_self, if_false]

/-- Every tracer returned by `ccl_cl_tracer_new` carries the type it was asked
for, which is number counts or weak lensing. -/
theorem ccl_cl_tracer_new_type (E : Externals) (cosmo : ccl_cosmology) (tracer_type : Int)
    (has_rsd has_magnification has_intrinsic_alignment : Int)
    (z_n n z_b b z_s s z_ba ba z_rf rf : List ℚ) (st : Int) (clt : CCL_ClTracer)
    (h : (ccl_cl_tracer_new E cosmo tracer_type has_rsd has_magnification
      has_intrinsic_alignment z_n n z_b b z_s s z_ba ba z_rf rf st).1 = some clt) :
    clt.tracer_type = E.CL_TRACER_NC ∨ clt.tracer_type = E.CL_TRACER_WL := by
  have h2 : cl_tracer_new E cosmo tracer_type has_rsd has_magnification
      has_intrinsic_alignment z_n n z_b b z_s s z_ba ba z_rf rf st
      = (some clt, (cl_tracer_new E cosmo tracer_type has_rsd has_magnification
          has_intrinsic_alignment z_n n z_b b z_s s z_ba ba z_rf rf st).2) :=
    Prod.ext h rfl
  obtain ⟨_, _, _, _, _, _, hty, _, hcase⟩ := cl_tracer_new_some E cosmo tracer_type has_rsd
    has_magnification has_intrinsic_alignment z_n n z_b b z_s s z_ba ba z_rf rf st _ clt h2
  rcases hcase with hnc | hwl
  · exact Or.inl (hty.trans hnc.1)
  · exact Or.inr (hty.trans hwl.2.1)

/-- C21 (as amended). Every tracer returned by the constructor
`ccl_cl_tracer_new` has the type number counts or weak lensing, and for it
`transfer_wrap` is `transfer_nc` or `transfer_wl`; the last branch of
`transfer_wrap` is reached only by a tracer record not built by the
constructor.  For such a record, whose type is neither number counts nor weak
lensing, `transfer_wrap` returns `-1` and leaves the status as it was; and for
two such records `ccl_angular_cl` does not fail when the quadrature itself
succeeds: it returns the integral of `k^3 * (-1) * (-1)` times
`M_LN10*2/M_PI`, with the status left by `ccl_check_status`. -/
theorem transfer_wrap_unknown_tag (E : Externals) (cosmo : ccl_cosmology) (l : Int)
    (clt1 clt2 : CCL_ClTracer) :
    (∀ (tracer_type has_rsd has_magnification has_intrinsic_alignment : Int)
        (z_n n z_b b z_s s z_ba ba z_rf rf : List ℚ) (st : Int) (clt : CCL_ClTracer),
      (ccl_cl_tracer_new E cosmo tracer_type has_rsd has_magnification
        has_intrinsic_alignment z_n n z_b b z_s s z_ba ba z_rf rf st).1 = some clt →
      (clt.tracer_type = E.CL_TRACER_NC ∨ clt.tracer_type = E.CL_TRACER_WL) ∧
      ∀ k, transfer_wrap E cosmo l k clt
        = if clt.tracer_type = E.CL_TRACER_NC then transfer_nc E cosmo l k clt
          else transfer_wl E cosmo l k clt) ∧
    (clt1.tracer_type ≠ E.CL_TRACER_NC → clt1.tracer_type ≠ E.CL_TRACER_WL →
      ∀ k s, transfer_wrap E cosmo l k clt1 s = (-1, s)) ∧
    (clt1.tracer_type ≠ E.CL_TRACER_NC → clt1.tracer_type ≠ E.CL_TRACER_WL →
      clt2.tracer_type ≠ E.CL_TRACER_NC → clt2.tracer_type ≠ E.CL_TRACER_WL →
      ∀ st,
      ((E.gsl_integration_qag (get_k_interval E clt1 clt2 l).1
          (get_k_interval E clt1 clt2 l).2).integrate
        (fun lk => E.pow 10 lk * E.pow 10 lk * E.pow 10 lk * (-1) * (-1))).1 = GSL_SUCCESS →
      ccl_angular_cl E cosmo l clt1 clt2 st
        = (((E.gsl_integration_qag (get_k_interval E clt1 clt2 l).1
              (get_k_interval E clt1 clt2 l).2).integrate
            (fun lk => E.pow 10 lk * E.pow 10 lk * E.pow 10 lk * (-1) * (-1))).2
            * E.M_LN10 * 2 / E.M_PI,
           cosmo.ccl_check_status st)) := by
  refine ⟨?_, fun h11 h12 k s => transfer_wrap_unknown E cosmo l k clt1 s h11 h12,
    fun h11 h12 h21 h22 st hq => ccl_angular_cl_unknown E cosmo l clt1 clt2 h11 h12 h21 h22 st hq⟩
  intro tracer_type has_rsd has_magnification has_intrinsic_alignment z_n n z_b b z_s s
    z_ba ba z_rf rf st clt h
  have hty := ccl_cl_tracer_new_type E cosmo tracer_type has_rsd has_magnification
    has_intrinsic_alignment z_n n z_b b z_s s z_ba ba z_rf rf st clt h
  refine ⟨hty, fun k => ?_⟩
  unfold transfer_wrap
  by_cases hnc : clt.tracer_type = E.CL_TRACER_NC
  · rw [if_pos hnc, if_pos hnc]
  · rw [if_neg hnc, if_neg hnc, if_pos (hty.resolve_left hnc)]

/-- Witness of the amended C21: the example tracer with the type `3` at
`l = 1`. -/
theorem transfer_wrap_unknown_tag_witness :
    ∀ k s, transfer_wrap exE exCosmo 1 k exUnknown s = (-1, s) :=
  (transfer_wrap_unknown_tag exE exCosmo 1 exUnknown exUnknown).2.1 (by decide) (by decide)

/-- Counterexample to C21: the example tracer with the type `3`, which is
neither number counts (`1`) nor weak lensing (`2`).  At `l = 1`, `k = 5` and
the status `0`, `transfer_wrap` returns `-1` and the status is still `0`;
`ccl_angular_cl` on this tracer paired with itself ends with the status `0`,
not with the integration error. -/
theorem transfer_wrap_unknown_tag_cex :
    exUnknown.tracer_type ≠ exE.CL_TRACER_NC ∧
    exUnknown.tracer_type ≠ exE.CL_TRACER_WL ∧
    transfer_wrap exE exCosmo 1 5 exUnknown 0 = (-1, 0) ∧
    (ccl_angular_cl exE exCosmo 1 exUnknown exUnknown 0).2 = 0 ∧
    exE.CCL_ERROR_INTEG ≠ 0 := by
  refine ⟨by decide, by decide,
    transfer_wrap_unknown exE exCosmo 1 5 exUnknown 0 (by decide) (by decide), ?_, by decide⟩
  rw [ccl_angular_cl_unknown exE exCosmo 1 exUnknown exUnknown (by decide) (by decide)
    (by decide) (by decide) 0 (quad_integrate_succeeds _ (exE_quad_succeeds _ _) _)]
  rfl


/-! ## Wavenumber bounds -/

theorem fmax_eq_max (x y : ℚ) : fmax x y = max x y := by
  unfold fmax
  split_ifs with h
  · exact (max_eq_right h.le).symm
  · exact (max_eq_left (not_lt.mp h)).symm

theorem fmin_eq_min (x y : ℚ) : fmin x y = min x y := by
  unfold fmin
  split_ifs with h
  · exact (min_eq_right h.le).symm
  · exact (min_eq_left (not_lt.mp h)).symm

theorem get_k_interval_eq (E : Externals) (clt1 clt2 : CCL_ClTracer) (l : Int) :
    get_k_interval E clt1 clt2 l
      = (fmax (-4) (E.log10 (1 / 2 * ((l : ℚ) + 1 / 2)
            / (k_interval_distances E clt1 clt2 l).2)),
         fmin 2 (E.log10 (2 * ((l : ℚ) + 1 / 2)
            / (k_interval_distances E clt1 clt2 l).1))) := rfl

theorem half_integer_ne_zero (l : Int) : (l : ℚ) + 1 / 2 ≠ 0 := by
  intro h
  have h2 : ((2 * l + 1 : Int) : ℚ) = 0 := by
    push_cast
    linarith
  have h3 : (2 * l + 1 : Int) = 0 := by exact_mod_cast h2
  omega

theorem half_integer_pos (l : Int) (hl : 0 ≤ l) : (0 : ℚ) < (l : ℚ) + 1 / 2 := by
  have : (0 : ℚ) ≤ (l : ℚ) := by exact_mod_cast hl
  linarith

/-- C22. For a pair with at least one number-counts tracer and every `l`,
`get_k_interval` returns the bounds of the specification: `chimin` is the
larger `chimin` and `chimax` the smaller `chimax` when both tracers are number
counts, and those of the number-counts tracer when only one is; a non-positive
`chimin` is replaced by `0.5*(l+0.5)/K_MAX`; `lkmax = min(2,
log10(2*(l+0.5)/chimin))` and `lkmin = max(-4, log10(0.5*(l+0.5)/chimax))`. -/
theorem get_k_interval_number_counts (E : Externals) (clt1 clt2 : CCL_ClTracer) (l : Int)
    (hnc : clt1.tracer_type = E.CL_TRACER_NC ∨ clt2.tracer_type = E.CL_TRACER_NC) :
    get_k_interval E clt1 clt2 l = spec_k_interval_nc E clt1 clt2 l := by
  unfold get_k_interval spec_k_interval_nc
  simp only [fmax_eq_max, fmin_eq_min]
  by_cases h1 : clt1.tracer_type = E.CL_TRACER_NC
  · by_cases h2 : clt2.tracer_type = E.CL_TRACER_NC
    · simp only [h1, h2, and_self, if_true]
    · simp only [h1, h2, and_false, if_true, if_false]
  · have h2 : clt2.tracer_type = E.CL_TRACER_NC := hnc.resolve_left h1
    simp only [h1, h2, false_and, if_true, if_false]

/-- Witness of C22: the example number-counts tracer paired with itself at
`l = 1`, where `2*(l+0.5)/chimin = 1/100`. -/
theorem get_k_interval_number_counts_witness :
    (get_k_interval exLogE exNC exNC 1).2 = -2 := by
  rw [get_k_interval_number_counts exLogE exNC exNC 1 (Or.inl (by decide))]
  norm_num [spec_k_interval_nc, exLogE, exNC, exLog10, exE]


theorem k_interval_distances_wl (E : Externals) (clt1 clt2 : CCL_ClTracer) (l : Int)
    (h1 : clt1.tracer_type ≠ E.CL_TRACER_NC) (h2 : clt2.tracer_type ≠ E.CL_TRACER_NC) :
    k_interval_distances E clt1 clt2 l
      = (1 / 2 * ((l : ℚ) + 1 / 2) / E.K_MAX, 2 * ((l : ℚ) + 1 / 2) / E.K_MIN_DEFAULT) := by
  unfold k_interval_distances
  simp only [if_neg h1, if_neg h2, ite_self]

theorem k_interval_wl_upper (l : Int) (K : ℚ) :
    2 * ((l : ℚ) + 1 / 2) / (1 / 2 * ((l : ℚ) + 1 / 2) / K) = 4 * K := by
  have hl := half_integer_ne_zero l
  generalize (l : ℚ) + 1 / 2 = t at hl ⊢
  by_cases hK : K = 0
  · simp [hK]
  · field_simp
    ring

theorem k_interval_wl_lower (l : Int) (K : ℚ) :
    1 / 2 * ((l : ℚ) + 1 / 2) / (2 * ((l : ℚ) + 1 / 2) / K) = K / 4 := by
  have hl := half_integer_ne_zero l
  generalize (l : ℚ) + 1 / 2 = t at hl ⊢
  by_cases hK : K = 0
  · simp [hK]
  · field_simp
    ring

theorem get_k_interval_wl (E : Externals) (clt1 clt2 : CCL_ClTracer) (l : Int)
    (h1 : clt1.tracer_type ≠ E.CL_TRACER_NC) (h2 : clt2.tracer_type ≠ E.CL_TRACER_NC) :
    get_k_interval E clt1 clt2 l
      = (fmax (-4) (E.log10 (E.K_MIN_DEFAULT / 4)), fmin 2 (E.log10 (4 * E.K_MAX))) := by
  rw [get_k_interval_eq, k_interval_distances_wl E clt1 clt2 l h1 h2]
  simp only [k_interval_wl_upper, k_interval_wl_lower]

/-- C23 (as amended). For every pair of weak-lensing tracers and every `l`,
`get_k_interval` returns `lkmin = max(-4, log10(K_MIN_DEFAULT/4))` and
`lkmax = min(2, log10(4*K_MAX))`, the same for every `l` and every such pair.
When `log10` preserves the order of positive numbers and is exact at `100`
and `1e-4`, and `K_MAX >= 100` and `0 < K_MIN_DEFAULT <= 1e-4`, both clamps
are active and these are the values `max(-4, log10(K_MIN_DEFAULT)) = -4` and
`min(2, log10(K_MAX)) = 2`. -/
theorem get_k_interval_lensing (E : Externals) (clt1 clt2 : CCL_ClTracer) (l : Int)
    (hNW : E.CL_TRACER_NC ≠ E.CL_TRACER_WL)
    (h1 : clt1.tracer_type = E.CL_TRACER_WL) (h2 : clt2.tracer_type = E.CL_TRACER_WL) :
    get_k_interval E clt1 clt2 l
      = (fmax (-4) (E.log10 (E.K_MIN_DEFAULT / 4)), fmin 2 (E.log10 (4 * E.K_MAX))) ∧
    (Log10Contract E → 100 ≤ E.K_MAX → 0 < E.K_MIN_DEFAULT → E.K_MIN_DEFAULT ≤ 1 / 10000 →
      get_k_interval E clt1 clt2 l = (-4, 2) ∧
      fmax (-4) (E.log10 E.K_MIN_DEFAULT) = -4 ∧ fmin 2 (E.log10 E.K_MAX) = 2) := by
  have e := get_k_interval_wl E clt1 clt2 l (fun h => hNW (h.symm.trans h1))
    (fun h => hNW (h.symm.trans h2))
  refine ⟨e, fun hlog hK hm0 hm => ?_⟩
  obtain ⟨hmono, h100, h4⟩ := hlog
  have a1 : (2 : ℚ) ≤ E.log10 E.K_MAX := by
    rw [← h100]
    exact (hmono 100 E.K_MAX (by norm_num) (by linarith)).mpr hK
  have a2 : (2 : ℚ) ≤ E.log10 (4 * E.K_MAX) := by
    rw [← h100]
    exact (hmono 100 (4 * E.K_MAX) (by norm_num) (by linarith)).mpr (by linarith)
  have a3 : E.log10 E.K_MIN_DEFAULT ≤ -4 := by
    rw [← h4]
    exact (hmono E.K_MIN_DEFAULT (1 / 10000) hm0 (by norm_num)).mpr hm
  have a4 : E.log10 (E.K_MIN_DEFAULT / 4) ≤ -4 := by
    rw [← h4]
    exact (hmono (E.K_MIN_DEFAULT / 4) (1 / 10000) (by linarith) (by norm_num)).mpr
      (by linarith)
  rw [e]
  simp only [fmax_eq_max, fmin_eq_min, max_eq_left a3, max_eq_left a4, min_eq_left a1,
    min_eq_left a2, and_self]

theorem exLog10_strictMono : StrictMono exLog10 := fun a b h => by
  unfold exLog10
  simp only [lt_min_iff]
  exact ⟨
    lt_of_le_of_lt (min_le_left _ _) (by linarith),
    lt_of_le_of_lt (le_trans (min_le_right _ _) (min_le_left _ _)) (by linarith),
    lt_of_le_of_lt (le_trans (min_le_right _ _) (le_trans (min_le_right _ _) (min_le_left _ _))) (by linarith),
    lt_of_le_of_lt (le_trans (min_le_right _ _) (le_trans (min_le_right _ _) (le_trans (min_le_right _ _) (min_le_left _ _)))) (by linarith),
    lt_of_le_of_lt (le_trans (min_le_right _ _) (le_trans (min_le_right _ _) (le_trans (min_le_right _ _) (le_trans (min_le_right _ _) (min_le_left _ _))))) (by linarith),
    lt_of_le_of_lt (le_trans (min_le_right _ _) (le_trans (min_le_right _ _) (le_trans (min_le_right _ _) (le_trans (min_le_right _ _) (le_trans (min_le_right _ _) (min_le_left _ _)))))) (by linarith),
    lt_of_le_of_lt (le_trans (min_le_right _ _) (le_trans (min_le_right _ _) (le_trans (min_le_right _ _) (le_trans (min_le_right _ _) (le_trans (min_le_right _ _) (le_trans (min_le_right _ _) (min_le_left _ _))))))) (by linarith),
    lt_of_le_of_lt (le_trans (min_le_right _ _) (le_trans (min_le_right _ _) (le_trans (min_le_right _ _) (le_trans (min_le_right _ _) (le_trans (min_le_right _ _) (le_trans (min_le_right _ _) (min_le_right _ _))))))) (by linarith)⟩

theorem exLog10_order (x y : ℚ) : exLog10 x ≤ exLog10 y ↔ x ≤ y :=
  exLog10_strictMono.le_iff_le

theorem exLogE_contract : Log10Contract exLogE := by
  refine ⟨fun x y _ _ => exLog10_order x y, ?_, ?_⟩
  · norm_num [exLogE, exLog10]
  · norm_num [exLogE, exLog10]

/-- Witness of the amended C23: the example lensing tracer paired with itself
at `l = 1`, with `K_MAX = 1000` and `K_MIN_DEFAULT = 5e-5`. -/
theorem get_k_interval_lensing_witness :
    get_k_interval exLogE exIA exIA 1 = (-4, 2) :=
  ((get_k_interval_lensing exLogE exIA exIA 1 (by decide) (by decide) (by decide)).2
    exLogE_contract (by norm_num [exLogE, exE]) (by norm_num [exLogE, exE])
    (by norm_num [exLogE, exE])).1

/-- Counterexample to C23: with `K_MAX = 25` and `K_MIN_DEFAULT = 4e-4` the
bounds for two lensing tracers are `log10(1e-4) = -4` and `log10(100) = 2`,
while `max(-4, log10(K_MIN_DEFAULT))` and `min(2, log10(K_MAX))` are the
logarithms of `4e-4` and of `25`, which lie strictly between `-4` and `2`. -/
theorem get_k_interval_lensing_cex :
    exIA.tracer_type = exLogSmallE.CL_TRACER_WL ∧
    get_k_interval exLogSmallE exIA exIA 1 = (-4, 2) ∧
    fmax (-4) (exLogSmallE.log10 exLogSmallE.K_MIN_DEFAULT) = -11 / 3 ∧
    fmin 2 (exLogSmallE.log10 exLogSmallE.K_MAX) = 7 / 6 := by
  refine ⟨by decide, ?_, ?_, ?_⟩
  · rw [get_k_interval_wl exLogSmallE exIA exIA 1 (by decide) (by decide)]
    norm_num [exLogSmallE, exLog10, fmax, fmin]
  · norm_num [exLogSmallE, exLog10, fmax]
  · norm_num [exLogSmallE, exLog10, fmin]


/-- C24 (as amended). For every `l >= 0` and every tracer pair the bounds
returned by `get_k_interval` satisfy `-4 <= lkmin` and `lkmax <= 2`.  The
other two inequalities hold exactly when the logarithms do not cross the
opposite rail: for the distances `chimin`, `chimax` that enter the last step,
when `chimax > 0` the argument `0.5*(l+0.5)/chimax` of the logarithm is
positive and `lkmin <= 2` if and only if `log10(0.5*(l+0.5)/chimax) <= 2`, and
when `chimin > 0` the argument `2*(l+0.5)/chimin` is positive and
`-4 <= lkmax` if and only if `-4 <= log10(2*(l+0.5)/chimin)`. -/
theorem get_k_interval_clamped (E : Externals) (clt1 clt2 : CCL_ClTracer) (l : Int)
    (hl : 0 ≤ l) :
    -4 ≤ (get_k_interval E clt1 clt2 l).1 ∧
    (get_k_interval E clt1 clt2 l).2 ≤ 2 ∧
    (0 < (k_interval_distances E clt1 clt2 l).2 →
      0 < 1 / 2 * ((l : ℚ) + 1 / 2) / (k_interval_distances E clt1 clt2 l).2 ∧
      ((get_k_interval E clt1 clt2 l).1 ≤ 2 ↔
        E.log10 (1 / 2 * ((l : ℚ) + 1 / 2) / (k_interval_distances E clt1 clt2 l).2) ≤ 2)) ∧
    (0 < (k_interval_distances E clt1 clt2 l).1 →
      0 < 2 * ((l : ℚ) + 1 / 2) / (k_interval_distances E clt1 clt2 l).1 ∧
      (-4 ≤ (get_k_interval E clt1 clt2 l).2 ↔
        -4 ≤ E.log10 (2 * ((l : ℚ) + 1 / 2) / (k_interval_distances E clt1 clt2 l).1))) := by
  have ht := half_integer_pos l hl
  rw [get_k_interval_eq]
  simp only [fmax_eq_max, fmin_eq_min]
  refine ⟨le_max_left _ _, min_le_left _ _, fun hd => ⟨by positivity, ?_⟩,
    fun hd => ⟨by positivity, ?_⟩⟩
  · rw [max_le_iff]
    constructor
    · exact fun h => h.2
    · exact fun h => ⟨by norm_num, h⟩
  · rw [le_min_iff]
    constructor
    · exact fun h => h.2
    · exact fun h => ⟨by norm_num, h⟩

/-- Witness of the amended C24: at `l = 1` the example number-counts tracer,
with distances from `300` to `600`, paired with itself. -/
theorem get_k_interval_clamped_witness :
    -4 ≤ (get_k_interval exLogE exNC exNC 1).1 ∧
    (get_k_interval exLogE exNC exNC 1).2 ≤ 2 ∧
    (0 : ℚ) < 1 / 2 * (((1 : Int) : ℚ) + 1 / 2) / (k_interval_distances exLogE exNC exNC 1).2 :=
  ⟨(get_k_interval_clamped exLogE exNC exNC 1 (by decide)).1,
    (get_k_interval_clamped exLogE exNC exNC 1 (by decide)).2.1,
    ((get_k_interval_clamped exLogE exNC exNC 1 (by decide)).2.2.1
      (by norm_num [k_interval_distances, exLogE, exE, exNC, fmax, fmin])).1⟩

/-- Counterexample to C24: at `l = 1`, for the number-counts tracer with
distances from `1/4000` to `3/4000` the lower bound is `log10(1000) = 3`,
above `2`; for the number-counts tracer with distances from `300000` to
`600000` the upper bound is `log10(1e-5) = -5`, below `-4`. -/
theorem get_k_interval_clamped_cex :
    (get_k_interval exLogE exNear exNear 1).1 = 3 ∧
    (get_k_interval exLogE exFar exFar 1).2 = -5 := by
  constructor
  · norm_num [get_k_interval, exLogE, exE, exNear, exNC, exLog10, fmax, fmin]
  · norm_num [get_k_interval, exLogE, exE, exFar, exNC, exLog10, fmax, fmin]


theorem ccl_angular_cl_bounds (E : Externals) (cosmo : ccl_cosmology) (l : Int)
    (clt1 clt2 : CCL_ClTracer) (Q : ℚ → ℚ → Quad)
    (hQ : Q (get_k_interval E clt1 clt2 l).1 (get_k_interval E clt1 clt2 l).2
      = E.gsl_integration_qag (get_k_interval E clt1 clt2 l).1
          (get_k_interval E clt1 clt2 l).2) :
    ccl_angular_cl { E with gsl_integration_qag := Q } cosmo l clt1 clt2
      = ccl_angular_cl E cosmo l clt1 clt2 := by
  have e1 : get_k_interval { E with gsl_integration_qag := Q } clt1 clt2 l
      = get_k_interval E clt1 clt2 l := rfl
  have e2 : cl_integrand { E with gsl_integration_qag := Q } cosmo l clt1 clt2
      = cl_integrand E cosmo l clt1 clt2 := rfl
  unfold ccl_angular_cl
  rw [e1, e2]
  dsimp only
  rw [hQ]

theorem k_interval_ordered_iff (E : Externals) (hlog : Log10Contract E) (t c d : ℚ)
    (ht : 0 < t) (hc : 0 < c) (hd : 0 < d) :
    fmax (-4) (E.log10 (1 / 2 * t / d)) ≤ fmin 2 (E.log10 (2 * t / c)) ↔
      c ≤ 4 * d ∧ 1 / 2 * t / d ≤ 100 ∧ 1 / 10000 ≤ 2 * t / c := by
  obtain ⟨hmono, h100, h4⟩ := hlog
  have ha : 0 < 1 / 2 * t / d := by positivity
  have hb : 0 < 2 * t / c := by positivity
  have e1 : E.log10 (1 / 2 * t / d) ≤ E.log10 (2 * t / c) ↔ c ≤ 4 * d := by
    rw [hmono _ _ ha hb, div_le_div_iff₀ hd hc]
    constructor
    · intro h
      nlinarith
    · intro h
      nlinarith
  have e2 : E.log10 (1 / 2 * t / d) ≤ 2 ↔ 1 / 2 * t / d ≤ 100 := by
    have h := hmono (1 / 2 * t / d) 100 ha (by norm_num)
    rw [h100] at h
    exact h
  have e3 : -4 ≤ E.log10 (2 * t / c) ↔ 1 / 10000 ≤ 2 * t / c := by
    have h := hmono (1 / 10000) (2 * t / c) (by norm_num) hb
    rw [h4] at h
    exact h
  rw [fmax_eq_max, fmin_eq_min, max_le_iff, le_min_iff, le_min_iff, e1, e2, e3]
  constructor
  · rintro ⟨⟨-, h3⟩, h2, h1⟩
    exact ⟨h1, h2, h3⟩
  · rintro ⟨h1, h2, h3⟩
    exact ⟨⟨by norm_num, h3⟩, h2, h1⟩

/-- C25. When `log10` preserves and reflects the order of positive numbers
and is exact at `100` and `1e-4`: for every `l >= 0` and positive distances
`chimin`, `chimax` entering the last step of `get_k_interval`, the returned
bounds satisfy `lkmin <= lkmax` if and only if `chimin <= 4*chimax` and
`0.5*(l+0.5)/chimax <= 100` and `2*(l+0.5)/chimin >= 1e-4`.  In particular two
number-counts tracers whose larger `chimin` exceeds four times their smaller
`chimax` give `lkmax < lkmin`; and `ccl_angular_cl` runs the quadrature with
the lower bound `lkmin` and the upper bound `lkmax`: it uses
`gsl_integration_qag` only at this pair of bounds. -/
theorem get_k_interval_ordered_iff (E : Externals) (clt1 clt2 : CCL_ClTracer) (l : Int)
    (hlog : Log10Contract E) (hl : 0 ≤ l)
    (hmin : 0 < (k_interval_distances E clt1 clt2 l).1)
    (hmax : 0 < (k_interval_distances E clt1 clt2 l).2) :
    ((get_k_interval E clt1 clt2 l).1 ≤ (get_k_interval E clt1 clt2 l).2 ↔
      (k_interval_distances E clt1 clt2 l).1 ≤ 4 * (k_interval_distances E clt1 clt2 l).2 ∧
      1 / 2 * ((l : ℚ) + 1 / 2) / (k_interval_distances E clt1 clt2 l).2 ≤ 100 ∧
      1 / 10000 ≤ 2 * ((l : ℚ) + 1 / 2) / (k_interval_distances E clt1 clt2 l).1) ∧
    (clt1.tracer_type = E.CL_TRACER_NC → clt2.tracer_type = E.CL_TRACER_NC →
      4 * fmin clt1.chimax clt2.chimax < fmax clt1.chimin clt2.chimin →
      (get_k_interval E clt1 clt2 l).2 < (get_k_interval E clt1 clt2 l).1) ∧
    (∀ (cosmo : ccl_cosmology) (Q : ℚ → ℚ → Quad),
      Q (get_k_interval E clt1 clt2 l).1 (get_k_interval E clt1 clt2 l).2
        = E.gsl_integration_qag (get_k_interval E clt1 clt2 l).1
            (get_k_interval E clt1 clt2 l).2 →
      ccl_angular_cl { E with gsl_integration_qag := Q } cosmo l clt1 clt2
        = ccl_angular_cl E cosmo l clt1 clt2) := by
  have hiff : (get_k_interval E clt1 clt2 l).1 ≤ (get_k_interval E clt1 clt2 l).2 ↔
      (k_interval_distances E clt1 clt2 l).1 ≤ 4 * (k_interval_distances E clt1 clt2 l).2 ∧
      1 / 2 * ((l : ℚ) + 1 / 2) / (k_interval_distances E clt1 clt2 l).2 ≤ 100 ∧
      1 / 10000 ≤ 2 * ((l : ℚ) + 1 / 2) / (k_interval_distances E clt1 clt2 l).1 := by
    rw [get_k_interval_eq]
    exact k_interval_ordered_iff E hlog ((l : ℚ) + 1 / 2)
      (k_interval_distances E clt1 clt2 l).1 (k_interval_distances E clt1 clt2 l).2
      (half_integer_pos l hl) hmin hmax
  refine ⟨hiff, fun h1 h2 hdis => ?_, fun cosmo Q hQ => ccl_angular_cl_bounds E cosmo l
    clt1 clt2 Q hQ⟩
  have hd2 : (k_interval_distances E clt1 clt2 l).2 = fmin clt1.chimax clt2.chimax := by
    simp only [k_interval_distances, if_pos h1, if_pos h2]
  rw [hd2] at hmax
  have hpos : ¬fmax clt1.chimin clt2.chimin ≤ 0 := by
    intro h
    linarith
  have hd1 : (k_interval_distances E clt1 clt2 l).1 = fmax clt1.chimin clt2.chimin := by
    simp only [k_interval_distances, if_pos h1, if_pos h2, if_neg hpos]
  rw [← not_le, hiff, hd1, hd2]
  intro h
  linarith [h.1]

/-- Witness of C25: at `l = 1` the example number-counts tracer, with
distances from `300` to `600`, paired with itself gives ordered bounds, and
paired with the tracer with distances from `300000` to `600000` gives
`lkmax < lkmin`. -/
theorem get_k_interval_ordered_iff_witness :
    (get_k_interval exLogE exNC exNC 1).1 ≤ (get_k_interval exLogE exNC exNC 1).2 ∧
    (get_k_interval exLogE exNC exFar 1).2 < (get_k_interval exLogE exNC exFar 1).1 := by
  constructor
  · refine (get_k_interval_ordered_iff exLogE exNC exNC 1 exLogE_contract (by decide)
      (by norm_num [k_interval_distances, exLogE, exE, exNC, fmax, fmin])
      (by norm_num [k_interval_distances, exLogE, exE, exNC, fmax, fmin])).1.mpr ?_
    norm_num [k_interval_distances, exLogE, exE, exNC, fmax, fmin]
  · exact (get_k_interval_ordered_iff exLogE exNC exFar 1 exLogE_contract (by decide)
      (by norm_num [k_interval_distances, exLogE, exE, exNC, exFar, fmax, fmin])
      (by norm_num [k_interval_distances, exLogE, exE, exNC, exFar, fmax, fmin])).2.1
      (by decide) (by decide)
      (by norm_num [exNC, exFar, fmax, fmin])


/-! ## The grid of the projection kernels -/

theorem kernel_grid_of_guard (E : Externals) (cosmo : ccl_cosmology) (z_n : List ℚ)
    (h : ¬(E.ccl_linear_spacing 0
          (cosmo.ccl_comoving_radial_distance (1 / (1 + idx z_n (z_n.length - 1)))).1
          (c_int ((cosmo.ccl_comoving_radial_distance
            (1 / (1 + idx z_n (z_n.length - 1)))).1 / 5) + 1) = none
        ∨ fabs (idx ((E.ccl_linear_spacing 0
          (cosmo.ccl_comoving_radial_distance (1 / (1 + idx z_n (z_n.length - 1)))).1
          (c_int ((cosmo.ccl_comoving_radial_distance
            (1 / (1 + idx z_n (z_n.length - 1)))).1 / 5) + 1)).getD []) 0 - 0) > 1 / 100000
        ∨ fabs (idx ((E.ccl_linear_spacing 0
          (cosmo.ccl_comoving_radial_distance (1 / (1 + idx z_n (z_n.length - 1)))).1
          (c_int ((cosmo.ccl_comoving_radial_distance
            (1 / (1 + idx z_n (z_n.length - 1)))).1 / 5) + 1)).getD [])
          (c_int ((cosmo.ccl_comoving_radial_distance
            (1 / (1 + idx z_n (z_n.length - 1)))).1 / 5) + 1 - 1)
          - (cosmo.ccl_comoving_radial_distance (1 / (1 + idx z_n (z_n.length - 1)))).1)
          > 1 / 100000)) :
    kernel_grid_ok E cosmo z_n := by
  unfold kernel_grid_ok
  simp only [not_or, not_lt] at h
  obtain ⟨hx, hx0, hxn⟩ := h
  obtain ⟨x, hx⟩ := Option.ne_none_iff_exists'.mp hx
  rw [hx] at hx0 hxn
  exact ⟨x, hx, hx0, hxn⟩

theorem cl_tracer_new_grid_of_some (E : Externals) (cosmo : ccl_cosmology) (tracer_type : Int)
    (has_rsd has_magnification has_intrinsic_alignment : Int)
    (z_n n z_b b z_s s z_ba ba z_rf rf : List ℚ) (st st1 : Int) (clt : CCL_ClTracer)
    (hk : (tracer_type = E.CL_TRACER_NC ∧ has_magnification ≠ 0) ∨
      (tracer_type ≠ E.CL_TRACER_NC ∧ tracer_type = E.CL_TRACER_WL))
    (h : cl_tracer_new E cosmo tracer_type has_rsd has_magnification has_intrinsic_alignment
      z_n n z_b b z_s s z_ba ba z_rf rf st = (some clt, st1)) :
    kernel_grid_ok E cosmo z_n := by
  unfold cl_tracer_new at h
  obtain ⟨hub, s1, -, h⟩ := build_bind_eq_some.mp h
  have hty : tracer_type = E.CL_TRACER_NC ∨ tracer_type = E.CL_TRACER_WL := by
    rcases hk with hk | hk
    · exact Or.inl hk.1
    · exact Or.inr hk.2
  rw [if_pos hty] at h
  obtain ⟨chimax, s2, -, h⟩ := build_bind_eq_some.mp h
  obtain ⟨spl_nz_raw, s3, -, h⟩ := build_bind_eq_some.mp h
  obtain ⟨u, s4, -, h⟩ := build_bind_eq_some.mp h
  obtain ⟨spl_nz, s5, hnz, h⟩ := build_bind_eq_some.mp h
  obtain ⟨hnz, -⟩ := build_orFail_eq_some.mp hnz
  obtain ⟨-, hspl⟩ := spline_init_eq_some E _ _ _ _ _ _ hnz
  have hxf : spl_nz.xf = idx z_n (z_n.length - 1) := by rw [hspl]
  rcases hk with ⟨hnc, hm⟩ | ⟨hnc, hwl⟩
  · rw [if_pos hnc] at h
    obtain ⟨spl_bz, s6, -, h⟩ := build_bind_eq_some.mp h
    obtain ⟨mag, s7, hmag, -⟩ := build_bind_eq_some.mp h
    rw [if_pos hm] at hmag
    obtain ⟨c2, t1, hc2, hmag⟩ := build_bind_eq_some.mp hmag
    obtain ⟨spl_sz, t2, -, hmag⟩ := build_bind_eq_some.mp hmag
    obtain ⟨u1, t3, hg, -⟩ := build_bind_eq_some.mp hmag
    obtain ⟨hc2, -⟩ := build_callB_eq_some.mp hc2
    obtain ⟨hg, -⟩ := build_failIf_eq_some.mp hg
    rw [hc2, hxf] at hg
    exact kernel_grid_of_guard E cosmo z_n hg
  · rw [if_neg hnc, if_pos hwl] at h
    obtain ⟨c2, t1, hc2, h⟩ := build_bind_eq_some.mp h
    obtain ⟨u1, t2, hg, -⟩ := build_bind_eq_some.mp h
    obtain ⟨hc2, -⟩ := build_callB_eq_some.mp hc2
    obtain ⟨hg, -⟩ := build_failIf_eq_some.mp hg
    rw [hc2, hxf] at hg
    exact kernel_grid_of_guard E cosmo z_n hg

theorem guard_of_not_kernel_grid (E : Externals) (cosmo : ccl_cosmology) (z_n : List ℚ)
    (h : ¬kernel_grid_ok E cosmo z_n) :
    E.ccl_linear_spacing 0
          (cosmo.ccl_comoving_radial_distance (1 / (1 + idx z_n (z_n.length - 1)))).1
          (c_int ((cosmo.ccl_comoving_radial_distance
            (1 / (1 + idx z_n (z_n.length - 1)))).1 / 5) + 1) = none
        ∨ fabs (idx ((E.ccl_linear_spacing 0
          (cosmo.ccl_comoving_radial_distance (1 / (1 + idx z_n (z_n.length - 1)))).1
          (c_int ((cosmo.ccl_comoving_radial_distance
            (1 / (1 + idx z_n (z_n.length - 1)))).1 / 5) + 1)).getD []) 0 - 0) > 1 / 100000
        ∨ fabs (idx ((E.ccl_linear_spacing 0
          (cosmo.ccl_comoving_radial_distance (1 / (1 + idx z_n (z_n.length - 1)))).1
          (c_int ((cosmo.ccl_comoving_radial_distance
            (1 / (1 + idx z_n (z_n.length - 1)))).1 / 5) + 1)).getD [])
          (c_int ((cosmo.ccl_comoving_radial_distance
            (1 / (1 + idx z_n (z_n.length - 1)))).1 / 5) + 1 - 1)
          - (cosmo.ccl_comoving_radial_distance (1 / (1 + idx z_n (z_n.length - 1)))).1)
          > 1 / 100000 := by
  by_contra hcon
  exact h (kernel_grid_of_guard E cosmo z_n hcon)

theorem cl_tracer_new_grid_fails (E : Externals) (cosmo : ccl_cosmology) (tracer_type : Int)
    (has_rsd has_magnification has_intrinsic_alignment : Int)
    (z_n n z_b b z_s s z_ba ba z_rf rf : List ℚ) (st : Int)
    (hk : (tracer_type = E.CL_TRACER_NC ∧ has_magnification ≠ 0) ∨
      (tracer_type ≠ E.CL_TRACER_NC ∧ tracer_type = E.CL_TRACER_WL))
    (hq : (E.gsl_integration_qag (idx z_n 0) (idx z_n (z_n.length - 1))).Succeeds)
    (hzn : ∀ y, E.gsl_spline_init z_n.length z_n y = 0)
    (hb : tracer_type = E.CL_TRACER_NC →
      E.gsl_spline_init z_b.length z_b b = 0 ∧ E.gsl_spline_init z_s.length z_s s = 0)
    (hgrid : ¬kernel_grid_ok E cosmo z_n) :
    cl_tracer_new E cosmo tracer_type has_rsd has_magnification has_intrinsic_alignment
      z_n n z_b b z_s s z_ba ba z_rf rf st = (none, E.CCL_ERROR_LINSPACE) := by
  have hq := quad_integrate_succeeds _ hq
  have hg := guard_of_not_kernel_grid E cosmo z_n hgrid
  have hty : tracer_type = E.CL_TRACER_NC ∨ tracer_type = E.CL_TRACER_WL := by
    rcases hk with hk | hk
    · exact Or.inl hk.1
    · exact Or.inr hk.2
  unfold cl_tracer_new
  rw [build_bind_of_some (build_callB_apply _ _), if_pos hty,
    build_bind_of_some (build_callB_apply _ _),
    spline_init_ok E _ _ _ _ _ (hzn _),
    build_bind_of_some (build_orFail_some _ _ _),
    build_bind_of_some (build_failIf_neg (not_not.mpr (hq _)) _ _),
    spline_init_ok E _ _ _ _ _ (hzn _),
    build_bind_of_some (build_orFail_some _ _ _)]
  rcases hk with ⟨hnc, hm⟩ | ⟨hnc, hwl⟩
  · rw [if_pos hnc, spline_init_ok E _ _ _ _ _ (hb hnc).1,
      build_bind_of_some (build_orFail_some _ _ _)]
    apply build_bind_of_none
    rw [if_pos hm, build_bind_of_some (build_callB_apply _ _),
      spline_init_ok E _ _ _ _ _ (hb hnc).2,
      build_bind_of_some (build_orFail_some _ _ _)]
    apply build_bind_of_none
    apply build_failIf_pos
    exact hg
  · rw [if_neg hnc, if_pos hwl, build_bind_of_some (build_callB_apply _ _)]
    apply build_bind_of_none
    apply build_failIf_pos
    exact hg

/-- C26. When `cl_tracer_new` builds a projection kernel (a weak-lensing
tracer, or a number-counts tracer with magnification) with `C` the comoving
distance to the last N(z) redshift: the grid it asks `ccl_linear_spacing` for
runs from `0` to `C` with `(int)(C/5)+1` points, which is `floor(C/5)+1` for
`C >= 0`; it returns a tracer only if that grid is not `NULL`, its first point
is within `1e-5` of `0` and its last point within `1e-5` of `C`; and if the
grid is `NULL` or one of the two end points is off by more than `1e-5`, it
returns `NULL`, with the status `CCL_ERROR_LINSPACE` whenever the steps before
the kernel (the N(z) splines and normalisation and, for number counts, the
bias and slope splines) succeed. -/
theorem kernel_grid_guard (E : Externals) (cosmo : ccl_cosmology) (tracer_type : Int)
    (has_rsd has_magnification has_intrinsic_alignment : Int)
    (z_n n z_b b z_s s z_ba ba z_rf rf : List ℚ) (st : Int)
    (hk : (tracer_type = E.CL_TRACER_NC ∧ has_magnification ≠ 0) ∨
      (tracer_type ≠ E.CL_TRACER_NC ∧ tracer_type = E.CL_TRACER_WL)) :
    (∀ clt st1, cl_tracer_new E cosmo tracer_type has_rsd has_magnification
        has_intrinsic_alignment z_n n z_b b z_s s z_ba ba z_rf rf st = (some clt, st1) →
      ∃ x, E.ccl_linear_spacing 0
          (cosmo.ccl_comoving_radial_distance (1 / (1 + idx z_n (z_n.length - 1)))).1
          (c_int ((cosmo.ccl_comoving_radial_distance
            (1 / (1 + idx z_n (z_n.length - 1)))).1 / 5) + 1) = some x ∧
        fabs (idx x 0 - 0) ≤ 1 / 100000 ∧
        fabs (idx x (c_int ((cosmo.ccl_comoving_radial_distance
            (1 / (1 + idx z_n (z_n.length - 1)))).1 / 5) + 1 - 1)
          - (cosmo.ccl_comoving_radial_distance
            (1 / (1 + idx z_n (z_n.length - 1)))).1) ≤ 1 / 100000) ∧
    (0 ≤ (cosmo.ccl_comoving_radial_distance (1 / (1 + idx z_n (z_n.length - 1)))).1 →
      c_int ((cosmo.ccl_comoving_radial_distance
          (1 / (1 + idx z_n (z_n.length - 1)))).1 / 5) + 1
        = ⌊(cosmo.ccl_comoving_radial_distance
          (1 / (1 + idx z_n (z_n.length - 1)))).1 / 5⌋ + 1) ∧
    (¬kernel_grid_ok E cosmo z_n →
      (cl_tracer_new E cosmo tracer_type has_rsd has_magnification
        has_intrinsic_alignment z_n n z_b b z_s s z_ba ba z_rf rf st).1 = none ∧
      ((E.gsl_integration_qag (idx z_n 0) (idx z_n (z_n.length - 1))).Succeeds →
        (∀ y, E.gsl_spline_init z_n.length z_n y = 0) →
        (tracer_type = E.CL_TRACER_NC →
          E.gsl_spline_init z_b.length z_b b = 0 ∧ E.gsl_spline_init z_s.length z_s s = 0) →
        cl_tracer_new E cosmo tracer_type has_rsd has_magnification
          has_intrinsic_alignment z_n n z_b b z_s s z_ba ba z_rf rf st
            = (none, E.CCL_ERROR_LINSPACE))) := by
  refine ⟨fun clt st1 h => ?_, fun hC => ?_, fun hgrid => ⟨?_, fun hq hzn hb => ?_⟩⟩
  · exact cl_tracer_new_grid_of_some E cosmo tracer_type has_rsd has_magnification
      has_intrinsic_alignment z_n n z_b b z_s s z_ba ba z_rf rf st st1 clt hk h
  · have h5 : (0 : ℚ) ≤ (cosmo.ccl_comoving_radial_distance
        (1 / (1 + idx z_n (z_n.length - 1)))).1 / 5 := by positivity
    simp only [c_int, if_pos h5]
  · cases hres : (cl_tracer_new E cosmo tracer_type has_rsd has_magnification
        has_intrinsic_alignment z_n n z_b b z_s s z_ba ba z_rf rf st).1 with
    | none => rfl
    | some clt =>
      exact absurd (cl_tracer_new_grid_of_some E cosmo tracer_type has_rsd has_magnification
        has_intrinsic_alignment z_n n z_b b z_s s z_ba ba z_rf rf st _ clt hk
        (Prod.ext hres rfl)) hgrid
  · exact cl_tracer_new_grid_fails E cosmo tracer_type has_rsd has_magnification
      has_intrinsic_alignment z_n n z_b b z_s s z_ba ba z_rf rf st hk hq hzn hb hgrid

/-- Witness of C26: lensing tracers of the example world.  For redshifts up to
`1/600` the distance is `5` and the grid `[0, 5]` passes; for redshifts up to
`1/1000` the distance is `3`, the grid has one point and the factory returns
`NULL` with `CCL_ERROR_LINSPACE`. -/
theorem kernel_grid_guard_witness :
    (∃ x, exOk.ccl_linear_spacing 0
          (exCosmo.ccl_comoving_radial_distance (1 / (1 + idx exZ (exZ.length - 1)))).1
          (c_int ((exCosmo.ccl_comoving_radial_distance
            (1 / (1 + idx exZ (exZ.length - 1)))).1 / 5) + 1) = some x ∧
        fabs (idx x 0 - 0) ≤ 1 / 100000 ∧
        fabs (idx x (c_int ((exCosmo.ccl_comoving_radial_distance
            (1 / (1 + idx exZ (exZ.length - 1)))).1 / 5) + 1 - 1)
          - (exCosmo.ccl_comoving_radial_distance
            (1 / (1 + idx exZ (exZ.length - 1)))).1) ≤ 1 / 100000) ∧
    cl_tracer_new exOk exCosmo 2 0 0 0 exZshort exOnes [] [] [] [] [] [] [] [] 0
      = (none, exOk.CCL_ERROR_LINSPACE) := by
  constructor
  · obtain ⟨clt, hclt⟩ := cl_tracer_new_wl_ok exOk exCosmo exZ exOnes [] [] [] [] [] [] [] [] 0
      (by decide) exCosmo_allSucceed exOk_quad_succeeds exOk_spline exOk_grid
    exact (kernel_grid_guard exOk exCosmo 2 0 0 0 exZ exOnes [] [] [] [] [] [] [] [] 0
      (Or.inr ⟨by decide, rfl⟩)).1 clt 0 hclt
  · exact ((kernel_grid_guard exOk exCosmo 2 0 0 0 exZshort exOnes [] [] [] [] [] [] [] [] 0
      (Or.inr ⟨by decide, rfl⟩)).2.2 exOk_short_grid).2 (exOk_quad_succeeds _ _)
      (fun y => exOk_spline _ _ y) (fun h => absurd h (by decide))

/-! ## C1: the two orders of the product in binary64 -/

theorem round_half_even_of_lt (q : ℚ) (m : Int) (h1 : (m : ℚ) - 1 / 2 < q)
    (h2 : q < (m : ℚ) + 1 / 2) : round_half_even q = m := by
  unfold round_half_even
  have hf1 : (⌊q⌋ : ℚ) ≤ q := Int.floor_le q
  have hf2 : q < (⌊q⌋ : ℚ) + 1 := Int.lt_floor_add_one q
  have hlo : m - 2 < ⌊q⌋ := by
    have h : ((m - 2 : Int) : ℚ) < ((⌊q⌋ : Int) : ℚ) := by
      push_cast
      linarith
    exact Int.cast_lt.mp h
  have hhi : ⌊q⌋ < m + 1 := by
    have : ((⌊q⌋ : Int) : ℚ) < ((m + 1 : Int) : ℚ) := by
      push_cast
      linarith
    exact Int.cast_lt.mp this
  have hcase : ⌊q⌋ = m ∨ ⌊q⌋ = m - 1 := by omega
  rcases hcase with h | h
  · rw [h, if_pos (by linarith)]
  · have hc : ((⌊q⌋ : Int) : ℚ) = (m : ℚ) - 1 := by
      rw [h]
      push_cast
      rfl
    rw [if_neg (by rw [hc]; linarith), if_pos (by rw [hc]; linarith), h]
    omega

theorem b64_eq (x : ℚ) (e : Int) (h1 : (2 : ℚ) ^ e ≤ |x|) (h2 : |x| < (2 : ℚ) ^ (e + 1)) :
    b64 x = (round_half_even (x / 2 ^ (e - 52)) : ℚ) * 2 ^ (e - 52) := by
  have hpos : 0 < |x| := lt_of_lt_of_le (by positivity) h1
  have hx : x ≠ 0 := abs_pos.mp hpos
  have hlog : Int.log 2 |x| = e := by
    apply le_antisymm
    · have := (Int.lt_zpow_iff_log_lt (by norm_num : 1 < 2) hpos).mp (by exact_mod_cast h2)
      omega
    · exact (Int.zpow_le_iff_le_log (by norm_num : 1 < 2) hpos).mp (by exact_mod_cast h1)
  unfold b64
  rw [if_neg hx, hlog]

/-- A value whose quotient by `2^(e-52)` lies within a half of the integer
`m` is rounded to `m * 2^(e-52)`. -/
theorem b64_of_near (x : ℚ) (e m : Int) (h1 : (2 : ℚ) ^ e ≤ |x|)
    (h2 : |x| < (2 : ℚ) ^ (e + 1)) (h3 : (m : ℚ) - 1 / 2 < x / 2 ^ (e - 52))
    (h4 : x / 2 ^ (e - 52) < (m : ℚ) + 1 / 2) : b64 x = (m : ℚ) * 2 ^ (e - 52) := by
  rw [b64_eq x e h1 h2, round_half_even_of_lt _ m h3 h4]

theorem exRoundCosmo_allSucceed : exRoundCosmo.AllSucceed := by
  simp [ccl_cosmology.AllSucceed, exRoundCosmo, exCosmo]

theorem exRound_transfer (clt : CCL_ClTracer) (N : ℚ) (s : Int)
    (h : clt = { exRoundA with
      spl_nz := some { spline := { size := 2, x := [1 / 10000, 1 / 1000], y := [N, N] },
                       x0 := 1 / 10000, xf := 1 / 1000, y0 := 0, yf := 0 } }) :
    transfer_wrap exRoundE exRoundCosmo 1 3 clt s = (N, s) := by
  subst h
  apply Prod.ext
  · have hty : transfer_wrap exRoundE exRoundCosmo 1 3
        { exRoundA with
          spl_nz := some { spline := { size := 2, x := [1 / 10000, 1 / 1000], y := [N, N] },
                           x0 := 1 / 10000, xf := 1 / 1000, y0 := 0, yf := 0 } }
        = transfer_nc exRoundE exRoundCosmo 1 3
        { exRoundA with
          spl_nz := some { spline := { size := 2, x := [1 / 10000, 1 / 1000], y := [N, N] },
                           x0 := 1 / 10000, xf := 1 / 1000, y0 := 0, yf := 0 } } := by
      unfold transfer_wrap
      exact if_pos rfl
    rw [hty, transfer_nc_limber_code exRoundE exRoundCosmo 1 3 _ s (by decide)
      (by norm_num [exRoundA])]
    have hw : wrap32 (2 * 1) = 2 := by decide
    simp only [j_bessel_limber, hw]
    norm_num [isSet, exRoundA, exRoundE, exRoundCosmo, exE, exCosmo, spec_a, spec_H, spec_P,
      spline_eval, deref, idx, CLIGHT_HMPC]
  · exact silent_transfer_wrap exRoundE exRoundCosmo exRoundCosmo_allSucceed 1 3 _ s

theorem exRound_mul_kk : mul_b64 3 3 = 9 := by
  unfold mul_b64
  rw [b64_of_near (3 * 3) 3 (9 * 2 ^ 49) (by norm_num [abs_of_pos])
    (by norm_num [abs_of_pos]) (by norm_num) (by norm_num)]
  norm_num

theorem exRound_mul_kkk : mul_b64 9 3 = 27 := by
  unfold mul_b64
  rw [b64_of_near (9 * 3) 4 (27 * 2 ^ 48) (by norm_num [abs_of_pos])
    (by norm_num [abs_of_pos]) (by norm_num) (by norm_num)]
  norm_num

theorem exRound_mul_A : mul_b64 27 (1 + 1 / 2 ^ 52) = 27 + 1 / 2 ^ 47 := by
  unfold mul_b64
  rw [b64_of_near _ 4 (27 * 2 ^ 48 + 2) (by norm_num [abs_of_pos])
    (by norm_num [abs_of_pos]) (by norm_num) (by norm_num)]
  norm_num

theorem exRound_mul_AB :
    mul_b64 (mul_b64 (mul_b64 (mul_b64 3 3) 3) (1 + 1 / 2 ^ 52)) 7 = 189 + 1 / 2 ^ 44 := by
  have m4 : mul_b64 (27 + 1 / 2 ^ 47) 7 = 189 + 1 / 2 ^ 44 := by
    unfold mul_b64
    rw [b64_of_near _ 7 (189 * 2 ^ 45 + 2) (by norm_num [abs_of_pos])
      (by norm_num [abs_of_pos]) (by norm_num) (by norm_num)]
    norm_num
  rw [exRound_mul_kk, exRound_mul_kkk, exRound_mul_A, m4]

theorem exRound_mul_BA :
    mul_b64 (mul_b64 (mul_b64 (mul_b64 3 3) 3) 7) (1 + 1 / 2 ^ 52) = 189 + 1 / 2 ^ 45 := by
  have m5 : mul_b64 27 7 = 189 := by
    unfold mul_b64
    rw [b64_of_near (27 * 7) 7 (189 * 2 ^ 45) (by norm_num [abs_of_pos])
      (by norm_num [abs_of_pos]) (by norm_num) (by norm_num)]
    norm_num
  have m6 : mul_b64 189 (1 + 1 / 2 ^ 52) = 189 + 1 / 2 ^ 45 := by
    unfold mul_b64
    rw [b64_of_near _ 7 (189 * 2 ^ 45 + 1) (by norm_num [abs_of_pos])
      (by norm_num [abs_of_pos]) (by norm_num) (by norm_num)]
    norm_num
  rw [exRound_mul_kk, exRound_mul_kkk, m5, m6]

theorem exRound_mul_AC :
    mul_b64 (mul_b64 (mul_b64 (mul_b64 3 3) 3) (1 + 1 / 2 ^ 52)) 5 = 135 + 1 / 2 ^ 45 := by
  have m7 : mul_b64 (27 + 1 / 2 ^ 47) 5 = 135 + 1 / 2 ^ 45 := by
    unfold mul_b64
    rw [b64_of_near _ 7 (135 * 2 ^ 45 + 1) (by norm_num [abs_of_pos])
      (by norm_num [abs_of_pos]) (by norm_num) (by norm_num)]
    norm_num
  rw [exRound_mul_kk, exRound_mul_kkk, exRound_mul_A, m7]

theorem exRound_mul_CA :
    mul_b64 (mul_b64 (mul_b64 (mul_b64 3 3) 3) 5) (1 + 1 / 2 ^ 52) = 135 + 1 / 2 ^ 45 := by
  have m8 : mul_b64 27 5 = 135 := by
    unfold mul_b64
    rw [b64_of_near (27 * 5) 7 (135 * 2 ^ 45) (by norm_num [abs_of_pos])
      (by norm_num [abs_of_pos]) (by norm_num) (by norm_num)]
    norm_num
  have m9 : mul_b64 135 (1 + 1 / 2 ^ 52) = 135 + 1 / 2 ^ 45 := by
    unfold mul_b64
    rw [b64_of_near _ 7 (135 * 2 ^ 45 + 1) (by norm_num [abs_of_pos])
      (by norm_num [abs_of_pos]) (by norm_num) (by norm_num)]
    norm_num
  rw [exRound_mul_kk, exRound_mul_kkk, m8, m9]

theorem exRound_products_AC (lk : ℚ) :
    mul_b64 (mul_b64 (mul_b64 (mul_b64 (exRoundE.pow 10 lk) (exRoundE.pow 10 lk))
        (exRoundE.pow 10 lk))
        (transfer_wrap exRoundE exRoundCosmo 1 (exRoundE.pow 10 lk) exRoundA 0).1)
        (transfer_wrap exRoundE exRoundCosmo 1 (exRoundE.pow 10 lk) exRoundC 0).1
      = mul_b64 (mul_b64 (mul_b64 (mul_b64 (exRoundE.pow 10 lk) (exRoundE.pow 10 lk))
        (exRoundE.pow 10 lk))
        (transfer_wrap exRoundE exRoundCosmo 1 (exRoundE.pow 10 lk) exRoundC 0).1)
        (transfer_wrap exRoundE exRoundCosmo 1 (exRoundE.pow 10 lk) exRoundA 0).1 := by
  have hk : exRoundE.pow 10 lk = 3 := rfl
  simp only [hk, exRound_transfer exRoundA (1 + 1 / 2 ^ 52) _ rfl,
    exRound_transfer exRoundC 5 _ rfl, exRound_mul_AC, exRound_mul_CA]

/-- Witness of the amended C1: with binary64 products, `k = 3` and the
transfer functions `T_A = 1 + 2^-52` and `T_C = 5` of two number-counts
tracers at `l = 1`, both orders of the product give `135 + 2^-45`, and
`ccl_angular_cl` returns the same value and status for both orders. -/
theorem ccl_angular_cl_symm_witness :
    ccl_angular_cl_rounded mul_b64 exRoundE exRoundCosmo 1 exRoundA exRoundC 0
      = ccl_angular_cl_rounded mul_b64 exRoundE exRoundCosmo 1 exRoundC exRoundA 0 :=
  (ccl_angular_cl_symm mul_b64 exRoundE exRoundCosmo 1 exRoundA exRoundC 0
    exRound_products_AC).2.2

theorem exRound_integrand_AB (lk : ℚ) (s : Int) :
    cl_integrand_rounded mul_b64 exRoundE exRoundCosmo 1 exRoundA exRoundB lk s
      = (189 + 1 / 2 ^ 44, s) := by
  have hk : exRoundE.pow 10 lk = 3 := rfl
  simp only [cl_integrand_rounded, bind_apply, pure_apply, hk,
    exRound_transfer exRoundA (1 + 1 / 2 ^ 52) _ rfl, exRound_transfer exRoundB 7 _ rfl,
    exRound_mul_AB]

theorem exRound_integrand_BA (lk : ℚ) (s : Int) :
    cl_integrand_rounded mul_b64 exRoundE exRoundCosmo 1 exRoundB exRoundA lk s
      = (189 + 1 / 2 ^ 45, s) := by
  have hk : exRoundE.pow 10 lk = 3 := rfl
  simp only [cl_integrand_rounded, bind_apply, pure_apply, hk,
    exRound_transfer exRoundA (1 + 1 / 2 ^ 52) _ rfl, exRound_transfer exRoundB 7 _ rfl,
    exRound_mul_BA]

/-- Counterexample to C1: with binary64 products, `k = 3` and the transfer
functions `T_A = 1 + 2^-52` and `T_B = 7` of two number-counts tracers at
`l = 1`, the integrand of the pair `(A, B)` is
`(((3*3)*3)*(1 + 2^-52))*7 = 189 + 2^-44` and that of `(B, A)` is
`(((3*3)*3)*7)*(1 + 2^-52) = 189 + 2^-45`, and `ccl_angular_cl` returns
different values for the two orders. -/
theorem ccl_angular_cl_rounding_cex :
    (∀ s, transfer_wrap exRoundE exRoundCosmo 1 3 exRoundA s = (1 + 1 / 2 ^ 52, s)) ∧
    (∀ s, transfer_wrap exRoundE exRoundCosmo 1 3 exRoundB s = (7, s)) ∧
    (∀ lk s, cl_integrand_rounded mul_b64 exRoundE exRoundCosmo 1 exRoundA exRoundB lk s
      = (189 + 1 / 2 ^ 44, s)) ∧
    (∀ lk s, cl_integrand_rounded mul_b64 exRoundE exRoundCosmo 1 exRoundB exRoundA lk s
      = (189 + 1 / 2 ^ 45, s)) ∧
    (ccl_angular_cl_rounded mul_b64 exRoundE exRoundCosmo 1 exRoundA exRoundB 0).1
      ≠ (ccl_angular_cl_rounded mul_b64 exRoundE exRoundCosmo 1 exRoundB exRoundA 0).1 := by
  refine ⟨fun s => exRound_transfer exRoundA _ s rfl, fun s => exRound_transfer exRoundB 7 s rfl,
    exRound_integrand_AB, exRound_integrand_BA, ?_⟩
  have hAB : get_k_interval exRoundE exRoundA exRoundB 1 = (-3 / 4, 2) := by
    norm_num [get_k_interval, exRoundE, exE, exRoundA, exRoundB, fmax, fmin]
  have hBA : get_k_interval exRoundE exRoundB exRoundA 1 = (-3 / 4, 2) := by
    norm_num [get_k_interval, exRoundE, exE, exRoundA, exRoundB, fmax, fmin]
  have hq : ∀ a b : ℚ, exRoundE.gsl_integration_qag a b
      = Quad.eval ((a + b) / 2) (fun v => Quad.done 0 ((b - a) * v)) := fun _ _ => rfl
  unfold ccl_angular_cl_rounded
  simp only [hAB, hBA, hq, Quad.run, exRound_integrand_AB, exRound_integrand_BA]
  norm_num [GSL_SUCCESS, exRoundE, exE]

end CCL
